import Mathlib

/-!
LearningContent: the quiz state machine of `src/assets/script.js`

A shallow embedding of the `LearningApp` class: the privilege table, the chapter
and question records, the user progress record and the event handlers that move
the application from one state to the next.

Conventions of the embedding.

* A handler of the class becomes a function from `AppState` (the fields of
  `this`) to `Outcome`: the state the handler leaves, tagged `done` when it
  returns and `raised` when it stops on the JavaScript `TypeError` of a property
  read on `undefined`.
* Counters are natural numbers; `Infinity` in `maxChapters` is `none`.  The
  point value of a question is whatever integer the content record carries, and
  the score, to which it is added, is an integer.
* The document is an outside collaborator.  What a handler reads from it (the
  text of the fill-in input, the items lying in the drop zone) is passed in as a
  `Dom` record; of what a handler writes to it only the visibility of the four
  question buttons, the feedback line, the upgrade prompt and the number of
  option elements in the two option containers are kept (`Ui`).  The elements
  the script looks up by id are taken to exist; the option elements that
  `highlightMultipleChoiceAnswers` indexes are the ones the loaders created, and
  the call raises when it indexes past them.
* The remote progress store is outside the model.  The analytics object and its
  `userStats` document are modelled on their own (`Analytics`), apart from
  `AppState`.
* The upload script (`content-upload.js`) and the certificate type selection
  (`certificates.js`) are modelled as functions of their arguments and of the
  documents they read.  Quotients that the source takes in floating point are
  taken exactly, as rational numbers.
-/

namespace LearningApp

/-! ## Roles and privileges (script.js, lines 10-55) -/

/-- The five values of `USER_ROLES`. -/
inductive Role where
  | guest
  | student
  | premium
  | teacher
  | admin
deriving DecidableEq, Repr

/-- One row of `ROLE_PRIVILEGES`.  A flag that a row does not mention reads as
`undefined` in the source, which is falsy, and is `false` here.  `maxChapters`
is `none` for `Infinity`. -/
structure Privileges where
  maxChapters : Option Nat
  canSaveProgress : Bool
  canViewDashboard : Bool
  canAccessPremiumContent : Bool
  canDownloadCertificates : Bool
  canCreateContent : Bool
  canViewStudentProgress : Bool
  canManageUsers : Bool
  canAccessAdminPanel : Bool
deriving DecidableEq, Repr

/-- The table `ROLE_PRIVILEGES`. -/
def ROLE_PRIVILEGES : Role → Privileges
  | .guest =>
    { maxChapters := some 2, canSaveProgress := false, canViewDashboard := false,
      canAccessPremiumContent := false, canDownloadCertificates := false,
      canCreateContent := false, canViewStudentProgress := false,
      canManageUsers := false, canAccessAdminPanel := false }
  | .student =>
    { maxChapters := none, canSaveProgress := true, canViewDashboard := true,
      canAccessPremiumContent := false, canDownloadCertificates := false,
      canCreateContent := false, canViewStudentProgress := false,
      canManageUsers := false, canAccessAdminPanel := false }
  | .premium =>
    { maxChapters := none, canSaveProgress := true, canViewDashboard := true,
      canAccessPremiumContent := true, canDownloadCertificates := true,
      canCreateContent := false, canViewStudentProgress := false,
      canManageUsers := false, canAccessAdminPanel := false }
  | .teacher =>
    { maxChapters := none, canSaveProgress := true, canViewDashboard := true,
      canAccessPremiumContent := true, canDownloadCertificates := false,
      canCreateContent := true, canViewStudentProgress := true,
      canManageUsers := false, canAccessAdminPanel := false }
  | .admin =>
    { maxChapters := none, canSaveProgress := true, canViewDashboard := true,
      canAccessPremiumContent := true, canDownloadCertificates := false,
      canCreateContent := true, canViewStudentProgress := true,
      canManageUsers := true, canAccessAdminPanel := true }

/-! ## Content records -/

/-- The `correct` field of a multiple-choice or reading-passage question: one
option index, or an array of option indices (`Array.isArray(question.correct)`). -/
inductive Correct where
  | single (index : Nat)
  | many (indices : List Nat)
deriving DecidableEq, Repr

/-- One entry of the `pairs` array of a matching question. -/
structure Pair where
  left : String
  right : String
deriving DecidableEq, Repr

/-- The five question types, each with the fields the grading reads. -/
inductive QuestionType where
  | multipleChoice (options : List String) (correct : Correct)
  | fillInBlank (correct : List String)
  | dragDrop (items : List String) (correct : List String)
  | matching (pairs : List Pair)
  | readingPassage (passage : String) (options : List String) (correct : Correct)
deriving DecidableEq, Repr

/-- A question record.  `points` is `none` when the record has no `points`
field; no loader bounds the number the field holds. -/
structure Question where
  type : QuestionType
  question : String
  feedback : String
  points : Option Int
deriving DecidableEq, Repr

/-- A chapter record, as built by `loadChapters` or `loadSampleData`. -/
structure Chapter where
  id : String
  title : String
  lesson : String
  explanation : String
  examples : List String
  isPremium : Bool
  order : Nat
  questions : List Question
deriving DecidableEq, Repr

/-! ## Application state -/

/-- The record `this.userProgress`.  `chapterProgress` is a map from chapter id
to a progress figure; the class only ever stores the empty map in it. -/
structure UserProgress where
  score : Int
  totalQuestions : Nat
  correctAnswers : Nat
  completedChapters : List String
  chapterProgress : List (String × Nat)
deriving DecidableEq, Repr

/-- The record `this.selectedMatching`: the left item (its `dataset.index`) and
the right item (its `dataset.value`) currently selected, `none` for `null`. -/
structure SelectedMatching where
  left : Option Nat
  right : Option String
deriving DecidableEq, Repr

/-- One entry of `this.matchedPairs`. -/
structure MatchedPair where
  left : Nat
  right : String
deriving DecidableEq, Repr

/-- The part of the document the handlers write and the claims observe.
`choiceOptions` is the number of elements of class `option` in
`#options-container`, `readingOptions` their number in `#reading-options`; the
script creates elements of that class nowhere else. -/
structure Ui where
  submitAnswerShown : Bool
  nextQuestionShown : Bool
  completeChapterShown : Bool
  showExplanationShown : Bool
  feedback : Option (String × Bool)
  upgradePrompt : Option String
  choiceOptions : Nat
  readingOptions : Nat
deriving DecidableEq, Repr

/-- What a handler reads from the document when an answer is submitted. -/
structure Dom where
  fillBlankInput : String
  dropZone : List String
deriving DecidableEq, Repr

/-- The fields of a `LearningApp` instance, with the local-storage entry
`learningProgress` and the observed part of the document.  `selectedAnswer`,
`selectedMatching` and `matchedPairs` are `none` while the property is
`undefined`. -/
structure AppState where
  chapters : List Chapter
  currentChapterIndex : Nat
  currentQuestionIndex : Nat
  userProgress : UserProgress
  currentUser : Option String
  userRole : Role
  isAnswered : Bool
  selectedAnswer : Option Nat
  selectedMatching : Option SelectedMatching
  matchedPairs : Option (List MatchedPair)
  localStorage : Option UserProgress
  ui : Ui
deriving DecidableEq, Repr

/-- How a handler ends: normally (`done`), or by raising the `TypeError` of a
property read on `undefined` (`raised`); in both cases with the state it leaves
behind. -/
inductive Outcome where
  | done (s : AppState)
  | raised (s : AppState)
deriving DecidableEq, Repr

/-- The state a handler leaves behind, however it ended. -/
def Outcome.state : Outcome → AppState
  | .done s => s
  | .raised s => s

/-- The progress record of the constructor and of `resetProgress`. -/
def zeroProgress : UserProgress :=
  { score := 0, totalQuestions := 0, correctAnswers := 0, completedChapters := [],
    chapterProgress := [] }

/-- The state the constructor leaves, once `loadChapters` has filled in
`chapters`: a guest session on zeroed progress, before `init` restores a saved
record (`loadLocalProgress`) and draws the first question; `init` below is the
start-up with the restoration.  The buttons start as `loadQuestion` sets them. -/
def initialState (chapters : List Chapter) : AppState :=
  { chapters := chapters, currentChapterIndex := 0, currentQuestionIndex := 0,
    userProgress := zeroProgress, currentUser := none, userRole := .guest,
    isAnswered := false, selectedAnswer := none, selectedMatching := none,
    matchedPairs := none, localStorage := none,
    ui := { submitAnswerShown := true, nextQuestionShown := false,
            completeChapterShown := false, showExplanationShown := false,
            feedback := none, upgradePrompt := none, choiceOptions := 0,
            readingOptions := 0 } }

/-- The expression `this.chapters[this.currentChapterIndex]`. -/
def currentChapter (s : AppState) : Option Chapter :=
  s.chapters[s.currentChapterIndex]?

/-- The expression `chapter.questions[this.currentQuestionIndex]` on the current
chapter. -/
def currentQuestion (s : AppState) : Option Question :=
  match currentChapter s with
  | none => none
  | some chapter => chapter.questions[s.currentQuestionIndex]?

/-! ## Access gate -/

/-- The call `this.chapters.indexOf(chapter)`: the first position holding the
chapter, `-1` when there is none.  The source compares object references; the
chapters of a loaded list are distinct objects with distinct document ids, and
the theorems about this function assume the ids are pairwise distinct. -/
def indexOf (chapters : List Chapter) (chapter : Chapter) : Int :=
  if chapter ∈ chapters then (chapters.indexOf chapter : Int) else -1

/-- The comparison `chapterIndex < privileges.maxChapters`, `none` being
`Infinity`. -/
def ltMaxChapters (chapterIndex : Int) : Option Nat → Bool
  | none => true
  | some m => decide (chapterIndex < (m : Int))

/-- The method `canAccessChapter` (lines 400-409), on a chapter that is defined. -/
def canAccessChapter (s : AppState) (chapter : Chapter) : Bool :=
  let privileges := ROLE_PRIVILEGES s.userRole
  if chapter.isPremium && !privileges.canAccessPremiumContent then
    false
  else
    let chapterIndex := indexOf s.chapters chapter
    ltMaxChapters chapterIndex privileges.maxChapters

/-- The method `showUpgradePrompt` (lines 411-435): the main view is replaced by
the prompt naming the chapter.  The elements the script looks up by id, the two
option containers among them, are taken to stay in the page. -/
def showUpgradePrompt (s : AppState) (chapter : Chapter) : AppState :=
  { s with ui := { s.ui with upgradePrompt := some chapter.title } }

/-! ## Loading a question -/

/-- The last two statements of `loadMatching` (lines 623-624). -/
def loadMatching (s : AppState) : AppState :=
  { s with selectedMatching := some { left := none, right := none },
           matchedPairs := some [] }

/-- The method `loadMultipleChoice` (lines 491-506): the container is emptied
and receives one option element per entry of `question.options`. -/
def loadMultipleChoice (s : AppState) (options : List String) : AppState :=
  { s with ui := { s.ui with choiceOptions := options.length } }

/-- The method `loadReadingPassage` (lines 627-646): the same on the container
of the reading options. -/
def loadReadingPassage (s : AppState) (options : List String) : AppState :=
  { s with ui := { s.ui with readingOptions := options.length } }

/-- The method `loadQuestion` (lines 441-481). -/
def loadQuestion (s : AppState) : Outcome :=
  match currentChapter s with
  | none => .raised s
  | some chapter =>
    if chapter.questions.length = 0 then .done s
    else
      let s1 := { s with isAnswered := false }
      match chapter.questions[s.currentQuestionIndex]? with
      | none => .raised s1
      | some question =>
        let s2 : AppState :=
          match question.type with
          | .multipleChoice options _ => loadMultipleChoice s1 options
          | .readingPassage _ options _ => loadReadingPassage s1 options
          | .matching _ => loadMatching s1
          | _ => s1
        let ui2 : Ui :=
          { s2.ui with submitAnswerShown := true, nextQuestionShown := false,
                       showExplanationShown := false, feedback := none }
        Outcome.done { s2 with ui := ui2 }

/-- The method `updateUI` (lines 364-398). -/
def updateUI (s : AppState) : Outcome :=
  if s.chapters.length = 0 then .done s
  else
    match currentChapter s with
    | none => .raised s
    | some chapter =>
      if !canAccessChapter s chapter then .done (showUpgradePrompt s chapter)
      else loadQuestion { s with currentQuestionIndex := 0 }

/-! ## Selecting -/

/-- The method `selectOption` (lines 648-659). -/
def selectOption (s : AppState) (index : Nat) : Outcome :=
  if s.isAnswered then .done s
  else .done { s with selectedAnswer := some index }

/-- An item of the matching columns: a left item carries `dataset.index`, a
right item carries `dataset.value`. -/
inductive MatchingItem where
  | left (index : Nat)
  | right (value : String)
deriving DecidableEq, Repr

/-- The method `matchPair` (lines 681-703). -/
def matchPair (s : AppState) : Outcome :=
  match s.selectedMatching with
  | none => .raised s
  | some sel =>
    match sel.left, sel.right with
    | some leftIndex, some rightValue =>
      match currentQuestion s with
      | none => .raised s
      | some question =>
        match question.type with
        | .matching pairs =>
          match pairs[leftIndex]? with
          | none => .raised s
          | some correctPair =>
            if correctPair.right = rightValue then
              match s.matchedPairs with
              | none => .raised s
              | some matched =>
                .done { s with
                  matchedPairs := some (matched ++ [{ left := leftIndex, right := rightValue }]),
                  selectedMatching := some { left := none, right := none } }
            else
              .done { s with selectedMatching := some { left := none, right := none } }
        | _ => .raised s
    | _, _ => .raised s

/-- The method `selectMatchingItem` (lines 661-679); the side is the column of
the item. -/
def selectMatchingItem (s : AppState) (item : MatchingItem) : Outcome :=
  if s.isAnswered then .done s
  else
    match s.selectedMatching with
    | none => .raised s
    | some sel =>
      let sel1 : SelectedMatching :=
        match item with
        | .left index => { sel with left := some index }
        | .right value => { sel with right := some value }
      let s1 := { s with selectedMatching := some sel1 }
      if sel1.left.isSome && sel1.right.isSome then matchPair s1
      else .done s1

/-! ## Progress bookkeeping -/

/-- The method `saveProgress` (lines 988-997): the local-storage entry. -/
def saveProgress (s : AppState) : AppState :=
  let privileges := ROLE_PRIVILEGES s.userRole
  if privileges.canSaveProgress then { s with localStorage := some s.userProgress }
  else s

/-- The method `updateScore` (lines 792-801). -/
def updateScore (s : AppState) (isCorrect : Bool) (points : Int) : AppState :=
  let p := s.userProgress
  let p1 := { p with totalQuestions := p.totalQuestions + 1 }
  let p2 :=
    if isCorrect then
      { p1 with correctAnswers := p1.correctAnswers + 1, score := p1.score + points }
    else p1
  saveProgress { s with userProgress := p2 }

/-- The method `showFeedback` (lines 785-790). -/
def showFeedback (s : AppState) (feedback : String) (isCorrect : Bool) : AppState :=
  { s with ui := { s.ui with feedback := some (feedback, isCorrect) } }

/-- The expression `question.points || 10`: a missing value and `0` are falsy,
every other number, a negative one included, is truthy. -/
def pointsOrTen : Option Int → Int
  | none => 10
  | some p => if p = 0 then 10 else p

/-! ## Host string functions used by the grading

Models of the built-ins `String.prototype.trim`, `String.prototype.toLowerCase`
and `JSON.stringify` on the values the grading hands them.  A Lean `String` is a
sequence of Unicode scalar values, that is, a JavaScript string without lone
surrogates.  The lower-casing follows the Unicode default case conversion that
ECMAScript prescribes, with the tables of version 14.0 of the Unicode Character
Database. -/

/-- The code points `trim` strips: the ECMAScript white space and line
terminator code points. -/
def isTrimmed (c : Char) : Bool :=
  let n := c.toNat
  n = 9 || n = 10 || n = 11 || n = 12 || n = 13 || n = 32 || n = 160 || n = 5760
    || (8192 ≤ n && n ≤ 8202) || n = 8232 || n = 8233 || n = 8239 || n = 8287
    || n = 12288 || n = 65279

/-- The built-in `String.prototype.trim`. -/
def trim (s : String) : String :=
  String.mk ((s.data.dropWhile isTrimmed).reverse.dropWhile isTrimmed).reverse

/-- The simple lowercase mappings of the Unicode Character Database (version
14.0, file `UnicodeData.txt`), in runs `(first, last, step, image)`: the code
points `first`, `first + step`, and so on up to `last`, map to `image` plus
their distance from `first`.  The capital sigma and the dotted capital I, which
`SpecialCasing.txt` treats, are not in the table. -/
def lowercaseRuns : List (Nat × Nat × Nat × Nat) :=
  [ (65, 90, 1, 97), (192, 214, 1, 224), (216, 222, 1, 248), (256, 302, 2, 257),
    (306, 310, 2, 307), (313, 327, 2, 314), (330, 374, 2, 331), (376, 376, 1, 255),
    (377, 381, 2, 378), (385, 385, 1, 595), (386, 388, 2, 387), (390, 390, 1, 596),
    (391, 391, 1, 392), (393, 394, 1, 598), (395, 395, 1, 396), (398, 398, 1, 477),
    (399, 399, 1, 601), (400, 400, 1, 603), (401, 401, 1, 402), (403, 403, 1, 608),
    (404, 404, 1, 611), (406, 406, 1, 617), (407, 407, 1, 616), (408, 408, 1, 409),
    (412, 412, 1, 623), (413, 413, 1, 626), (415, 415, 1, 629), (416, 420, 2, 417),
    (422, 422, 1, 640), (423, 423, 1, 424), (425, 425, 1, 643), (428, 428, 1, 429),
    (430, 430, 1, 648), (431, 431, 1, 432), (433, 434, 1, 650), (435, 437, 2, 436),
    (439, 439, 1, 658), (440, 440, 1, 441), (444, 444, 1, 445), (452, 452, 1, 454),
    (453, 453, 1, 454), (455, 455, 1, 457), (456, 456, 1, 457), (458, 458, 1, 460),
    (459, 475, 2, 460), (478, 494, 2, 479), (497, 497, 1, 499), (498, 500, 2, 499),
    (502, 502, 1, 405), (503, 503, 1, 447), (504, 542, 2, 505), (544, 544, 1, 414),
    (546, 562, 2, 547), (570, 570, 1, 11365), (571, 571, 1, 572), (573, 573, 1, 410),
    (574, 574, 1, 11366), (577, 577, 1, 578), (579, 579, 1, 384), (580, 580, 1, 649),
    (581, 581, 1, 652), (582, 590, 2, 583), (880, 882, 2, 881), (886, 886, 1, 887),
    (895, 895, 1, 1011), (902, 902, 1, 940), (904, 906, 1, 941), (908, 908, 1, 972),
    (910, 911, 1, 973), (913, 929, 1, 945), (932, 939, 1, 964), (975, 975, 1, 983),
    (984, 1006, 2, 985), (1012, 1012, 1, 952), (1015, 1015, 1, 1016), (1017, 1017, 1, 1010),
    (1018, 1018, 1, 1019), (1021, 1023, 1, 891), (1024, 1039, 1, 1104), (1040, 1071, 1, 1072),
    (1120, 1152, 2, 1121), (1162, 1214, 2, 1163), (1216, 1216, 1, 1231), (1217, 1229, 2, 1218),
    (1232, 1326, 2, 1233), (1329, 1366, 1, 1377), (4256, 4293, 1, 11520), (4295, 4295, 1, 11559),
    (4301, 4301, 1, 11565), (5024, 5103, 1, 43888), (5104, 5109, 1, 5112), (7312, 7354, 1, 4304),
    (7357, 7359, 1, 4349), (7680, 7828, 2, 7681), (7838, 7838, 1, 223), (7840, 7934, 2, 7841),
    (7944, 7951, 1, 7936), (7960, 7965, 1, 7952), (7976, 7983, 1, 7968), (7992, 7999, 1, 7984),
    (8008, 8013, 1, 8000), (8025, 8031, 2, 8017), (8040, 8047, 1, 8032), (8072, 8079, 1, 8064),
    (8088, 8095, 1, 8080), (8104, 8111, 1, 8096), (8120, 8121, 1, 8112), (8122, 8123, 1, 8048),
    (8124, 8124, 1, 8115), (8136, 8139, 1, 8050), (8140, 8140, 1, 8131), (8152, 8153, 1, 8144),
    (8154, 8155, 1, 8054), (8168, 8169, 1, 8160), (8170, 8171, 1, 8058), (8172, 8172, 1, 8165),
    (8184, 8185, 1, 8056), (8186, 8187, 1, 8060), (8188, 8188, 1, 8179), (8486, 8486, 1, 969),
    (8490, 8490, 1, 107), (8491, 8491, 1, 229), (8498, 8498, 1, 8526), (8544, 8559, 1, 8560),
    (8579, 8579, 1, 8580), (9398, 9423, 1, 9424), (11264, 11311, 1, 11312), (11360, 11360, 1, 11361),
    (11362, 11362, 1, 619), (11363, 11363, 1, 7549), (11364, 11364, 1, 637), (11367, 11371, 2, 11368),
    (11373, 11373, 1, 593), (11374, 11374, 1, 625), (11375, 11375, 1, 592), (11376, 11376, 1, 594),
    (11378, 11378, 1, 11379), (11381, 11381, 1, 11382), (11390, 11391, 1, 575), (11392, 11490, 2, 11393),
    (11499, 11501, 2, 11500), (11506, 11506, 1, 11507), (42560, 42604, 2, 42561), (42624, 42650, 2, 42625),
    (42786, 42798, 2, 42787), (42802, 42862, 2, 42803), (42873, 42875, 2, 42874), (42877, 42877, 1, 7545),
    (42878, 42886, 2, 42879), (42891, 42891, 1, 42892), (42893, 42893, 1, 613), (42896, 42898, 2, 42897),
    (42902, 42920, 2, 42903), (42922, 42922, 1, 614), (42923, 42923, 1, 604), (42924, 42924, 1, 609),
    (42925, 42925, 1, 620), (42926, 42926, 1, 618), (42928, 42928, 1, 670), (42929, 42929, 1, 647),
    (42930, 42930, 1, 669), (42931, 42931, 1, 43859), (42932, 42946, 2, 42933), (42948, 42948, 1, 42900),
    (42949, 42949, 1, 642), (42950, 42950, 1, 7566), (42951, 42953, 2, 42952), (42960, 42960, 1, 42961),
    (42966, 42968, 2, 42967), (42997, 42997, 1, 42998), (65313, 65338, 1, 65345), (66560, 66599, 1, 66600),
    (66736, 66771, 1, 66776), (66928, 66938, 1, 66967), (66940, 66954, 1, 66979), (66956, 66962, 1, 66995),
    (66964, 66965, 1, 67003), (68736, 68786, 1, 68800), (71840, 71871, 1, 71872), (93760, 93791, 1, 93792),
    (125184, 125217, 1, 125218)]

/-- The lowercase image of a code point that has a simple mapping; the code
point itself when it has none. -/
def lowerCode (n : Nat) : Nat :=
  match lowercaseRuns.find? (fun r =>
      decide (r.1 ≤ n) && decide (n ≤ r.2.1) && (n - r.1) % r.2.2.1 == 0) with
  | some r => r.2.2.2 + (n - r.1)
  | none => n

/-- The code points with the property `Case_Ignorable` (file
`DerivedCoreProperties.txt`), in ranges `(first, last)`. -/
def caseIgnorableRanges : List (Nat × Nat) :=
  [ (39, 39), (46, 46), (58, 58), (94, 94), (96, 96), (168, 168),
    (173, 173), (175, 175), (180, 180), (183, 184), (688, 879), (884, 885),
    (890, 890), (900, 901), (903, 903), (1155, 1161), (1369, 1369), (1375, 1375),
    (1425, 1469), (1471, 1471), (1473, 1474), (1476, 1477), (1479, 1479), (1524, 1524),
    (1536, 1541), (1552, 1562), (1564, 1564), (1600, 1600), (1611, 1631), (1648, 1648),
    (1750, 1757), (1759, 1768), (1770, 1773), (1807, 1807), (1809, 1809), (1840, 1866),
    (1958, 1968), (2027, 2037), (2042, 2042), (2045, 2045), (2070, 2093), (2137, 2139),
    (2184, 2184), (2192, 2193), (2200, 2207), (2249, 2306), (2362, 2362), (2364, 2364),
    (2369, 2376), (2381, 2381), (2385, 2391), (2402, 2403), (2417, 2417), (2433, 2433),
    (2492, 2492), (2497, 2500), (2509, 2509), (2530, 2531), (2558, 2558), (2561, 2562),
    (2620, 2620), (2625, 2626), (2631, 2632), (2635, 2637), (2641, 2641), (2672, 2673),
    (2677, 2677), (2689, 2690), (2748, 2748), (2753, 2757), (2759, 2760), (2765, 2765),
    (2786, 2787), (2810, 2815), (2817, 2817), (2876, 2876), (2879, 2879), (2881, 2884),
    (2893, 2893), (2901, 2902), (2914, 2915), (2946, 2946), (3008, 3008), (3021, 3021),
    (3072, 3072), (3076, 3076), (3132, 3132), (3134, 3136), (3142, 3144), (3146, 3149),
    (3157, 3158), (3170, 3171), (3201, 3201), (3260, 3260), (3263, 3263), (3270, 3270),
    (3276, 3277), (3298, 3299), (3328, 3329), (3387, 3388), (3393, 3396), (3405, 3405),
    (3426, 3427), (3457, 3457), (3530, 3530), (3538, 3540), (3542, 3542), (3633, 3633),
    (3636, 3642), (3654, 3662), (3761, 3761), (3764, 3772), (3782, 3782), (3784, 3789),
    (3864, 3865), (3893, 3893), (3895, 3895), (3897, 3897), (3953, 3966), (3968, 3972),
    (3974, 3975), (3981, 3991), (3993, 4028), (4038, 4038), (4141, 4144), (4146, 4151),
    (4153, 4154), (4157, 4158), (4184, 4185), (4190, 4192), (4209, 4212), (4226, 4226),
    (4229, 4230), (4237, 4237), (4253, 4253), (4348, 4348), (4957, 4959), (5906, 5908),
    (5938, 5939), (5970, 5971), (6002, 6003), (6068, 6069), (6071, 6077), (6086, 6086),
    (6089, 6099), (6103, 6103), (6109, 6109), (6155, 6159), (6211, 6211), (6277, 6278),
    (6313, 6313), (6432, 6434), (6439, 6440), (6450, 6450), (6457, 6459), (6679, 6680),
    (6683, 6683), (6742, 6742), (6744, 6750), (6752, 6752), (6754, 6754), (6757, 6764),
    (6771, 6780), (6783, 6783), (6823, 6823), (6832, 6862), (6912, 6915), (6964, 6964),
    (6966, 6970), (6972, 6972), (6978, 6978), (7019, 7027), (7040, 7041), (7074, 7077),
    (7080, 7081), (7083, 7085), (7142, 7142), (7144, 7145), (7149, 7149), (7151, 7153),
    (7212, 7219), (7222, 7223), (7288, 7293), (7376, 7378), (7380, 7392), (7394, 7400),
    (7405, 7405), (7412, 7412), (7416, 7417), (7468, 7530), (7544, 7544), (7579, 7679),
    (8125, 8125), (8127, 8129), (8141, 8143), (8157, 8159), (8173, 8175), (8189, 8190),
    (8203, 8207), (8216, 8217), (8228, 8228), (8231, 8231), (8234, 8238), (8288, 8292),
    (8294, 8303), (8305, 8305), (8319, 8319), (8336, 8348), (8400, 8432), (11388, 11389),
    (11503, 11505), (11631, 11631), (11647, 11647), (11744, 11775), (11823, 11823), (12293, 12293),
    (12330, 12333), (12337, 12341), (12347, 12347), (12441, 12446), (12540, 12542), (40981, 40981),
    (42232, 42237), (42508, 42508), (42607, 42610), (42612, 42621), (42623, 42623), (42652, 42655),
    (42736, 42737), (42752, 42785), (42864, 42864), (42888, 42890), (42994, 42996), (43000, 43001),
    (43010, 43010), (43014, 43014), (43019, 43019), (43045, 43046), (43052, 43052), (43204, 43205),
    (43232, 43249), (43263, 43263), (43302, 43309), (43335, 43345), (43392, 43394), (43443, 43443),
    (43446, 43449), (43452, 43453), (43471, 43471), (43493, 43494), (43561, 43566), (43569, 43570),
    (43573, 43574), (43587, 43587), (43596, 43596), (43632, 43632), (43644, 43644), (43696, 43696),
    (43698, 43700), (43703, 43704), (43710, 43711), (43713, 43713), (43741, 43741), (43756, 43757),
    (43763, 43764), (43766, 43766), (43867, 43871), (43881, 43883), (44005, 44005), (44008, 44008),
    (44013, 44013), (64286, 64286), (64434, 64450), (65024, 65039), (65043, 65043), (65056, 65071),
    (65106, 65106), (65109, 65109), (65279, 65279), (65287, 65287), (65294, 65294), (65306, 65306),
    (65342, 65342), (65344, 65344), (65392, 65392), (65438, 65439), (65507, 65507), (65529, 65531),
    (66045, 66045), (66272, 66272), (66422, 66426), (67456, 67461), (67463, 67504), (67506, 67514),
    (68097, 68099), (68101, 68102), (68108, 68111), (68152, 68154), (68159, 68159), (68325, 68326),
    (68900, 68903), (69291, 69292), (69446, 69456), (69506, 69509), (69633, 69633), (69688, 69702),
    (69744, 69744), (69747, 69748), (69759, 69761), (69811, 69814), (69817, 69818), (69821, 69821),
    (69826, 69826), (69837, 69837), (69888, 69890), (69927, 69931), (69933, 69940), (70003, 70003),
    (70016, 70017), (70070, 70078), (70089, 70092), (70095, 70095), (70191, 70193), (70196, 70196),
    (70198, 70199), (70206, 70206), (70367, 70367), (70371, 70378), (70400, 70401), (70459, 70460),
    (70464, 70464), (70502, 70508), (70512, 70516), (70712, 70719), (70722, 70724), (70726, 70726),
    (70750, 70750), (70835, 70840), (70842, 70842), (70847, 70848), (70850, 70851), (71090, 71093),
    (71100, 71101), (71103, 71104), (71132, 71133), (71219, 71226), (71229, 71229), (71231, 71232),
    (71339, 71339), (71341, 71341), (71344, 71349), (71351, 71351), (71453, 71455), (71458, 71461),
    (71463, 71467), (71727, 71735), (71737, 71738), (71995, 71996), (71998, 71998), (72003, 72003),
    (72148, 72151), (72154, 72155), (72160, 72160), (72193, 72202), (72243, 72248), (72251, 72254),
    (72263, 72263), (72273, 72278), (72281, 72283), (72330, 72342), (72344, 72345), (72752, 72758),
    (72760, 72765), (72767, 72767), (72850, 72871), (72874, 72880), (72882, 72883), (72885, 72886),
    (73009, 73014), (73018, 73018), (73020, 73021), (73023, 73029), (73031, 73031), (73104, 73105),
    (73109, 73109), (73111, 73111), (73459, 73460), (78896, 78904), (92912, 92916), (92976, 92982),
    (92992, 92995), (94031, 94031), (94095, 94111), (94176, 94177), (94179, 94180), (110576, 110579),
    (110581, 110587), (110589, 110590), (113821, 113822), (113824, 113827), (118528, 118573), (118576, 118598),
    (119143, 119145), (119155, 119170), (119173, 119179), (119210, 119213), (119362, 119364), (121344, 121398),
    (121403, 121452), (121461, 121461), (121476, 121476), (121499, 121503), (121505, 121519), (122880, 122886),
    (122888, 122904), (122907, 122913), (122915, 122916), (122918, 122922), (123184, 123197), (123566, 123566),
    (123628, 123631), (125136, 125142), (125252, 125259), (127995, 127999), (917505, 917505), (917536, 917631),
    (917760, 917999)]

/-- The code points with the property `Cased` that are not case-ignorable, in
ranges `(first, last)`. -/
def casedRanges : List (Nat × Nat) :=
  [ (65, 90), (97, 122), (170, 170), (181, 181), (186, 186), (192, 214),
    (216, 246), (248, 442), (444, 447), (452, 659), (661, 687), (880, 883),
    (886, 887), (891, 893), (895, 895), (902, 902), (904, 906), (908, 908),
    (910, 929), (931, 1013), (1015, 1153), (1162, 1327), (1329, 1366), (1376, 1416),
    (4256, 4293), (4295, 4295), (4301, 4301), (4304, 4346), (4349, 4351), (5024, 5109),
    (5112, 5117), (7296, 7304), (7312, 7354), (7357, 7359), (7424, 7467), (7531, 7543),
    (7545, 7578), (7680, 7957), (7960, 7965), (7968, 8005), (8008, 8013), (8016, 8023),
    (8025, 8025), (8027, 8027), (8029, 8029), (8031, 8061), (8064, 8116), (8118, 8124),
    (8126, 8126), (8130, 8132), (8134, 8140), (8144, 8147), (8150, 8155), (8160, 8172),
    (8178, 8180), (8182, 8188), (8450, 8450), (8455, 8455), (8458, 8467), (8469, 8469),
    (8473, 8477), (8484, 8484), (8486, 8486), (8488, 8488), (8490, 8493), (8495, 8500),
    (8505, 8505), (8508, 8511), (8517, 8521), (8526, 8526), (8544, 8575), (8579, 8580),
    (9398, 9449), (11264, 11387), (11390, 11492), (11499, 11502), (11506, 11507), (11520, 11557),
    (11559, 11559), (11565, 11565), (42560, 42605), (42624, 42651), (42786, 42863), (42865, 42887),
    (42891, 42894), (42896, 42954), (42960, 42961), (42963, 42963), (42965, 42969), (42997, 42998),
    (43002, 43002), (43824, 43866), (43872, 43880), (43888, 43967), (64256, 64262), (64275, 64279),
    (65313, 65338), (65345, 65370), (66560, 66639), (66736, 66771), (66776, 66811), (66928, 66938),
    (66940, 66954), (66956, 66962), (66964, 66965), (66967, 66977), (66979, 66993), (66995, 67001),
    (67003, 67004), (68736, 68786), (68800, 68850), (71840, 71903), (93760, 93823), (119808, 119892),
    (119894, 119964), (119966, 119967), (119970, 119970), (119973, 119974), (119977, 119980), (119982, 119993),
    (119995, 119995), (119997, 120003), (120005, 120069), (120071, 120074), (120077, 120084), (120086, 120092),
    (120094, 120121), (120123, 120126), (120128, 120132), (120134, 120134), (120138, 120144), (120146, 120485),
    (120488, 120512), (120514, 120538), (120540, 120570), (120572, 120596), (120598, 120628), (120630, 120654),
    (120656, 120686), (120688, 120712), (120714, 120744), (120746, 120770), (120772, 120779), (122624, 122633),
    (122635, 122654), (125184, 125251), (127280, 127305), (127312, 127337), (127344, 127369)]

/-- Membership of a code point in a list of ranges. -/
def inRanges (ranges : List (Nat × Nat)) (n : Nat) : Bool :=
  ranges.any fun r => decide (r.1 ≤ n) && decide (n ≤ r.2)

/-- The property `Case_Ignorable`. -/
def isCaseIgnorable (c : Char) : Bool :=
  inRanges caseIgnorableRanges c.toNat

/-- The property `Cased`, on a character that is not case-ignorable. -/
def isCased (c : Char) : Bool :=
  inRanges casedRanges c.toNat

/-- The condition `Final_Sigma` of `SpecialCasing.txt` on a capital sigma:
`before` holds the characters in front of it, the nearest first, and `rest` the
characters behind it.  Going back over case-ignorable characters a cased letter
is found, and going forward over case-ignorable characters none is. -/
def finalSigma (before rest : List Char) : Bool :=
  (match before.dropWhile isCaseIgnorable with
   | c :: _ => isCased c
   | [] => false) &&
  (match rest.dropWhile isCaseIgnorable with
   | c :: _ => !isCased c
   | [] => true)

/-- The lowercase characters of a string from some position on: `before` holds
the characters in front of the position, the nearest first.  The capital sigma
(931) becomes the final small sigma (962) under `Final_Sigma` and the small
sigma (963) otherwise; the dotted capital I (304) becomes `i` followed by the
combining dot above (775); every other character takes its simple mapping. -/
def lowerChars (before : List Char) : List Char → List Char
  | [] => []
  | c :: rest =>
    (if c.toNat = 931 then
      (if finalSigma before rest then [Char.ofNat 962] else [Char.ofNat 963])
    else if c.toNat = 304 then [Char.ofNat 105, Char.ofNat 775]
    else [Char.ofNat (lowerCode c.toNat)]) ++ lowerChars (c :: before) rest

/-- The built-in `String.prototype.toLowerCase`: the Unicode default case
conversion, which is independent of the locale. -/
def toLowerCase (s : String) : String :=
  String.mk (lowerChars [] s.data)

/-- One lowercase hexadecimal digit. -/
def hexDigit (n : Nat) : Char :=
  if n < 10 then Char.ofNat (48 + n) else Char.ofNat (87 + n)

/-- The characters `JSON.stringify` writes for one character of a string
(`QuoteJSONString`): the two-character escapes of backspace, tab, line feed,
form feed, carriage return, the double quote and the backslash; a `u` escape
with four hexadecimal digits for the other code points below 32; the character
itself otherwise. -/
def quoteJSONChar (c : Char) : List Char :=
  let n := c.toNat
  if n = 8 then [Char.ofNat 92, Char.ofNat 98]
  else if n = 9 then [Char.ofNat 92, Char.ofNat 116]
  else if n = 10 then [Char.ofNat 92, Char.ofNat 110]
  else if n = 12 then [Char.ofNat 92, Char.ofNat 102]
  else if n = 13 then [Char.ofNat 92, Char.ofNat 114]
  else if n = 34 then [Char.ofNat 92, Char.ofNat 34]
  else if n = 92 then [Char.ofNat 92, Char.ofNat 92]
  else if n < 32 then
    [Char.ofNat 92, Char.ofNat 117, Char.ofNat 48, Char.ofNat 48,
      hexDigit (n / 16), hexDigit (n % 16)]
  else [c]

/-- The characters between the quotes of a serialised string. -/
def quoteJSONChars : List Char → List Char
  | [] => []
  | c :: cs => quoteJSONChar c ++ quoteJSONChars cs

/-- The serialisation of one string: its escaped characters between double
quotes. -/
def quoteJSONString (s : String) : List Char :=
  Char.ofNat 34 :: (quoteJSONChars s.data ++ [Char.ofNat 34])

/-- The serialised elements of an array of strings, separated by commas. -/
def stringifyElements : List String → List Char
  | [] => []
  | [x] => quoteJSONString x
  | x :: y :: rest => quoteJSONString x ++ Char.ofNat 44 :: stringifyElements (y :: rest)

/-- The built-in `JSON.stringify` on an array of strings: the serialised
elements between square brackets. -/
def JSON_stringify (xs : List String) : String :=
  String.mk (Char.ofNat 91 :: (stringifyElements xs ++ [Char.ofNat 93]))

/-! ## Grading and answer submission -/

/-- The grading of a multiple-choice or reading-passage question (lines
716-721): `question.correct.includes(userAnswer)` when `correct` is an array,
`userAnswer === question.correct` otherwise; `userAnswer` is `none` when
`this.selectedAnswer` is `undefined`. -/
def gradeChoice (correct : Correct) (userAnswer : Option Nat) : Bool :=
  match correct with
  | .many indices =>
    match userAnswer with
    | some i => indices.contains i
    | none => false
  | .single index => userAnswer == some index

/-- The grading of a fill-in-blank question (lines 726-729). -/
def gradeFillInBlank (correct : List String) (input : String) : Bool :=
  let userAnswer := toLowerCase (trim input)
  correct.any fun answer => toLowerCase answer == userAnswer

/-- The grading of a drag-drop question (lines 733-735). -/
def gradeDragDrop (correct : List String) (dropZone : List String) : Bool :=
  let userAnswer := dropZone
  JSON_stringify userAnswer == JSON_stringify correct

/-- The grading of a matching question (line 739). -/
def gradeMatching (pairs : List Pair) (matchedPairs : List MatchedPair) : Bool :=
  matchedPairs.length == pairs.length

/-- The node list `document.querySelectorAll('.option')` (line 768), by its
length: the option elements of both containers, the hidden one included. -/
def renderedOptions (s : AppState) : Nat :=
  s.ui.choiceOptions + s.ui.readingOptions

/-- The method `highlightMultipleChoiceAnswers` (lines 767-783) on a node list
of `options` elements: `true` when the call returns, `false` when it raises the
`TypeError` of reading `classList` of an index past the list.  The classes it
adds are not kept. -/
def highlightMultipleChoiceAnswers (options : Nat) (correct : Correct)
    (userAnswer : Option Nat) : Bool :=
  match correct with
  | .many indices =>
    indices.all (fun correctIndex => decide (correctIndex < options)) &&
      (match userAnswer with
       | some i => if !indices.contains i then decide (i < options) else true
       | none => true)
  | .single index =>
    decide (index < options) &&
      (match userAnswer with
       | some i => if i ≠ index then decide (i < options) else true
       | none => true)

/-- The call of line 722, made in the multiple-choice and reading-passage case
of the `switch` only: whether the `switch` gets past it. -/
def highlightReturns (s : AppState) (question : Question) : Bool :=
  match question.type with
  | .multipleChoice _ correct =>
    highlightMultipleChoiceAnswers (renderedOptions s) correct s.selectedAnswer
  | .readingPassage _ _ correct =>
    highlightMultipleChoiceAnswers (renderedOptions s) correct s.selectedAnswer
  | _ => true

/-- The value the `switch` of `submitAnswer` (lines 713-741) gives `isCorrect`,
or `none` when the matching case reads `length` of an undefined
`matchedPairs`.  The highlighting call of the first case is `highlightReturns`. -/
def gradeAnswer (s : AppState) (dom : Dom) (question : Question) : Option Bool :=
  match question.type with
  | .multipleChoice _ correct => some (gradeChoice correct s.selectedAnswer)
  | .readingPassage _ _ correct => some (gradeChoice correct s.selectedAnswer)
  | .fillInBlank correct => some (gradeFillInBlank correct dom.fillBlankInput)
  | .dragDrop _ correct => some (gradeDragDrop correct dom.dropZone)
  | .matching pairs =>
    match s.matchedPairs with
    | none => none
    | some matched => some (gradeMatching pairs matched)

/-- The method `submitAnswer` (lines 705-765). -/
def submitAnswer (s : AppState) (dom : Dom) : Outcome :=
  if s.isAnswered then .done s
  else
    match currentChapter s with
    | none => .raised s
    | some chapter =>
      match chapter.questions[s.currentQuestionIndex]? with
      | none => .raised s
      | some question =>
        match gradeAnswer s dom question with
        | none => .raised s
        | some isCorrect =>
          if !highlightReturns s question then .raised s
          else
            let s1 := { s with isAnswered := true }
            let s2 := showFeedback s1 question.feedback isCorrect
            let s3 := updateScore s2 isCorrect (pointsOrTen question.points)
            let more : Bool :=
              decide ((s.currentQuestionIndex : Int) < (chapter.questions.length : Int) - 1)
            let ui4 : Ui :=
              if more then
                { s3.ui with submitAnswerShown := false, nextQuestionShown := true,
                             showExplanationShown := true }
              else
                { s3.ui with submitAnswerShown := false, completeChapterShown := true,
                             showExplanationShown := true }
            Outcome.done { s3 with ui := ui4 }

/-! ## Navigation, completion and reset -/

/-- The method `nextQuestion` (lines 845-851). -/
def nextQuestion (s : AppState) : Outcome :=
  match currentChapter s with
  | none => .raised s
  | some chapter =>
    if (s.currentQuestionIndex : Int) < (chapter.questions.length : Int) - 1 then
      loadQuestion { s with currentQuestionIndex := s.currentQuestionIndex + 1 }
    else .done s

/-- The method `previousChapter` (lines 853-858). -/
def previousChapter (s : AppState) : Outcome :=
  if s.currentChapterIndex > 0 then
    updateUI { s with currentChapterIndex := s.currentChapterIndex - 1 }
  else .done s

/-- The method `nextChapter` (lines 860-870). -/
def nextChapter (s : AppState) : Outcome :=
  if (s.currentChapterIndex : Int) < (s.chapters.length : Int) - 1 then
    match s.chapters[s.currentChapterIndex + 1]? with
    | none => .raised s
    | some next =>
      if canAccessChapter s next then
        updateUI { s with currentChapterIndex := s.currentChapterIndex + 1 }
      else .done (showUpgradePrompt s next)
  else .done s

/-- The method `goToChapter` (lines 872-880). -/
def goToChapter (s : AppState) (index : Nat) : Outcome :=
  match s.chapters[index]? with
  | none => .raised s
  | some chapter =>
    if canAccessChapter s chapter then
      updateUI { s with currentChapterIndex := index }
    else .done (showUpgradePrompt s chapter)

/-- The method `completeChapter` (lines 882-913), up to the point where it
arms the two-second timer. -/
def completeChapter (s : AppState) : Outcome :=
  match currentChapter s with
  | none => .raised s
  | some chapter =>
    let s1 : AppState :=
      if !s.userProgress.completedChapters.contains chapter.id then
        { s with userProgress :=
            { s.userProgress with
              completedChapters := s.userProgress.completedChapters ++ [chapter.id],
              score := s.userProgress.score + 50 } }
      else s
    Outcome.done (saveProgress s1)

/-- The callback `completeChapter` hands to `setTimeout` (lines 906-911), run on
the state of the moment the timer fires.  The source arms the timer only when a
next chapter exists at the time of completion; as an event of the model the
callback may run in any state, which only adds reachable states. -/
def completeChapterTimer (s : AppState) : Outcome :=
  match s.chapters[s.currentChapterIndex + 1]? with
  | none => .raised s
  | some next =>
    if canAccessChapter s next then nextChapter s
    else .done s

/-- The method `resetProgress` (lines 949-968); `confirmed` is the answer to the
confirmation dialog. -/
def resetProgress (s : AppState) (confirmed : Bool) : Outcome :=
  if confirmed then
    updateUI { s with userProgress := zeroProgress, currentChapterIndex := 0,
                      currentQuestionIndex := 0, localStorage := none }
  else .done s

/-! ## Start-up and the restoration of saved progress -/

/-- The method `loadLocalProgress` (lines 999-1004): the saved record is spread
over the current one.  The entry is one that `saveProgress` wrote, a whole
progress record, so that every field is taken from it; nothing of it is
checked. -/
def loadLocalProgress (s : AppState) : AppState :=
  match s.localStorage with
  | some saved => { s with userProgress := saved }
  | none => s

/-- The method `loadUserProgress` (lines 1019-1031), which the sign-in listener
runs: the remote record, `none` when the document does not exist, is spread
over the current one in the same way. -/
def loadUserProgress (s : AppState) (remote : Option UserProgress) : AppState :=
  match s.currentUser with
  | none => s
  | some _ =>
    match remote with
    | some data => { s with userProgress := data }
    | none => s

/-- The method `init` (lines 77-108) from the point where the chapters are
loaded, without the sign-in listener: the progress saved in local storage,
`saved`, is restored and the first question is drawn.  The event handlers are
registered between the two, so that the state this leaves is the first one an
event is handled in. -/
def init (chapters : List Chapter) (saved : Option UserProgress) : Outcome :=
  updateUI (loadLocalProgress { initialState chapters with localStorage := saved })

/-! ## Events -/

/-- The events that drive the application after start-up. -/
inductive Event where
  | selectOption (index : Nat)
  | selectMatchingItem (item : MatchingItem)
  | submitAnswer (dom : Dom)
  | nextQuestion
  | previousChapter
  | nextChapter
  | goToChapter (index : Nat)
  | completeChapter
  | completeChapterTimer
  | resetProgress (confirmed : Bool)
deriving DecidableEq, Repr

/-- The handler of an event. -/
def handle (s : AppState) : Event → Outcome
  | .selectOption index => selectOption s index
  | .selectMatchingItem item => selectMatchingItem s item
  | .submitAnswer dom => submitAnswer s dom
  | .nextQuestion => nextQuestion s
  | .previousChapter => previousChapter s
  | .nextChapter => nextChapter s
  | .goToChapter index => goToChapter s index
  | .completeChapter => completeChapter s
  | .completeChapterTimer => completeChapterTimer s
  | .resetProgress confirmed => resetProgress s confirmed

/-- The state after an event: the one its handler leaves. -/
def step (s : AppState) (e : Event) : AppState :=
  (handle s e).state

/-- The state after a sequence of events. -/
def run (s : AppState) (es : List Event) : AppState :=
  es.foldl step s

/-! ## Reading a serialisation back (used to show that it is one-to-one) -/

/-- The code point of one lowercase hexadecimal digit. -/
def hexCode (k : Nat) : Nat :=
  if k < 10 then 48 + k else 87 + k

/-- The code points `quoteJSONChar` writes for the character of code point `n`. -/
def quoteCodes (n : Nat) : List Nat :=
  if n = 8 then [92, 98]
  else if n = 9 then [92, 116]
  else if n = 10 then [92, 110]
  else if n = 12 then [92, 102]
  else if n = 13 then [92, 114]
  else if n = 34 then [92, 34]
  else if n = 92 then [92, 92]
  else if n < 32 then [92, 117, 48, 48, hexCode (n / 16), hexCode (n % 16)]
  else [n]

/-- The value of a hexadecimal digit given by its code point. -/
def hexValue (d : Nat) : Nat :=
  if d < 58 then d - 48 else d - 87

/-- Reading one escaped character back from the front of a sequence of code
points: the code point it stands for and the rest of the sequence.  A double
quote is not the start of an escaped character. -/
def readCode : List Nat → Option (Nat × List Nat)
  | [] => none
  | a :: rest =>
    if a = 34 then none
    else if a = 92 then
      match rest with
      | [] => none
      | b :: rest2 =>
        if b = 98 then some (8, rest2)
        else if b = 116 then some (9, rest2)
        else if b = 110 then some (10, rest2)
        else if b = 102 then some (12, rest2)
        else if b = 114 then some (13, rest2)
        else if b = 34 then some (34, rest2)
        else if b = 92 then some (92, rest2)
        else
          match rest2 with
          | _ :: _ :: x :: y :: rest3 => some (16 * hexValue x + hexValue y, rest3)
          | _ => none
    else some (a, rest)

/-! ## The sample content of `loadSampleData` (lines 245-336) -/

/-- The first sample chapter. -/
def sampleChapter1 : Chapter :=
  { id := "chapter-1", title := "Chapter 1: Basic Grammar",
    lesson := "Understanding the fundamentals of English grammar is essential for effective communication.",
    explanation := "Grammar provides the structure and rules that help us form meaningful sentences.",
    examples := ["Subject + Verb + Object: 'She reads books.'", "Questions: 'What are you doing?'",
      "Negatives: 'I don't like coffee.'"],
    isPremium := false, order := 1,
    questions := [
      { type := .multipleChoice
          ["Verb + Subject + Object", "Subject + Verb + Object", "Object + Subject + Verb",
            "Subject + Object + Verb"] (.single 1),
        question := "What is the correct sentence structure?",
        feedback := "The basic English sentence structure is Subject + Verb + Object.",
        points := some 10 },
      { type := .fillInBlank ["goes", "walks", "drives"],
        question := "Complete the sentence: 'She _____ to school every day.'",
        feedback := "Common verbs like 'goes', 'walks', or 'drives' fit this sentence.",
        points := some 10 }] }

/-- The second sample chapter. -/
def sampleChapter2 : Chapter :=
  { id := "chapter-2", title := "Chapter 2: Vocabulary Building",
    lesson := "Expanding your vocabulary is crucial for improving your English communication skills.",
    explanation := "A rich vocabulary allows you to express yourself more precisely and understand others better.",
    examples := ["Synonyms: big, large, huge, enormous", "Antonyms: hot vs. cold, fast vs. slow",
      "Context clues: 'The enormous elephant...' (enormous = very big)"],
    isPremium := false, order := 2,
    questions := [
      { type := .matching
          [{ left := "Enormous", right := "Very large" }, { left := "Tiny", right := "Very small" },
            { left := "Ancient", right := "Very old" }],
        question := "Match the words with their meanings:",
        feedback := "Great job matching the words with their meanings!",
        points := some 15 }] }

/-- The third sample chapter. -/
def sampleChapter3 : Chapter :=
  { id := "chapter-3", title := "Chapter 3: Reading Comprehension (Premium)",
    lesson := "Developing strong reading comprehension skills helps you understand and analyze texts effectively.",
    explanation := "Reading comprehension involves understanding the main ideas, supporting details, and implied meanings in texts.",
    examples := ["Main idea: The central point of a paragraph or text",
      "Supporting details: Facts and examples that support the main idea",
      "Inference: Understanding what is implied but not directly stated"],
    isPremium := true, order := 3,
    questions := [
      { type := .readingPassage
          "The library is a wonderful place to study and learn. It offers a quiet environment where students can focus on their work. Many resources, including books, journals, and digital archives, are available to help with research and academic pursuits. Librarians are always ready to assist visitors in finding the information they need."
          ["Libraries have many books", "Students like to study",
            "Libraries are excellent places for learning and studying", "Librarians are helpful"]
          (.single 2),
        question := "What is the main idea of this passage?",
        feedback := "Correct! The main idea is that libraries are excellent places for learning and studying.",
        points := some 25 }] }

/-- The chapter list `loadSampleData` installs. -/
def sampleChapters : List Chapter :=
  [sampleChapter1, sampleChapter2, sampleChapter3]

/-- The two inputs the document offers when nothing has been typed or dropped:
an empty text field, and a drop zone holding only its placeholder line. -/
def emptyDom : Dom :=
  { fillBlankInput := "",
    dropZone := ["Drag items here to form the correct order"] }

/-! ## Keyboard dispatch -/

/-- The keys `handleKeyboard` reacts to; every other key is ignored. -/
inductive Key where
  | arrowLeft
  | arrowRight
  | enter
  | other
deriving DecidableEq, Repr

/-- The method `handleKeyboard` (lines 970-986). -/
def handleKeyboard (s : AppState) (key : Key) (dom : Dom) : Outcome :=
  match key with
  | .arrowLeft => previousChapter s
  | .arrowRight => nextChapter s
  | .enter =>
    if !s.isAnswered then submitAnswer s dom
    else nextQuestion s
  | .other => .done s

/-! ## The flags of the privilege table -/

/-- The names of the boolean flags that occur in `ROLE_PRIVILEGES`. -/
inductive Flag where
  | canSaveProgress
  | canViewDashboard
  | canAccessPremiumContent
  | canDownloadCertificates
  | canCreateContent
  | canViewStudentProgress
  | canManageUsers
  | canAccessAdminPanel
deriving DecidableEq, Repr

/-- The value of a flag in a row of the table: `privileges[flag]`, read as a
boolean. -/
def Privileges.flag (p : Privileges) : Flag → Bool
  | .canSaveProgress => p.canSaveProgress
  | .canViewDashboard => p.canViewDashboard
  | .canAccessPremiumContent => p.canAccessPremiumContent
  | .canDownloadCertificates => p.canDownloadCertificates
  | .canCreateContent => p.canCreateContent
  | .canViewStudentProgress => p.canViewStudentProgress
  | .canManageUsers => p.canManageUsers
  | .canAccessAdminPanel => p.canAccessAdminPanel

/-- All flag names. -/
def allFlags : List Flag :=
  [.canSaveProgress, .canViewDashboard, .canAccessPremiumContent, .canDownloadCertificates,
    .canCreateContent, .canViewStudentProgress, .canManageUsers, .canAccessAdminPanel]

/-- The order in which `USER_ROLES` and `ROLE_PRIVILEGES` list the roles. -/
def roleChain : List Role :=
  [.guest, .student, .premium, .teacher, .admin]

/-! ## Analytics and achievements (`analytics.js`)

The class `AnalyticsSystem` with the one document of the `userStats` collection
it addresses.  Its methods are asynchronous; the model runs them one after the
other in program order, and the store accepts every write to a document that
exists.  A write to a document that does not exist is rejected by the store and
the rejection is caught and logged, which leaves the store as it was. -/

/-- A document of the `userStats` collection.  The first eight counters,
`achievements` and `lastStudyDate` are the fields `initializeUserStats` writes;
`questionTypes` maps a question type to its `total` and `correct` counters.
`score` is created by the first `increment` and reads as `0` before that.
`accuracy` and `totalStudyDays` are fields the achievement rules read; they are
`none` while the document has no such field. -/
structure Stats where
  totalQuestions : Nat
  correctAnswers : Nat
  totalStudyTime : Nat
  totalSessions : Nat
  studyStreak : Nat
  completedChapters : Nat
  perfectChapters : Nat
  fastAnswers : Nat
  achievements : List String
  questionTypes : List (String × Nat × Nat)
  lastStudyDate : Option String
  score : Nat
  accuracy : Option Nat
  totalStudyDays : Option Nat
deriving DecidableEq, Repr

/-- The document `initializeUserStats` creates (lines 432-446). -/
def zeroStats : Stats :=
  { totalQuestions := 0, correctAnswers := 0, totalStudyTime := 0, totalSessions := 0,
    studyStreak := 0, completedChapters := 0, perfectChapters := 0, fastAnswers := 0,
    achievements := [], questionTypes := [], lastStudyDate := none, score := 0,
    accuracy := none, totalStudyDays := none }

/-- The comparison `field >= bound` on a field that may be missing: `undefined`
compares false. -/
def geOpt (field : Option Nat) (bound : Nat) : Bool :=
  match field with
  | none => false
  | some v => decide (v ≥ bound)

/-- One entry of the achievement list (the icon is left out). -/
structure Achievement where
  id : String
  title : String
  description : String
  condition : Stats → Bool
  points : Nat

/-- The method `initializeAchievements` (lines 22-89). -/
def initializeAchievements : List Achievement :=
  [ { id := "first_question", title := "Getting Started",
      description := "Answer your first question",
      condition := fun stats => decide (stats.totalQuestions ≥ 1), points := 10 },
    { id := "perfect_chapter", title := "Perfect Score",
      description := "Complete a chapter with 100% accuracy",
      condition := fun stats => decide (stats.perfectChapters ≥ 1), points := 50 },
    { id := "speed_demon", title := "Speed Demon",
      description := "Answer 10 questions in under 5 minutes",
      condition := fun stats => decide (stats.fastAnswers ≥ 10), points := 30 },
    { id := "streak_master", title := "Streak Master",
      description := "Maintain a 7-day study streak",
      condition := fun stats => decide (stats.studyStreak ≥ 7), points := 100 },
    { id := "knowledge_seeker", title := "Knowledge Seeker",
      description := "Complete 5 chapters",
      condition := fun stats => decide (stats.completedChapters ≥ 5), points := 75 },
    { id := "accuracy_expert", title := "Accuracy Expert",
      description := "Maintain 90% accuracy over 50 questions",
      condition := fun stats => decide (stats.totalQuestions ≥ 50) && geOpt stats.accuracy 90,
      points := 60 },
    { id := "dedicated_learner", title := "Dedicated Learner",
      description := "Study for 30 days total",
      condition := fun stats => geOpt stats.totalStudyDays 30, points := 150 },
    { id := "question_master", title := "Question Master",
      description := "Answer 100 questions correctly",
      condition := fun stats => decide (stats.correctAnswers ≥ 100), points := 80 } ]

/-- The counters of `this.currentSession` that the trackers update. -/
structure Session where
  questionsAnswered : Nat
  correctAnswers : Nat
  timeSpent : Nat
  chaptersVisited : List String
deriving DecidableEq, Repr

/-- An `AnalyticsSystem` instance (`userId` is `none` until `setUserId`), with
the document `userStats/userId` of the store (`none` when there is no such
document). -/
structure Analytics where
  userId : Option String
  currentSession : Session
  store : Option Stats
deriving DecidableEq, Repr

/-- The instance the constructor builds, on a store without the document. -/
def newAnalytics : Analytics :=
  { userId := none,
    currentSession := { questionsAnswered := 0, correctAnswers := 0, timeSpent := 0,
                        chaptersVisited := [] },
    store := none }

/-- The method `setUserId` (lines 421-423). -/
def setUserId (a : Analytics) (userId : String) : Analytics :=
  { a with userId := some userId }

/-- The method `initializeUserStats` (lines 426-451). -/
def initializeUserStats (a : Analytics) : Analytics :=
  match a.store with
  | none => { a with store := some zeroStats }
  | some _ => a

/-- The field names `updateUserStats` is called with. -/
inductive StatsField where
  | fastAnswers
  | totalQuestions
  | correctAnswers
  | perfectChapters
  | completedChapters
  | totalStudyTime
  | totalSessions
deriving DecidableEq, Repr

/-- The write `updateDoc(ref, {[field]: increment(value)})` on a document. -/
def incrementField (stats : Stats) (field : StatsField) (value : Nat) : Stats :=
  match field with
  | .fastAnswers => { stats with fastAnswers := stats.fastAnswers + value }
  | .totalQuestions => { stats with totalQuestions := stats.totalQuestions + value }
  | .correctAnswers => { stats with correctAnswers := stats.correctAnswers + value }
  | .perfectChapters => { stats with perfectChapters := stats.perfectChapters + value }
  | .completedChapters => { stats with completedChapters := stats.completedChapters + value }
  | .totalStudyTime => { stats with totalStudyTime := stats.totalStudyTime + value }
  | .totalSessions => { stats with totalSessions := stats.totalSessions + value }

/-- The method `updateUserStats` (lines 210-221). -/
def updateUserStats (a : Analytics) (field : StatsField) (value : Nat) : Analytics :=
  match a.userId with
  | none => a
  | some _ =>
    match a.store with
    | none => a
    | some stats => { a with store := some (incrementField stats field value) }

/-- The two increments of `updateQuestionTypeStats` on the `questionTypes` map:
`total` always, `correct` on a correct answer; a missing entry starts from 0. -/
def bumpQuestionType (types : List (String × Nat × Nat)) (questionType : String)
    (isCorrect : Bool) : List (String × Nat × Nat) :=
  match types with
  | [] => [(questionType, 1, if isCorrect then 1 else 0)]
  | (name, total, correct) :: rest =>
    if name = questionType then
      (name, total + 1, if isCorrect then correct + 1 else correct) :: rest
    else (name, total, correct) :: bumpQuestionType rest questionType isCorrect

/-- The method `updateQuestionTypeStats` (lines 193-207), on the document of a
signed-in user. -/
def updateQuestionTypeStats (a : Analytics) (questionType : String) (isCorrect : Bool) :
    Analytics :=
  match a.userId with
  | none => a
  | some _ =>
    match a.store with
    | none => a
    | some stats =>
      let doc : Stats :=
        { stats with
          questionTypes := bumpQuestionType stats.questionTypes questionType isCorrect }
      { a with store := some doc }

/-- The method `trackQuestionAttempt` (lines 92-110); `timeSpent` is in
milliseconds. -/
def trackQuestionAttempt (a : Analytics) (questionType : String) (isCorrect : Bool)
    (timeSpent : Nat) : Analytics :=
  let session1 : Session :=
    { a.currentSession with questionsAnswered := a.currentSession.questionsAnswered + 1 }
  let session2 : Session :=
    if isCorrect then { session1 with correctAnswers := session1.correctAnswers + 1 }
    else session1
  let a1 : Analytics := { a with currentSession := session2 }
  let a2 : Analytics :=
    if decide (timeSpent < 30000) && isCorrect then updateUserStats a1 .fastAnswers 1 else a1
  let a3 : Analytics := updateUserStats a2 .totalQuestions 1
  let a4 : Analytics := if isCorrect then updateUserStats a3 .correctAnswers 1 else a3
  updateQuestionTypeStats a4 questionType isCorrect

/-- One turn of the loop of `checkAchievements` (lines 237-247): the ids
collected so far and the document as incremented so far. -/
def awardStep (stats : Stats) (currentAchievements : List String)
    (acc : List String × Stats) (achievement : Achievement) : List String × Stats :=
  if !currentAchievements.contains achievement.id && achievement.condition stats then
    (acc.1 ++ [achievement.id], { acc.2 with score := acc.2.score + achievement.points })
  else acc

/-- The method `checkAchievements` (lines 224-258); `rules` is
`this.achievements`. -/
def checkAchievements (rules : List Achievement) (a : Analytics) : Analytics :=
  match a.userId with
  | none => a
  | some _ =>
    match a.store with
    | none => a
    | some stats =>
      let currentAchievements := stats.achievements
      let result := rules.foldl (awardStep stats currentAchievements) ([], stats)
      let newAchievements := result.1
      let doc := result.2
      if newAchievements.length > 0 then
        let written : Stats :=
          { doc with achievements := currentAchievements ++ newAchievements }
        { a with store := some written }
      else { a with store := some doc }

/-- The rules a pass awards on a document: those whose id is not yet earned and
whose condition holds, in the order of the rule list. -/
def newlyEarned (rules : List Achievement) (stats : Stats) : List Achievement :=
  rules.filter fun r => !stats.achievements.contains r.id && r.condition stats

/-! ## Concrete states used to exercise the theorems -/

/-- The sample content with the first question of the first chapter loaded and
its option B (index 1) selected. -/
def sampleState : AppState :=
  run (initialState sampleChapters) [.goToChapter 0, .selectOption 1]

/-- The state `sampleState` after its answer has been submitted. -/
def sampleAnswered : AppState :=
  step sampleState (.submitAnswer emptyDom)

/-- A one-question chapter whose question carries the point value `0`. -/
def zeroPointChapter : Chapter :=
  { id := "chapter-zero", title := "Warm-up", lesson := "", explanation := "",
    examples := [], isPremium := false, order := 1,
    questions := [
      { type := .multipleChoice ["yes", "no"] (.single 0),
        question := "Ready?", feedback := "Let us start.", points := some 0 }] }

/-- The warm-up chapter loaded, with its option A (index 0) selected. -/
def zeroPointState : AppState :=
  run (initialState [zeroPointChapter]) [.goToChapter 0, .selectOption 0]

/-- The warm-up chapter, of two options, loaded after option D (index 3) was
selected on the first sample question: `loadQuestion` keeps the selection. -/
def staleSelectionState : AppState :=
  run (initialState [sampleChapter1, zeroPointChapter])
    [.goToChapter 0, .selectOption 3, .goToChapter 1]

/-- A one-question chapter whose question carries a negative point value. -/
def penaltyChapter : Chapter :=
  { id := "chapter-penalty", title := "Trick question", lesson := "", explanation := "",
    examples := [], isPremium := false, order := 1,
    questions := [
      { type := .multipleChoice ["yes", "no"] (.single 0),
        question := "Sure?", feedback := "Think again.", points := some (-5) }] }

/-- The trick question loaded from the start-up state, with its option A (index
0, the correct one) selected. -/
def penaltyState : AppState :=
  run (init [penaltyChapter] none).state [.selectOption 0]

/-- A saved progress record that names a chapter which is not in the sample
content. -/
def staleProgress : UserProgress :=
  { zeroProgress with completedChapters := ["chapter-1700000000000"] }

/-- Whether no question of the chapters carries a negative point value. -/
def pointsNonNegative (chapters : List Chapter) : Bool :=
  chapters.all fun chapter => chapter.questions.all fun question =>
    match question.points with
    | none => true
    | some p => decide (0 ≤ p)

/-- The third sample chapter with its premium flag cleared. -/
def openChapter3 : Chapter :=
  { sampleChapter3 with isPremium := false }

/-- A guest session on three chapters none of which is premium. -/
def guestOpenState : AppState :=
  { initialState [sampleChapter1, sampleChapter2, openChapter3] with userRole := Role.guest }

/-- A content list in which a premium chapter comes before a free one: the
third sample chapter followed by the first. -/
def premiumFirstChapters : List Chapter :=
  [sampleChapter3, sampleChapter1]

/-- A guest session on `premiumFirstChapters` that has gone to the free chapter
(position 1) and selected option C (index 2) there. -/
def premiumFirstState : AppState :=
  run (initialState premiumFirstChapters) [.goToChapter 1, .selectOption 2]

/-- A premium session on the sample content. -/
def premiumSampleState : AppState :=
  { initialState sampleChapters with userRole := Role.premium }

/-- The document with the ids of the newly earned rules appended to
`achievements` and their points added to `score`. -/
def awarded (rules : List Achievement) (stats : Stats) : Stats :=
  { stats with
    achievements := stats.achievements ++ (newlyEarned rules stats).map (fun r => r.id),
    score := stats.score + ((newlyEarned rules stats).map (fun r => r.points)).sum }

/-- The rule of the list with the given id. -/
def findRule (id : String) : Option Achievement :=
  initializeAchievements.find? fun r => r.id == id

/-- A signed-in analytics instance whose document is the zeroed one with
`totalQuestions` at 1. -/
def firstQuestionAnalytics : Analytics :=
  { setUserId newAnalytics "u1" with store := some { zeroStats with totalQuestions := 1 } }

/-- A signed-in analytics instance after `initializeUserStats` and fifty correct
answers of 45 seconds each. -/
def fiftyCorrectAnalytics : Analytics :=
  (List.replicate 50 ()).foldl
    (fun a _ => trackQuestionAttempt a "multiple-choice" true 45000)
    (initializeUserStats (setUserId newAnalytics "u1"))

/-! ## Study streak and chapter completion tracking (`analytics.js`, lines 112-170) -/

/-- The method `updateStudyStreak` (lines 137-170).  `today` is
`new Date().toDateString()` and `yesterday` the same for the previous calendar
day.  Without a user id the reference is `userStats/undefined`, a document that
does not exist. -/
def updateStudyStreak (a : Analytics) (today yesterday : String) : Analytics :=
  match a.userId with
  | none => a
  | some _ =>
    match a.store with
    | none => a
    | some data =>
      let lastStudyDate := data.lastStudyDate
      let currentStreak := data.studyStreak
      if lastStudyDate ≠ some today then
        if lastStudyDate = some yesterday then
          let doc : Stats :=
            { data with studyStreak := currentStreak + 1, lastStudyDate := some today }
          { a with store := some doc }
        else
          let doc : Stats := { data with studyStreak := 1, lastStudyDate := some today }
          { a with store := some doc }
      else a

/-- The method `trackChapterCompletion` (lines 113-122); `accuracy` is the
number the caller computed. -/
def trackChapterCompletion (a : Analytics) (chapterId : String) (accuracy : ℚ)
    (today yesterday : String) : Analytics :=
  let visited : List String :=
    if a.currentSession.chaptersVisited.contains chapterId then a.currentSession.chaptersVisited
    else a.currentSession.chaptersVisited ++ [chapterId]
  let session1 : Session := { a.currentSession with chaptersVisited := visited }
  let a1 : Analytics := { a with currentSession := session1 }
  let a2 : Analytics := if accuracy = 100 then updateUserStats a1 .perfectChapters 1 else a1
  let a3 : Analytics := updateUserStats a2 .completedChapters 1
  updateStudyStreak a3 today yesterday

/-- The accuracy `completeChapter` computes (lines 889-891), with the quotient
taken exactly. -/
def chapterAccuracy (chapterCorrect chapterQuestions : Nat) : ℚ :=
  if chapterQuestions > 0 then ((chapterCorrect : ℚ) / (chapterQuestions : ℚ)) * 100 else 0

/-- The call `this.analytics.trackChapterCompletion(chapter.id, accuracy)` that
`completeChapter` makes (lines 888-894): its two arguments, run on the state
`completeChapter` starts from; `none` when it makes no such call. -/
def completeChapterTracking (s : AppState) : Option (String × ℚ) :=
  match currentChapter s with
  | none => none
  | some chapter =>
    if !s.userProgress.completedChapters.contains chapter.id then
      let chapterQuestions := chapter.questions.length
      let chapterCorrect := s.userProgress.correctAnswers
      some (chapter.id, chapterAccuracy chapterCorrect chapterQuestions)
    else none

/-- The string in the `type` field of a question. -/
def QuestionType.name : QuestionType → String
  | .multipleChoice _ _ => "multiple-choice"
  | .fillInBlank _ => "fill-in-blank"
  | .dragDrop _ _ => "drag-drop"
  | .matching _ => "matching"
  | .readingPassage _ _ _ => "reading-passage"

/-- The call `this.analytics.trackQuestionAttempt(question.type, isCorrect,
timeSpent)` that `submitAnswer` makes (lines 745-747): its first two arguments;
`none` when `submitAnswer` returns or raises before the call. -/
def submitAnswerTracking (s : AppState) (dom : Dom) : Option (String × Bool) :=
  if s.isAnswered then none
  else
    match currentQuestion s with
    | none => none
    | some question =>
      match gradeAnswer s dom question with
      | none => none
      | some isCorrect =>
        if !highlightReturns s question then none
        else some (question.type.name, isCorrect)

/-! ## The calls the analytics object makes to the store library

The same methods read as a trace: which `getDoc` and `updateDoc` calls they
make, on which document id (`none` when the id handed to `doc` is
`undefined`), with which field paths.  The library of the repository
(`lib/firebase-firestore.js`) builds a reference from any id and accepts every
call. -/

/-- One call to the store library on a document of `userStats`. -/
inductive StoreCall where
  | getDoc (id : Option String)
  | updateDoc (id : Option String) (fields : List String)
deriving DecidableEq, Repr

/-- Whether the call writes. -/
def StoreCall.isWrite : StoreCall → Bool
  | .getDoc _ => false
  | .updateDoc _ _ => true

/-- The name of a field of `StatsField`. -/
def StatsField.name : StatsField → String
  | .fastAnswers => "fastAnswers"
  | .totalQuestions => "totalQuestions"
  | .correctAnswers => "correctAnswers"
  | .perfectChapters => "perfectChapters"
  | .completedChapters => "completedChapters"
  | .totalStudyTime => "totalStudyTime"
  | .totalSessions => "totalSessions"

/-- The calls of `updateUserStats` (lines 210-221): none without a user id. -/
def updateUserStatsCalls (userId : Option String) (field : StatsField) : List StoreCall :=
  match userId with
  | none => []
  | some id => [.updateDoc (some id) [field.name]]

/-- The calls of `updateQuestionTypeStats` (lines 193-207): the method does not
test `this.userId`. -/
def updateQuestionTypeStatsCalls (userId : Option String) (questionType : String)
    (isCorrect : Bool) : List StoreCall :=
  let total := "questionTypes." ++ questionType ++ ".total"
  let correct := "questionTypes." ++ questionType ++ ".correct"
  [.updateDoc userId (if isCorrect then [total, correct] else [total])]

/-- The calls of `updateStudyStreak` (lines 137-170); `read` is what `getDoc`
returns. -/
def updateStudyStreakCalls (userId : Option String) (read : Option Stats)
    (today : String) : List StoreCall :=
  match read with
  | none => [.getDoc userId]
  | some data =>
    if data.lastStudyDate ≠ some today then
      [.getDoc userId, .updateDoc userId ["studyStreak", "lastStudyDate"]]
    else [.getDoc userId]

/-- The calls of `trackQuestionAttempt` (lines 92-110). -/
def trackQuestionAttemptCalls (userId : Option String) (questionType : String)
    (isCorrect : Bool) (timeSpent : Nat) : List StoreCall :=
  (if decide (timeSpent < 30000) && isCorrect then updateUserStatsCalls userId .fastAnswers
    else [])
  ++ updateUserStatsCalls userId .totalQuestions
  ++ (if isCorrect then updateUserStatsCalls userId .correctAnswers else [])
  ++ updateQuestionTypeStatsCalls userId questionType isCorrect

/-- The calls of `trackChapterCompletion` (lines 113-122); `read` is what the
`getDoc` of `updateStudyStreak` returns. -/
def trackChapterCompletionCalls (userId : Option String) (read : Option Stats)
    (accuracy : ℚ) (today : String) : List StoreCall :=
  (if accuracy = 100 then updateUserStatsCalls userId .perfectChapters else [])
  ++ updateUserStatsCalls userId .completedChapters
  ++ updateStudyStreakCalls userId read today

/-- A student session on the sample content. -/
def studentSampleState : AppState :=
  { initialState sampleChapters with userRole := Role.student, currentUser := some "u1" }

/-- The events that answer both questions of the first sample chapter
correctly, complete it, and then match all three pairs of the second chapter's
question and submit. -/
def perfectRunEvents : List Event :=
  [.goToChapter 0, .selectOption 1, .submitAnswer emptyDom, .nextQuestion,
    .submitAnswer { fillBlankInput := "goes", dropZone := [] }, .completeChapter,
    .goToChapter 1,
    .selectMatchingItem (.left 0), .selectMatchingItem (.right "Very large"),
    .selectMatchingItem (.left 1), .selectMatchingItem (.right "Very small"),
    .selectMatchingItem (.left 2), .selectMatchingItem (.right "Very old"),
    .submitAnswer emptyDom]

/-- The events that answer the first question of the first sample chapter
correctly and the second wrongly, complete the chapter, and then submit the
second chapter's matching question with no pair matched. -/
def flawedRunEvents : List Event :=
  [.goToChapter 0, .selectOption 1, .submitAnswer emptyDom, .nextQuestion,
    .submitAnswer { fillBlankInput := "went", dropZone := [] }, .completeChapter,
    .goToChapter 1, .submitAnswer emptyDom]

/-- A signed-in analytics instance on the document `initializeUserStats`
creates. -/
def signedInAnalytics : Analytics :=
  initializeUserStats (setUserId newAnalytics "u1")

/-! ## Content upload (`content-upload.js`, lines 165-213)

The chapters handed to the upload script are plain objects whose fields may be
missing; a missing field is `none`. -/

/-- The `correct` field of an uploaded question: a number, or an array (of
indices or of strings). -/
inductive UploadCorrect where
  | index (n : Nat)
  | indices (items : List Nat)
  | answers (items : List String)
deriving DecidableEq, Repr

/-- A question of an uploaded chapter. -/
structure UploadQuestion where
  type : Option String
  question : Option String
  correct : Option UploadCorrect
  feedback : Option String
  options : Option (List String)
deriving DecidableEq, Repr

/-- A chapter handed to the upload script. -/
structure UploadChapter where
  id : String
  title : Option String
  lesson : Option String
  explanation : Option String
  examples : Option (List String)
  questions : Option (List UploadQuestion)
deriving DecidableEq, Repr

/-- Truthiness of a string field: missing and the empty string are falsy. -/
def truthyString : Option String → Bool
  | none => false
  | some s => s != ""

/-- Truthiness of an array field: missing is falsy, every array is truthy. -/
def truthyArray {α : Type} : Option (List α) → Bool
  | none => false
  | some _ => true

/-- Truthiness of the `correct` field: missing and the number 0 are falsy, every
other number and every array is truthy. -/
def truthyCorrect : Option UploadCorrect → Bool
  | none => false
  | some (.index 0) => false
  | some (.index (_ + 1)) => true
  | some (.indices _) => true
  | some (.answers _) => true

/-- What `validateChapter` throws. -/
inductive ValidationError where
  | missingFields (fields : List String)
  | questionMissingFields (number : Nat)
  | questionMissingOptions (number : Nat)
deriving DecidableEq, Repr

/-- The message of the thrown error. -/
def ValidationError.message : ValidationError → String
  | .missingFields fields => "Missing required fields: " ++ ", ".intercalate fields
  | .questionMissingFields number =>
    "Question " ++ toString number ++ " is missing required fields"
  | .questionMissingOptions number =>
    "Question " ++ toString number ++ " is missing options for multiple choice"

/-- The test `!chapter[field]` for the five required field names. -/
def fieldMissing (chapter : UploadChapter) (field : String) : Bool :=
  if field = "title" then !truthyString chapter.title
  else if field = "lesson" then !truthyString chapter.lesson
  else if field = "explanation" then !truthyString chapter.explanation
  else if field = "examples" then !truthyArray chapter.examples
  else if field = "questions" then !truthyArray chapter.questions
  else true

/-- The body of the `forEach` over the questions (lines 176-184), from the
question of zero-based position `index` on: the first error thrown, if any. -/
def validateQuestions : List UploadQuestion → Nat → Option ValidationError
  | [], _ => none
  | question :: rest, index =>
    if !truthyString question.type || !truthyString question.question
        || !truthyCorrect question.correct || !truthyString question.feedback then
      some (.questionMissingFields (index + 1))
    else if question.type == some "multiple-choice" && !truthyArray question.options then
      some (.questionMissingOptions (index + 1))
    else validateQuestions rest (index + 1)

/-- The function `validateChapter` (lines 166-187): `ok true`, or the error
thrown. -/
def validateChapter (chapter : UploadChapter) : Except ValidationError Bool :=
  let required := ["title", "lesson", "explanation", "examples", "questions"]
  let missing := required.filter fun field => fieldMissing chapter field
  if missing.length > 0 then .error (.missingFields missing)
  else
    match validateQuestions (chapter.questions.getD []) 0 with
    | some error => .error error
    | none => .ok true

/-- What `batchUpload` throws: the error of a chapter with the one-based
position of the chapter (`Chapter n: message`). -/
structure BatchError where
  position : Nat
  error : ValidationError
deriving DecidableEq, Repr

/-- The message of the thrown error. -/
def BatchError.message (e : BatchError) : String :=
  "Chapter " ++ toString e.position ++ ": " ++ e.error.message

/-- The validation loop of `batchUpload` (lines 192-198), from the chapter of
zero-based position `index` on: the first error thrown, if any. -/
def validateAll : List UploadChapter → Nat → Option BatchError
  | [], _ => none
  | chapter :: rest, index =>
    match validateChapter chapter with
    | .error error => some { position := index + 1, error := error }
    | .ok _ => validateAll rest (index + 1)

/-- How `batchUpload` ends: the `setDoc` writes it has issued, as document id
and content in the order issued, and the error it throws, if any. -/
structure UploadResult where
  writes : List (String × UploadChapter)
  thrown : Option BatchError
deriving DecidableEq, Repr

/-- The function `batchUpload` (lines 190-213). -/
def batchUpload (chapters : List UploadChapter) : UploadResult :=
  match validateAll chapters 0 with
  | some error => { writes := [], thrown := some error }
  | none => { writes := chapters.map fun chapter => (chapter.id, chapter), thrown := none }

/-- A well-formed chapter with one multiple-choice question whose correct
option is the third (index 2): the first question of the Business English
chapter of the upload script. -/
def greetingChapter : UploadChapter :=
  { id := "chapter-5", title := some "Chapter 5: Business English",
    lesson := some "Learn professional communication skills for the workplace including emails, presentations, and meetings.",
    explanation := some "Business English requires formal language, clear structure, and professional tone. These skills are crucial for career advancement.",
    examples := some ["Email opening: 'I hope this email finds you well.'"],
    questions := some [
      { type := some "multiple-choice",
        question := some "Which is the most professional email greeting?",
        correct := some (.index 2),
        feedback := some "'Dear Mr. Smith,' is the most formal and professional greeting.",
        options := some ["Hey there!", "Hi!", "Dear Mr. Smith,", "What's up?"] }] }

/-- The same chapter with the options reordered so that the correct option is
the first (index 0). -/
def greetingFirstChapter : UploadChapter :=
  { greetingChapter with
    id := "chapter-6",
    questions := some [
      { type := some "multiple-choice",
        question := some "Which is the most professional email greeting?",
        correct := some (.index 0),
        feedback := some "'Dear Mr. Smith,' is the most formal and professional greeting.",
        options := some ["Dear Mr. Smith,", "Hey there!", "Hi!", "What's up?"] }] }

/-! ## Certificates (`certificates.js`, lines 44-123)

`progressData` is the `userProgress` document of the user and `statsData` the
`userStats` document, `none` standing for the empty object the code uses when
the document does not exist.  Quotients are taken exactly. -/

/-- The accuracy of lines 105-107: `(correctAnswers / totalQuestions) * 100`, and
0 when `totalQuestions` is not positive or missing. -/
def certificateAccuracy (statsData : Option Stats) : ℚ :=
  match statsData with
  | none => 0
  | some stats =>
    if stats.totalQuestions > 0 then
      ((stats.correctAnswers : ℚ) / (stats.totalQuestions : ℚ)) * 100
    else 0

/-- The count `statsData.achievements?.length || 0`. -/
def achievementCount (statsData : Option Stats) : Nat :=
  match statsData with
  | none => 0
  | some stats => stats.achievements.length

/-- The method `determineCertificateType` (lines 104-123). -/
def determineCertificateType (progressData : UserProgress) (statsData : Option Stats)
    (requestedType : String) : String :=
  let accuracy := certificateAccuracy statsData
  let chaptersCompleted := progressData.completedChapters.length
  let achievements := achievementCount statsData
  if requestedType = "auto" then
    if accuracy ≥ 95 ∧ chaptersCompleted ≥ 5 ∧ achievements ≥ 5 then "mastery"
    else if accuracy ≥ 85 ∧ chaptersCompleted ≥ 3 ∧ achievements ≥ 3 then "excellence"
    else "completion"
  else requestedType

/-- The fields of the certificate record that are kept: the user, the type,
the score and the two counts.  The id, the dates, the recipient name, the study
time, the image and the rounded accuracy (a rounding of a floating-point
product) are left out, and `customData` is taken as empty. -/
structure CertificateData where
  userId : String
  type : String
  score : Int
  chaptersCompleted : Nat
  achievements : Nat
deriving DecidableEq, Repr

/-- The keys of the table `initializeTemplates` builds (lines 18-42). -/
def certificateTemplates : List String :=
  ["completion", "excellence", "mastery"]

/-- The property names an object literal inherits from `Object.prototype`; a
lookup under one of them yields a value, though not a template. -/
def objectPrototypeNames : List String :=
  ["constructor", "hasOwnProperty", "isPrototypeOf", "propertyIsEnumerable",
    "toLocaleString", "toString", "valueOf", "__proto__", "__defineGetter__",
    "__defineSetter__", "__lookupGetter__", "__lookupSetter__"]

/-- Whether the lookup `this.certificateTemplates[certificateType]` (line 61)
yields a value; when it yields `undefined`, `createCertificateImage` raises on
the read of `template.color` (line 143). -/
def templateDefined (certificateType : String) : Bool :=
  certificateTemplates.contains certificateType ||
    objectPrototypeNames.contains certificateType

/-- The method `generateCertificate` (lines 44-102), by the certificate record
it saves and returns.  `userExists` tells whether the `users` document exists
(it then carries the e-mail address the sign-in wrote), `type` is the second
argument, `none` when the caller leaves it out.  The result is the record, or
the message of the error thrown: the one of line 53, or `TypeError` for the
read of `color` on a template that is `undefined`. -/
def generateCertificate (userId : String) (userExists : Bool)
    (progressDoc : Option UserProgress) (statsDoc : Option Stats) (type : Option String) :
    Except String CertificateData :=
  let requested := type.getD "completion"
  match progressDoc with
  | none => .error "User data not found"
  | some progressData =>
    if !userExists then .error "User data not found"
    else
      let certificateType := determineCertificateType progressData statsDoc requested
      if !templateDefined certificateType then .error "TypeError"
      else
        .ok { userId := userId, type := certificateType, score := progressData.score,
              chaptersCompleted := progressData.completedChapters.length,
              achievements := achievementCount statsDoc }

/-- The progress document of a user who has completed five chapters. -/
def topProgress : UserProgress :=
  { score := 500, totalQuestions := 40, correctAnswers := 40,
    completedChapters := ["chapter-1", "chapter-2", "chapter-3", "chapter-4", "chapter-5"],
    chapterProgress := [] }

/-- The stats document of the same user: 40 correct answers out of 40 and five
achievements. -/
def topStats : Stats :=
  { zeroStats with
    totalQuestions := 40, correctAnswers := 40, perfectChapters := 5, completedChapters := 5,
    achievements := ["first_question", "perfect_chapter", "speed_demon", "knowledge_seeker",
      "streak_master"] }

/-! ## Frame lemmas: what the handlers leave alone -/

theorem saveProgress_userProgress (s : AppState) :
    (saveProgress s).userProgress = s.userProgress := by
  unfold saveProgress
  dsimp only
  split <;> rfl

theorem loadQuestion_userProgress (s : AppState) :
    (loadQuestion s).state.userProgress = s.userProgress := by
  unfold loadQuestion
  split
  · rfl
  · split
    · rfl
    · split
      · rfl
      · dsimp only [Outcome.state]
        split <;> rfl

theorem updateUI_userProgress (s : AppState) :
    (updateUI s).state.userProgress = s.userProgress := by
  unfold updateUI
  split
  · rfl
  · split
    · rfl
    · split
      · rfl
      · rw [loadQuestion_userProgress]

theorem matchPair_userProgress (s : AppState) :
    (matchPair s).state.userProgress = s.userProgress := by
  unfold matchPair
  repeat (first | rfl | split)

theorem selectMatchingItem_userProgress (s : AppState) (item : MatchingItem) :
    (selectMatchingItem s item).state.userProgress = s.userProgress := by
  unfold selectMatchingItem
  split
  · rfl
  · split
    · rfl
    · dsimp only
      split
      · rw [matchPair_userProgress]
      · rfl

theorem updateScore_userProgress (s : AppState) (isCorrect : Bool) (points : Int) :
    (updateScore s isCorrect points).userProgress =
      if isCorrect then
        { s.userProgress with
          totalQuestions := s.userProgress.totalQuestions + 1,
          correctAnswers := s.userProgress.correctAnswers + 1,
          score := s.userProgress.score + points }
      else
        { s.userProgress with totalQuestions := s.userProgress.totalQuestions + 1 } := by
  unfold updateScore
  rw [saveProgress_userProgress]

/-- The state `submitAnswer` leaves on a graded answer: the tail of the method
after the `switch`. -/
theorem submitAnswer_done (s : AppState) (dom : Dom) (chapter : Chapter)
    (question : Question) (isCorrect : Bool)
    (ha : s.isAnswered = false) (hc : currentChapter s = some chapter)
    (hq : chapter.questions[s.currentQuestionIndex]? = some question)
    (hg : gradeAnswer s dom question = some isCorrect)
    (hh : highlightReturns s question = true) :
    ∃ ui4 : Ui, submitAnswer s dom =
      .done { updateScore (showFeedback { s with isAnswered := true } question.feedback
                isCorrect) isCorrect (pointsOrTen question.points) with ui := ui4 } := by
  unfold submitAnswer
  simp only [ha, hc, hq, hg, hh, Bool.not_true, Bool.false_eq_true, if_false]
  exact ⟨_, rfl⟩

/-- The cases in which `submitAnswer` changes nothing. -/
theorem submitAnswer_unchanged (s : AppState) (dom : Dom)
    (h : s.isAnswered = true ∨ currentQuestion s = none ∨
      ∃ question, currentQuestion s = some question ∧
        (gradeAnswer s dom question = none ∨ highlightReturns s question = false)) :
    (submitAnswer s dom).state = s := by
  unfold submitAnswer
  by_cases ha : s.isAnswered = true
  · simp only [ha, if_true, Outcome.state]
  · simp only [ha, if_false]
    cases hc : currentChapter s with
    | none => rfl
    | some chapter =>
      simp only []
      cases hq : chapter.questions[s.currentQuestionIndex]? with
      | none => rfl
      | some question =>
        simp only []
        rcases h with h | h | ⟨q, h1, h2⟩
        · exact absurd h ha
        · simp [currentQuestion, hc, hq] at h
        · simp only [currentQuestion, hc, hq, Option.some.injEq] at h1
          subst h1
          rcases h2 with h2 | h2
          · simp [h2, Outcome.state]
          · cases hg : gradeAnswer s dom question with
            | none => rfl
            | some isCorrect => simp [h2, Outcome.state]

/-- What `submitAnswer` does to the progress record, case by case. -/
theorem submitAnswer_userProgress (s : AppState) (dom : Dom) :
    (submitAnswer s dom).state.userProgress = s.userProgress ∨
    ∃ question isCorrect, currentQuestion s = some question ∧ s.isAnswered = false ∧
      gradeAnswer s dom question = some isCorrect ∧
      (submitAnswer s dom).state.userProgress =
        (updateScore s isCorrect (pointsOrTen question.points)).userProgress := by
  by_cases ha : s.isAnswered = true
  · left; rw [submitAnswer_unchanged s dom (Or.inl ha)]
  · have ha2 : s.isAnswered = false := by simpa using ha
    cases hc : currentChapter s with
    | none =>
      left; rw [submitAnswer_unchanged s dom (Or.inr (Or.inl (by simp [currentQuestion, hc])))]
    | some chapter =>
      cases hq : chapter.questions[s.currentQuestionIndex]? with
      | none =>
        left
        rw [submitAnswer_unchanged s dom (Or.inr (Or.inl (by simp [currentQuestion, hc, hq])))]
      | some question =>
        have hcq : currentQuestion s = some question := by simp [currentQuestion, hc, hq]
        cases hg : gradeAnswer s dom question with
        | none =>
          left
          rw [submitAnswer_unchanged s dom (Or.inr (Or.inr ⟨question, hcq, Or.inl hg⟩))]
        | some isCorrect =>
          cases hh : highlightReturns s question with
          | false =>
            left
            rw [submitAnswer_unchanged s dom (Or.inr (Or.inr ⟨question, hcq, Or.inr hh⟩))]
          | true =>
          right
          obtain ⟨ui4, h⟩ := submitAnswer_done s dom chapter question isCorrect ha2 hc hq hg hh
          refine ⟨question, isCorrect, hcq, ha2, hg, ?_⟩
          rw [h]
          simp only [Outcome.state, updateScore_userProgress, showFeedback]

theorem nextQuestion_userProgress (s : AppState) :
    (nextQuestion s).state.userProgress = s.userProgress := by
  unfold nextQuestion
  split
  · rfl
  · split
    · rw [loadQuestion_userProgress]
    · rfl

theorem previousChapter_userProgress (s : AppState) :
    (previousChapter s).state.userProgress = s.userProgress := by
  unfold previousChapter
  split
  · rw [updateUI_userProgress]
  · rfl

theorem nextChapter_userProgress (s : AppState) :
    (nextChapter s).state.userProgress = s.userProgress := by
  unfold nextChapter
  split
  · split
    · rfl
    · split
      · rw [updateUI_userProgress]
      · rfl
  · rfl

theorem goToChapter_userProgress (s : AppState) (index : Nat) :
    (goToChapter s index).state.userProgress = s.userProgress := by
  unfold goToChapter
  split
  · rfl
  · split
    · rw [updateUI_userProgress]
    · rfl

theorem completeChapterTimer_userProgress (s : AppState) :
    (completeChapterTimer s).state.userProgress = s.userProgress := by
  unfold completeChapterTimer
  split
  · rfl
  · split
    · rw [nextChapter_userProgress]
    · rfl

theorem selectOption_userProgress (s : AppState) (index : Nat) :
    (selectOption s index).state.userProgress = s.userProgress := by
  unfold selectOption
  split <;> rfl

theorem resetProgress_userProgress (s : AppState) (confirmed : Bool) :
    (resetProgress s confirmed).state.userProgress =
      if confirmed then zeroProgress else s.userProgress := by
  unfold resetProgress
  cases confirmed
  · rfl
  · simp only [if_true]
    rw [updateUI_userProgress]

/-- What `completeChapter` does to the progress record. -/
theorem completeChapter_userProgress (s : AppState) (chapter : Chapter)
    (hc : currentChapter s = some chapter) :
    (completeChapter s).state.userProgress =
      if s.userProgress.completedChapters.contains chapter.id then s.userProgress
      else
        { s.userProgress with
          completedChapters := s.userProgress.completedChapters ++ [chapter.id],
          score := s.userProgress.score + 50 } := by
  unfold completeChapter
  simp only [hc, Outcome.state]
  rw [saveProgress_userProgress]
  cases h : s.userProgress.completedChapters.contains chapter.id <;> simp

theorem completeChapter_raised (s : AppState) (hc : currentChapter s = none) :
    completeChapter s = .raised s := by
  unfold completeChapter
  simp only [hc]

/-! ## The progress invariant -/

theorem handle_preserves_le (s : AppState) (e : Event)
    (h : s.userProgress.correctAnswers ≤ s.userProgress.totalQuestions) :
    (step s e).userProgress.correctAnswers ≤ (step s e).userProgress.totalQuestions := by
  unfold step
  cases e with
  | selectOption index => simp only [handle]; rw [selectOption_userProgress]; exact h
  | selectMatchingItem item =>
    simp only [handle]; rw [selectMatchingItem_userProgress]; exact h
  | submitAnswer dom =>
    simp only [handle]
    rcases submitAnswer_userProgress s dom with h1 | ⟨q, b, -, -, -, h1⟩
    · rw [h1]; exact h
    · rw [h1, updateScore_userProgress]
      cases b
      · simp only [Bool.false_eq_true, if_false]; omega
      · simp only [if_true]; omega
  | nextQuestion => simp only [handle]; rw [nextQuestion_userProgress]; exact h
  | previousChapter => simp only [handle]; rw [previousChapter_userProgress]; exact h
  | nextChapter => simp only [handle]; rw [nextChapter_userProgress]; exact h
  | goToChapter index => simp only [handle]; rw [goToChapter_userProgress]; exact h
  | completeChapter =>
    simp only [handle]
    cases hc : currentChapter s with
    | none => rw [completeChapter_raised s hc]; exact h
    | some chapter =>
      rw [completeChapter_userProgress s chapter hc]
      split
      · exact h
      · exact h
  | completeChapterTimer =>
    simp only [handle]; rw [completeChapterTimer_userProgress]; exact h
  | resetProgress confirmed =>
    simp only [handle]; rw [resetProgress_userProgress]
    cases confirmed
    · exact h
    · exact Nat.le_refl 0

theorem run_preserves_le (es : List Event) (s : AppState)
    (h : s.userProgress.correctAnswers ≤ s.userProgress.totalQuestions) :
    (run s es).userProgress.correctAnswers ≤ (run s es).userProgress.totalQuestions := by
  induction es generalizing s with
  | nil => exact h
  | cons e es ih => exact ih (step s e) (handle_preserves_le s e h)

/-! ## Completed chapters only grow between resets -/

theorem step_completedChapters_mono (s : AppState) (e : Event)
    (hne : e ≠ Event.resetProgress true) (id : String)
    (h : id ∈ s.userProgress.completedChapters) :
    id ∈ (step s e).userProgress.completedChapters := by
  unfold step
  cases e with
  | selectOption index => simp only [handle]; rw [selectOption_userProgress]; exact h
  | selectMatchingItem item =>
    simp only [handle]; rw [selectMatchingItem_userProgress]; exact h
  | submitAnswer dom =>
    simp only [handle]
    rcases submitAnswer_userProgress s dom with h1 | ⟨q, b, -, -, -, h1⟩
    · rw [h1]; exact h
    · rw [h1, updateScore_userProgress]
      cases b
      · simp only [Bool.false_eq_true, if_false]; exact h
      · simp only [if_true]; exact h
  | nextQuestion => simp only [handle]; rw [nextQuestion_userProgress]; exact h
  | previousChapter => simp only [handle]; rw [previousChapter_userProgress]; exact h
  | nextChapter => simp only [handle]; rw [nextChapter_userProgress]; exact h
  | goToChapter index => simp only [handle]; rw [goToChapter_userProgress]; exact h
  | completeChapter =>
    simp only [handle]
    cases hc : currentChapter s with
    | none => rw [completeChapter_raised s hc]; exact h
    | some chapter =>
      rw [completeChapter_userProgress s chapter hc]
      split
      · exact h
      · exact List.mem_append_left _ h
  | completeChapterTimer =>
    simp only [handle]; rw [completeChapterTimer_userProgress]; exact h
  | resetProgress confirmed =>
    cases confirmed
    · simp only [handle]; rw [resetProgress_userProgress]; exact h
    · exact absurd rfl hne

theorem run_completedChapters_mono (es : List Event) (s : AppState)
    (hne : Event.resetProgress true ∉ es) (id : String)
    (h : id ∈ s.userProgress.completedChapters) :
    id ∈ (run s es).userProgress.completedChapters := by
  induction es generalizing s with
  | nil => exact h
  | cons e es ih =>
    have h1 : e ≠ Event.resetProgress true := fun he => hne (he ▸ List.mem_cons_self _ _)
    have h2 : Event.resetProgress true ∉ es := fun he => hne (List.mem_cons_of_mem _ he)
    exact ih (step s e) h2 (step_completedChapters_mono s e h1 id h)

theorem completeChapter_of_mem (s : AppState) (chapter : Chapter)
    (hc : currentChapter s = some chapter)
    (h : chapter.id ∈ s.userProgress.completedChapters) :
    (completeChapter s).state.userProgress = s.userProgress := by
  rw [completeChapter_userProgress s chapter hc]
  have : s.userProgress.completedChapters.contains chapter.id = true := by
    simpa using h
  simp only [this, if_true]

theorem pointsOrTen_nonneg (points : Option Int) (h : ∀ p, points = some p → 0 ≤ p) :
    0 ≤ pointsOrTen points := by
  unfold pointsOrTen
  split
  · omega
  · rename_i p
    have := h p rfl
    split <;> omega

/-! ## `JSON.stringify` is one-to-one on arrays of strings -/

theorem hexValue_hexCode (k : Nat) (h : k < 16) : hexValue (hexCode k) = k := by
  unfold hexValue hexCode
  split_ifs <;> omega

theorem readCode_quoteCodes (n : Nat) (r : List Nat) :
    readCode (quoteCodes n ++ r) = some (n, r) := by
  unfold quoteCodes
  split_ifs with h1 h2 h3 h4 h5 h6 h7 h8
  · subst h1; rfl
  · subst h2; rfl
  · subst h3; rfl
  · subst h4; rfl
  · subst h5; rfl
  · subst h6; rfl
  · subst h7; rfl
  · have a : n / 16 < 16 := by omega
    have b : n % 16 < 16 := by omega
    simp only [List.cons_append, List.nil_append, readCode]
    simp only [hexValue_hexCode _ a, hexValue_hexCode _ b]
    simp
    omega
  · simp only [List.cons_append, List.nil_append, readCode]
    simp [h6, h7]

theorem quoteCodes_prefix_free (n m : Nat) (r t : List Nat)
    (h : quoteCodes n ++ r = quoteCodes m ++ t) : n = m ∧ r = t := by
  have h1 := readCode_quoteCodes n r
  rw [h, readCode_quoteCodes] at h1
  simpa using h1.symm

theorem quoteCodes_ne_quote (n : Nat) (r t : List Nat) :
    quoteCodes n ++ r ≠ 34 :: t := by
  intro h
  have h1 := readCode_quoteCodes n r
  rw [h] at h1
  simp [readCode] at h1

theorem hexDigit_toNat (k : Nat) (h : k < 16) : (hexDigit k).toNat = hexCode k := by
  interval_cases k <;> rfl

theorem quoteJSONChar_codes (c : Char) :
    (quoteJSONChar c).map Char.toNat = quoteCodes c.toNat := by
  unfold quoteJSONChar quoteCodes
  dsimp only
  split_ifs with h1 h2 h3 h4 h5 h6 h7 h8
  · rfl
  · rfl
  · rfl
  · rfl
  · rfl
  · rfl
  · rfl
  · have a : c.toNat / 16 < 16 := by omega
    have b : c.toNat % 16 < 16 := by omega
    simp only [List.map, hexDigit_toNat _ a, hexDigit_toNat _ b]
    rfl
  · rfl

theorem char_eq_of_toNat_eq (a b : Char) (h : a.toNat = b.toNat) : a = b := by
  rw [← Char.ofNat_toNat a, ← Char.ofNat_toNat b, h]

/-- Reading back the escaped characters of a string up to its closing quote. -/
theorem quoteJSONChars_inj (a b : List Char) (r t : List Nat)
    (h : (quoteJSONChars a).map Char.toNat ++ 34 :: r =
      (quoteJSONChars b).map Char.toNat ++ 34 :: t) : a = b ∧ r = t := by
  induction a generalizing b with
  | nil =>
    cases b with
    | nil => simpa [quoteJSONChars] using h
    | cons c cs =>
      exfalso
      simp only [quoteJSONChars, List.map_nil, List.nil_append, List.map_append,
        quoteJSONChar_codes, List.append_assoc] at h
      exact quoteCodes_ne_quote _ _ _ h.symm
  | cons c cs ih =>
    cases b with
    | nil =>
      exfalso
      simp only [quoteJSONChars, List.map_nil, List.nil_append, List.map_append,
        quoteJSONChar_codes, List.append_assoc] at h
      exact quoteCodes_ne_quote _ _ _ h
    | cons d ds =>
      simp only [quoteJSONChars, List.map_append, quoteJSONChar_codes,
        List.append_assoc] at h
      obtain ⟨h1, h2⟩ := quoteCodes_prefix_free _ _ _ _ h
      obtain ⟨h3, h4⟩ := ih ds h2
      exact ⟨by rw [char_eq_of_toNat_eq c d h1, h3], h4⟩

theorem quoteJSONString_codes (x : String) (r : List Nat) :
    (quoteJSONString x).map Char.toNat ++ r =
      34 :: ((quoteJSONChars x.data).map Char.toNat ++ 34 :: r) := by
  simp [quoteJSONString]

theorem stringifyElements_cons (x : String) (xs : List String) :
    stringifyElements (x :: xs) =
      quoteJSONString x ++
        (match xs with
         | [] => []
         | y :: rest => Char.ofNat 44 :: stringifyElements (y :: rest)) := by
  cases xs with
  | nil => simp [stringifyElements]
  | cons y rest => simp [stringifyElements]

theorem stringifyElements_inj (xs ys : List String) (r t : List Nat)
    (h : (stringifyElements xs).map Char.toNat ++ 93 :: r =
      (stringifyElements ys).map Char.toNat ++ 93 :: t) : xs = ys := by
  induction xs generalizing ys with
  | nil =>
    cases ys with
    | nil => rfl
    | cons y ys =>
      exfalso
      rw [stringifyElements_cons, List.map_append, List.append_assoc,
        quoteJSONString_codes] at h
      simp [stringifyElements] at h
  | cons x xs ih =>
    cases ys with
    | nil =>
      exfalso
      rw [stringifyElements_cons, List.map_append, List.append_assoc,
        quoteJSONString_codes] at h
      simp [stringifyElements] at h
    | cons y ys =>
      rw [stringifyElements_cons, stringifyElements_cons, List.map_append, List.map_append,
        List.append_assoc, List.append_assoc, quoteJSONString_codes,
        quoteJSONString_codes] at h
      have h0 := List.cons.inj h
      obtain ⟨h1, h2⟩ := quoteJSONChars_inj _ _ _ _ h0.2
      have hxy : x = y := String.ext h1
      subst hxy
      cases xs with
      | nil =>
        cases ys with
        | nil => rfl
        | cons y2 ys2 =>
          exfalso
          have : (Char.ofNat 44).toNat = 44 := rfl
          simp [this] at h2
      | cons x2 xs2 =>
        cases ys with
        | nil =>
          exfalso
          have : (Char.ofNat 44).toNat = 44 := rfl
          simp [this] at h2
        | cons y2 ys2 =>
          simp only [List.map_cons, List.cons_append, List.cons.injEq, true_and] at h2
          rw [ih (y2 :: ys2) h2]

theorem JSON_stringify_inj (xs ys : List String)
    (h : JSON_stringify xs = JSON_stringify ys) : xs = ys := by
  unfold JSON_stringify at h
  have h1 := congrArg (fun s => s.data.map Char.toNat) h
  simp only [List.map_cons, List.map_append, List.map_nil, List.cons.injEq, true_and] at h1
  have e : (Char.ofNat 93).toNat = 93 := rfl
  rw [e] at h1
  exact stringifyElements_inj xs ys [] [] h1

/-! ## Position of a chapter in the loaded list -/

theorem indexOf_of_get? (chapters : List Chapter) (i : Nat) (chapter : Chapter)
    (hids : (chapters.map fun c => c.id).Nodup) (hi : chapters.get? i = some chapter) :
    indexOf chapters chapter = (i : Int) := by
  have hnd : chapters.Nodup := List.Nodup.of_map _ hids
  obtain ⟨hlt, hget⟩ := List.get?_eq_some.1 hi
  have hmem : chapter ∈ chapters := hget ▸ List.get_mem chapters i hlt
  unfold indexOf
  simp only [hmem, if_true]
  have := List.indexOf_getElem hnd i hlt
  rw [← hget]
  simp only [List.get_eq_getElem]
  rw [this]

/-! ## Position lemmas: what keeps the chapter list and the indices -/

theorem saveProgress_position (s : AppState) :
    (saveProgress s).chapters = s.chapters ∧
    (saveProgress s).currentChapterIndex = s.currentChapterIndex ∧
    (saveProgress s).currentQuestionIndex = s.currentQuestionIndex ∧
    (saveProgress s).isAnswered = s.isAnswered ∧
    (saveProgress s).ui = s.ui := by
  unfold saveProgress
  dsimp only
  split <;> exact ⟨rfl, rfl, rfl, rfl, rfl⟩

theorem submitAnswer_position (s : AppState) (dom : Dom) :
    (submitAnswer s dom).state.chapters = s.chapters ∧
    (submitAnswer s dom).state.currentChapterIndex = s.currentChapterIndex ∧
    (submitAnswer s dom).state.currentQuestionIndex = s.currentQuestionIndex := by
  by_cases ha : s.isAnswered = true
  · rw [submitAnswer_unchanged s dom (Or.inl ha)]
    exact ⟨rfl, rfl, rfl⟩
  · have ha2 : s.isAnswered = false := by simpa using ha
    cases hc : currentChapter s with
    | none =>
      rw [submitAnswer_unchanged s dom (Or.inr (Or.inl (by simp [currentQuestion, hc])))]
      exact ⟨rfl, rfl, rfl⟩
    | some chapter =>
      cases hq : chapter.questions[s.currentQuestionIndex]? with
      | none =>
        rw [submitAnswer_unchanged s dom (Or.inr (Or.inl (by simp [currentQuestion, hc, hq])))]
        exact ⟨rfl, rfl, rfl⟩
      | some question =>
        have hcq : currentQuestion s = some question := by simp [currentQuestion, hc, hq]
        cases hg : gradeAnswer s dom question with
        | none =>
          rw [submitAnswer_unchanged s dom (Or.inr (Or.inr ⟨question, hcq, Or.inl hg⟩))]
          exact ⟨rfl, rfl, rfl⟩
        | some isCorrect =>
          cases hh : highlightReturns s question with
          | false =>
            rw [submitAnswer_unchanged s dom (Or.inr (Or.inr ⟨question, hcq, Or.inr hh⟩))]
            exact ⟨rfl, rfl, rfl⟩
          | true =>
          obtain ⟨ui4, h⟩ := submitAnswer_done s dom chapter question isCorrect ha2 hc hq hg hh
          rw [h]
          simp only [Outcome.state, updateScore]
          obtain ⟨h1, h2, h3, -, -⟩ := saveProgress_position
            { showFeedback { s with isAnswered := true } question.feedback isCorrect with
              userProgress :=
                if isCorrect = true then
                  { score := s.userProgress.score + pointsOrTen question.points,
                    totalQuestions := s.userProgress.totalQuestions + 1,
                    correctAnswers := s.userProgress.correctAnswers + 1,
                    completedChapters := s.userProgress.completedChapters,
                    chapterProgress := s.userProgress.chapterProgress }
                else
                  { score := s.userProgress.score,
                    totalQuestions := s.userProgress.totalQuestions + 1,
                    correctAnswers := s.userProgress.correctAnswers,
                    completedChapters := s.userProgress.completedChapters,
                    chapterProgress := s.userProgress.chapterProgress } }
          exact ⟨h1, h2, h3⟩

/-- The state `loadQuestion` leaves on a chapter that has the question asked
for. -/
theorem loadQuestion_done (s : AppState) (chapter : Chapter) (question : Question)
    (hc : currentChapter s = some chapter)
    (hq : chapter.questions.get? s.currentQuestionIndex = some question) :
    ∃ s1, loadQuestion s = Outcome.done s1 ∧
      s1.isAnswered = false ∧
      s1.chapters = s.chapters ∧
      s1.currentChapterIndex = s.currentChapterIndex ∧
      s1.currentQuestionIndex = s.currentQuestionIndex ∧
      s1.selectedAnswer = s.selectedAnswer ∧
      s1.userProgress = s.userProgress ∧
      s1.ui.nextQuestionShown = false ∧
      s1.ui.submitAnswerShown = true ∧
      s1.ui.completeChapterShown = s.ui.completeChapterShown ∧
      (∀ pairs, question.type = QuestionType.matching pairs →
        s1.matchedPairs = some [] ∧
        s1.selectedMatching = some { left := none, right := none }) ∧
      ((∀ pairs, question.type ≠ QuestionType.matching pairs) →
        s1.matchedPairs = s.matchedPairs ∧ s1.selectedMatching = s.selectedMatching) := by
  have hq2 : chapter.questions[s.currentQuestionIndex]? = some question := by simpa using hq
  have hlen : chapter.questions.length ≠ 0 := by
    have := (List.get?_eq_some.1 hq).1
    omega
  unfold loadQuestion
  simp only [hc, hlen, if_false, hq2]
  cases hty : question.type with
  | matching pairs =>
    refine ⟨_, rfl, rfl, rfl, rfl, rfl, rfl, rfl, rfl, rfl, rfl, ?_, ?_⟩
    · intro p _; exact ⟨rfl, rfl⟩
    · intro h; exact absurd rfl (h pairs)
  | multipleChoice options correct =>
    refine ⟨_, rfl, rfl, rfl, rfl, rfl, rfl, rfl, rfl, rfl, rfl, ?_, ?_⟩
    · intro p hp; cases hp
    · intro _; exact ⟨rfl, rfl⟩
  | fillInBlank correct =>
    refine ⟨_, rfl, rfl, rfl, rfl, rfl, rfl, rfl, rfl, rfl, rfl, ?_, ?_⟩
    · intro p hp; cases hp
    · intro _; exact ⟨rfl, rfl⟩
  | dragDrop items correct =>
    refine ⟨_, rfl, rfl, rfl, rfl, rfl, rfl, rfl, rfl, rfl, rfl, ?_, ?_⟩
    · intro p hp; cases hp
    · intro _; exact ⟨rfl, rfl⟩
  | readingPassage passage options correct =>
    refine ⟨_, rfl, rfl, rfl, rfl, rfl, rfl, rfl, rfl, rfl, rfl, ?_, ?_⟩
    · intro p hp; cases hp
    · intro _; exact ⟨rfl, rfl⟩

theorem loadQuestion_selectedAnswer (s : AppState) :
    (loadQuestion s).state.selectedAnswer = s.selectedAnswer := by
  unfold loadQuestion
  split
  · rfl
  · split
    · rfl
    · split
      · rfl
      · dsimp only [Outcome.state]
        split <;> rfl

/-! ## One pass of the achievement evaluation -/

theorem foldl_award (p : Achievement → Bool) (rules : List Achievement)
    (acc : List String × Stats) :
    rules.foldl (fun (acc : List String × Stats) (r : Achievement) =>
        if p r = true then
          (acc.1 ++ [r.id], { acc.2 with score := acc.2.score + r.points })
        else acc) acc =
      (acc.1 ++ (rules.filter p).map (fun r => r.id),
        { acc.2 with score := acc.2.score + ((rules.filter p).map (fun r => r.points)).sum }) := by
  induction rules generalizing acc with
  | nil => simp
  | cons r rs ih =>
    rw [List.foldl_cons, ih]
    by_cases h : p r = true
    · simp [List.filter_cons, h, Nat.add_assoc]
    · simp [List.filter_cons, h]

theorem foldl_awardStep (stats : Stats) (cur : List String) (rules : List Achievement)
    (acc : List String × Stats) :
    rules.foldl (awardStep stats cur) acc =
      (acc.1 ++ (rules.filter fun r => !cur.contains r.id && r.condition stats).map
          (fun r => r.id),
        { acc.2 with
          score := acc.2.score +
            ((rules.filter fun r => !cur.contains r.id && r.condition stats).map
              (fun r => r.points)).sum }) :=
  foldl_award (fun r => !cur.contains r.id && r.condition stats) rules acc

/-- The document a pass leaves for a signed-in user whose document exists. -/
theorem checkAchievements_store (rules : List Achievement) (a : Analytics) (userId : String)
    (stats : Stats) (hu : a.userId = some userId) (hs : a.store = some stats) :
    checkAchievements rules a = { a with store := some (awarded rules stats) } := by
  unfold checkAchievements
  simp only [hu, hs, foldl_awardStep, List.nil_append]
  unfold awarded newlyEarned
  split
  · rfl
  · rename_i hlen
    have hnil : (List.map (fun r => r.id)
        (List.filter (fun r => !stats.achievements.contains r.id && r.condition stats) rules))
        = [] := by
      apply List.eq_nil_of_length_eq_zero
      omega
    have hfil : List.filter (fun r => !stats.achievements.contains r.id && r.condition stats)
        rules = [] := by
      exact List.map_eq_nil_iff.1 hnil
    simp only [hfil, List.map_nil, List.sum_nil, List.append_nil, Nat.add_zero]

theorem mem_newlyEarned (rules : List Achievement) (stats : Stats) (r : Achievement) :
    r ∈ newlyEarned rules stats ↔
      r ∈ rules ∧ r.id ∉ stats.achievements ∧ r.condition stats = true := by
  unfold newlyEarned
  simp [List.mem_filter]

/-- The conditions of the rule list read neither `score` nor `achievements`. -/
theorem initializeAchievements_condition_frame (r : Achievement)
    (hr : r ∈ initializeAchievements) (stats : Stats) (achievements : List String)
    (score : Nat) :
    r.condition { stats with achievements := achievements, score := score } =
      r.condition stats := by
  simp only [initializeAchievements, List.mem_cons, List.mem_nil_iff, or_false] at hr
  rcases hr with h | h | h | h | h | h | h | h <;> subst h <;> rfl

/-- After a pass over the rule list of the class nothing is left to award. -/
theorem newlyEarned_awarded (stats : Stats) :
    newlyEarned initializeAchievements (awarded initializeAchievements stats) = [] := by
  apply List.eq_nil_iff_forall_not_mem.2
  intro r hr
  rw [mem_newlyEarned] at hr
  obtain ⟨hmem, hnot, hcond⟩ := hr
  have hc : r.condition stats = true := by
    have := initializeAchievements_condition_frame r hmem stats
      (awarded initializeAchievements stats).achievements
      (awarded initializeAchievements stats).score
    rw [← this]
    exact hcond
  apply hnot
  show r.id ∈ stats.achievements ++
    (newlyEarned initializeAchievements stats).map (fun r => r.id)
  by_cases he : r.id ∈ stats.achievements
  · exact List.mem_append_left _ he
  · apply List.mem_append_right
    exact List.mem_map_of_mem _ ((mem_newlyEarned _ _ _).2 ⟨hmem, he, hc⟩)

theorem awarded_of_nil (rules : List Achievement) (stats : Stats)
    (h : newlyEarned rules stats = []) : awarded rules stats = stats := by
  unfold awarded
  simp [h]

/-! ## The chapter list is never written -/

theorem loadQuestion_chapters (s : AppState) :
    (loadQuestion s).state.chapters = s.chapters := by
  unfold loadQuestion
  split
  · rfl
  · split
    · rfl
    · split
      · rfl
      · dsimp only [Outcome.state]
        split <;> rfl

theorem updateUI_chapters (s : AppState) :
    (updateUI s).state.chapters = s.chapters := by
  unfold updateUI
  split
  · rfl
  · split
    · rfl
    · split
      · rfl
      · rw [loadQuestion_chapters]

theorem matchPair_chapters (s : AppState) :
    (matchPair s).state.chapters = s.chapters := by
  unfold matchPair
  repeat (first | rfl | split)

theorem selectMatchingItem_chapters (s : AppState) (item : MatchingItem) :
    (selectMatchingItem s item).state.chapters = s.chapters := by
  unfold selectMatchingItem
  split
  · rfl
  · split
    · rfl
    · dsimp only
      split
      · rw [matchPair_chapters]
      · rfl

theorem nextChapter_chapters (s : AppState) :
    (nextChapter s).state.chapters = s.chapters := by
  unfold nextChapter
  split
  · split
    · rfl
    · split
      · rw [updateUI_chapters]
      · rfl
  · rfl

theorem step_chapters (s : AppState) (e : Event) : (step s e).chapters = s.chapters := by
  unfold step
  cases e with
  | selectOption index =>
    simp only [handle]; unfold selectOption; split <;> rfl
  | selectMatchingItem item => simp only [handle]; exact selectMatchingItem_chapters s item
  | submitAnswer dom => simp only [handle]; exact (submitAnswer_position s dom).1
  | nextQuestion =>
    simp only [handle]; unfold nextQuestion
    split
    · rfl
    · split
      · rw [loadQuestion_chapters]
      · rfl
  | previousChapter =>
    simp only [handle]; unfold previousChapter
    split
    · rw [updateUI_chapters]
    · rfl
  | nextChapter => simp only [handle]; exact nextChapter_chapters s
  | goToChapter index =>
    simp only [handle]; unfold goToChapter
    split
    · rfl
    · split
      · rw [updateUI_chapters]
      · rfl
  | completeChapter =>
    simp only [handle]; unfold completeChapter
    split
    · rfl
    · dsimp only [Outcome.state]
      rw [(saveProgress_position _).1]
      split <;> rfl
  | completeChapterTimer =>
    simp only [handle]; unfold completeChapterTimer
    split
    · rfl
    · split
      · exact nextChapter_chapters s
      · rfl
  | resetProgress confirmed =>
    simp only [handle]; unfold resetProgress
    split
    · rw [updateUI_chapters]
    · rfl

theorem run_chapters (es : List Event) (s : AppState) : (run s es).chapters = s.chapters := by
  induction es generalizing s with
  | nil => rfl
  | cons e es ih =>
    show (run (step s e) es).chapters = s.chapters
    rw [ih, step_chapters]

/-! ## Scores and counters only grow between resets -/

theorem currentQuestion_mem (s : AppState) (question : Question)
    (h : currentQuestion s = some question) :
    ∃ chapter, chapter ∈ s.chapters ∧ question ∈ chapter.questions := by
  unfold currentQuestion at h
  cases hc : currentChapter s with
  | none => simp [hc] at h
  | some chapter =>
    simp only [hc] at h
    exact ⟨chapter, List.getElem?_mem hc, List.getElem?_mem h⟩

theorem step_counters_mono (s : AppState) (e : Event)
    (hne : e ≠ Event.resetProgress true) :
    s.userProgress.totalQuestions ≤ (step s e).userProgress.totalQuestions ∧
    s.userProgress.correctAnswers ≤ (step s e).userProgress.correctAnswers := by
  have same : ∀ p : UserProgress, p = s.userProgress →
      s.userProgress.totalQuestions ≤ p.totalQuestions ∧
      s.userProgress.correctAnswers ≤ p.correctAnswers := by
    intro p hp
    rw [hp]
    exact ⟨Nat.le_refl _, Nat.le_refl _⟩
  unfold step
  cases e with
  | selectOption index => exact same _ (selectOption_userProgress s index)
  | selectMatchingItem item => exact same _ (selectMatchingItem_userProgress s item)
  | submitAnswer dom =>
    simp only [handle]
    rcases submitAnswer_userProgress s dom with h1 | ⟨q, b, -, -, -, h1⟩
    · exact same _ h1
    · rw [h1, updateScore_userProgress]
      cases b
      · simp only [Bool.false_eq_true, if_false]
        exact ⟨Nat.le_succ _, Nat.le_refl _⟩
      · simp only [if_true]
        exact ⟨Nat.le_succ _, Nat.le_succ _⟩
  | nextQuestion => exact same _ (nextQuestion_userProgress s)
  | previousChapter => exact same _ (previousChapter_userProgress s)
  | nextChapter => exact same _ (nextChapter_userProgress s)
  | goToChapter index => exact same _ (goToChapter_userProgress s index)
  | completeChapter =>
    simp only [handle]
    cases hc : currentChapter s with
    | none => rw [completeChapter_raised s hc]; exact same _ rfl
    | some chapter =>
      rw [completeChapter_userProgress s chapter hc]
      split
      · exact same _ rfl
      · exact ⟨Nat.le_refl _, Nat.le_refl _⟩
  | completeChapterTimer => exact same _ (completeChapterTimer_userProgress s)
  | resetProgress confirmed =>
    cases confirmed
    · exact same _ (resetProgress_userProgress s false)
    · exact absurd rfl hne

theorem run_counters_mono (es : List Event) (s : AppState)
    (hne : Event.resetProgress true ∉ es) :
    s.userProgress.totalQuestions ≤ (run s es).userProgress.totalQuestions ∧
    s.userProgress.correctAnswers ≤ (run s es).userProgress.correctAnswers := by
  induction es generalizing s with
  | nil => exact ⟨Nat.le_refl _, Nat.le_refl _⟩
  | cons e es ih =>
    have h1 : e ≠ Event.resetProgress true := fun he => hne (he ▸ List.mem_cons_self _ _)
    have h2 : Event.resetProgress true ∉ es := fun he => hne (List.mem_cons_of_mem _ he)
    obtain ⟨a2, a3⟩ := step_counters_mono s e h1
    obtain ⟨b2, b3⟩ := ih (step s e) h2
    exact ⟨Nat.le_trans a2 b2, Nat.le_trans a3 b3⟩

/-- The change of the score in one step, whatever the point values: nothing, the
50 points of a completion, or the points of the current question. -/
theorem step_score (s : AppState) (e : Event) (hne : e ≠ Event.resetProgress true) :
    (step s e).userProgress.score = s.userProgress.score ∨
    (step s e).userProgress.score = s.userProgress.score + 50 ∨
    ∃ question, currentQuestion s = some question ∧
      (step s e).userProgress.score = s.userProgress.score + pointsOrTen question.points := by
  have same : ∀ p : UserProgress, p = s.userProgress →
      p.score = s.userProgress.score ∨ p.score = s.userProgress.score + 50 ∨
      ∃ question, currentQuestion s = some question ∧
        p.score = s.userProgress.score + pointsOrTen question.points := by
    intro p hp
    rw [hp]
    exact Or.inl rfl
  unfold step
  cases e with
  | selectOption index => exact same _ (selectOption_userProgress s index)
  | selectMatchingItem item => exact same _ (selectMatchingItem_userProgress s item)
  | submitAnswer dom =>
    simp only [handle]
    rcases submitAnswer_userProgress s dom with h1 | ⟨q, b, hq, -, -, h1⟩
    · exact same _ h1
    · rw [h1, updateScore_userProgress]
      cases b
      · exact Or.inl rfl
      · exact Or.inr (Or.inr ⟨q, hq, rfl⟩)
  | nextQuestion => exact same _ (nextQuestion_userProgress s)
  | previousChapter => exact same _ (previousChapter_userProgress s)
  | nextChapter => exact same _ (nextChapter_userProgress s)
  | goToChapter index => exact same _ (goToChapter_userProgress s index)
  | completeChapter =>
    simp only [handle]
    cases hc : currentChapter s with
    | none => rw [completeChapter_raised s hc]; exact same _ rfl
    | some chapter =>
      rw [completeChapter_userProgress s chapter hc]
      split
      · exact same _ rfl
      · exact Or.inr (Or.inl rfl)
  | completeChapterTimer => exact same _ (completeChapterTimer_userProgress s)
  | resetProgress confirmed =>
    cases confirmed
    · exact same _ (resetProgress_userProgress s false)
    · exact absurd rfl hne

theorem step_score_mono (s : AppState) (e : Event)
    (hne : e ≠ Event.resetProgress true)
    (hp : ∀ chapter ∈ s.chapters, ∀ question ∈ chapter.questions,
      ∀ p, question.points = some p → 0 ≤ p) :
    s.userProgress.score ≤ (step s e).userProgress.score := by
  rcases step_score s e hne with h | h | ⟨question, hq, h⟩
  · rw [h]
  · rw [h]; omega
  · rw [h]
    obtain ⟨chapter, hc, hm⟩ := currentQuestion_mem s question hq
    have := pointsOrTen_nonneg question.points (hp chapter hc question hm)
    omega

theorem run_score_mono (es : List Event) (s : AppState)
    (hne : Event.resetProgress true ∉ es)
    (hp : ∀ chapter ∈ s.chapters, ∀ question ∈ chapter.questions,
      ∀ p, question.points = some p → 0 ≤ p) :
    s.userProgress.score ≤ (run s es).userProgress.score := by
  induction es generalizing s with
  | nil => exact Int.le_refl _
  | cons e es ih =>
    have h1 : e ≠ Event.resetProgress true := fun he => hne (he ▸ List.mem_cons_self _ _)
    have h2 : Event.resetProgress true ∉ es := fun he => hne (List.mem_cons_of_mem _ he)
    have a := step_score_mono s e h1 hp
    have b := ih (step s e) h2 (by rw [step_chapters]; exact hp)
    exact Int.le_trans a b

/-- From a score that is not negative, over content without negative point
values, no sequence of events, resets included, makes the score negative. -/
theorem run_score_nonneg (es : List Event) (s : AppState)
    (h0 : 0 ≤ s.userProgress.score)
    (hp : ∀ chapter ∈ s.chapters, ∀ question ∈ chapter.questions,
      ∀ p, question.points = some p → 0 ≤ p) :
    0 ≤ (run s es).userProgress.score := by
  induction es generalizing s with
  | nil => exact h0
  | cons e es ih =>
    refine ih (step s e) ?_ (by rw [step_chapters]; exact hp)
    by_cases he : e = Event.resetProgress true
    · subst he
      have : (step s (Event.resetProgress true)).userProgress = zeroProgress := by
        unfold step
        simp only [handle, resetProgress, if_true]
        rw [updateUI_userProgress]
      rw [this]
      decide
    · exact Int.le_trans h0 (step_score_mono s e he hp)

theorem pointsNonNegative_spec (chapters : List Chapter)
    (h : pointsNonNegative chapters = true) :
    ∀ chapter ∈ chapters, ∀ question ∈ chapter.questions,
      ∀ p, question.points = some p → 0 ≤ p := by
  intro chapter hc question hq p hp
  unfold pointsNonNegative at h
  rw [List.all_eq_true] at h
  have h1 := h chapter hc
  rw [List.all_eq_true] at h1
  have h2 := h1 question hq
  rw [hp] at h2
  simpa using h2

/-! ## The state `init` leaves -/

theorem init_state (chapters : List Chapter) (saved : Option UserProgress) :
    (init chapters saved).state.chapters = chapters ∧
    (init chapters saved).state.userProgress = saved.getD zeroProgress := by
  unfold init
  rw [updateUI_chapters, updateUI_userProgress]
  cases saved with
  | none => exact ⟨rfl, rfl⟩
  | some p => exact ⟨rfl, rfl⟩

/-! ## Completed chapters are chapters of the list -/

theorem step_completed_subset (s : AppState) (e : Event)
    (h : ∀ id, id ∈ s.userProgress.completedChapters → ∃ c, c ∈ s.chapters ∧ c.id = id) :
    ∀ id, id ∈ (step s e).userProgress.completedChapters →
      ∃ c, c ∈ (step s e).chapters ∧ c.id = id := by
  rw [step_chapters]
  have same : ∀ p : UserProgress, p = s.userProgress →
      ∀ id, id ∈ p.completedChapters → ∃ c, c ∈ s.chapters ∧ c.id = id := by
    intro p hp
    rw [hp]
    exact h
  unfold step
  cases e with
  | selectOption index => exact same _ (selectOption_userProgress s index)
  | selectMatchingItem item => exact same _ (selectMatchingItem_userProgress s item)
  | submitAnswer dom =>
    simp only [handle]
    rcases submitAnswer_userProgress s dom with h1 | ⟨q, b, -, -, -, h1⟩
    · exact same _ h1
    · rw [h1, updateScore_userProgress]
      cases b
      · simp only [Bool.false_eq_true, if_false]; exact h
      · simp only [if_true]; exact h
  | nextQuestion => exact same _ (nextQuestion_userProgress s)
  | previousChapter => exact same _ (previousChapter_userProgress s)
  | nextChapter => exact same _ (nextChapter_userProgress s)
  | goToChapter index => exact same _ (goToChapter_userProgress s index)
  | completeChapter =>
    simp only [handle]
    cases hc : currentChapter s with
    | none => rw [completeChapter_raised s hc]; exact h
    | some chapter =>
      rw [completeChapter_userProgress s chapter hc]
      split
      · exact h
      · intro id hid
        simp only [List.mem_append, List.mem_singleton] at hid
        rcases hid with hid | hid
        · exact h id hid
        · refine ⟨chapter, ?_, hid.symm⟩
          unfold currentChapter at hc
          exact List.getElem?_mem hc
  | completeChapterTimer => exact same _ (completeChapterTimer_userProgress s)
  | resetProgress confirmed =>
    simp only [handle]
    rw [resetProgress_userProgress]
    cases confirmed
    · exact h
    · intro id hid
      cases hid

theorem run_completed_subset (es : List Event) (s : AppState)
    (h : ∀ id, id ∈ s.userProgress.completedChapters → ∃ c, c ∈ s.chapters ∧ c.id = id) :
    ∀ id, id ∈ (run s es).userProgress.completedChapters →
      ∃ c, c ∈ s.chapters ∧ c.id = id := by
  induction es generalizing s with
  | nil => exact h
  | cons e es ih =>
    have := ih (step s e) (step_completed_subset s e h)
    rw [step_chapters] at this
    exact this

/-! ## Chapter completion tracking -/

theorem chapterAccuracy_eq_100 (c q : Nat) : chapterAccuracy c q = 100 ↔ (0 < q ∧ c = q) := by
  unfold chapterAccuracy
  by_cases hq : q > 0
  · rw [if_pos hq]
    have hq0 : (q : ℚ) ≠ 0 := by exact_mod_cast Nat.pos_iff_ne_zero.1 hq
    constructor
    · intro h
      refine ⟨hq, ?_⟩
      have h1 : (c : ℚ) / (q : ℚ) = 1 := by linarith
      have h2 : (c : ℚ) = (q : ℚ) := by
        rw [div_eq_one_iff_eq hq0] at h1
        exact h1
      exact_mod_cast h2
    · rintro ⟨-, rfl⟩
      rw [div_self hq0]
      norm_num
  · rw [if_neg hq]
    constructor
    · intro h; norm_num at h
    · rintro ⟨h, -⟩; exact absurd h hq

theorem completeChapterTracking_eq (s : AppState) (chapter : Chapter)
    (hc : currentChapter s = some chapter)
    (hn : s.userProgress.completedChapters.contains chapter.id = false) :
    completeChapterTracking s =
      some (chapter.id, chapterAccuracy s.userProgress.correctAnswers chapter.questions.length) := by
  unfold completeChapterTracking
  simp only [hc, hn, Bool.not_false, if_true]

theorem trackChapterCompletion_perfectChapters (a : Analytics) (userId : String) (data : Stats)
    (chapterId : String) (accuracy : ℚ) (today yesterday : String)
    (hu : a.userId = some userId) (hs : a.store = some data) :
    (trackChapterCompletion a chapterId accuracy today yesterday).store.map
        (fun d => d.perfectChapters) =
      some (if accuracy = 100 then data.perfectChapters + 1 else data.perfectChapters) := by
  unfold trackChapterCompletion updateStudyStreak updateUserStats
  by_cases h : accuracy = 100
  · simp only [h, if_true, hu, hs, incrementField]
    split_ifs <;> rfl
  · simp only [h, if_false, hu, hs, incrementField]
    split_ifs <;> rfl

/-! ## The validation loop of `batchUpload` -/

theorem validateAll_none (chapters : List UploadChapter) (index : Nat) :
    validateAll chapters index = none ↔
      ∀ c, c ∈ chapters → ∃ b, validateChapter c = Except.ok b := by
  induction chapters generalizing index with
  | nil => simp [validateAll]
  | cons c cs ih =>
    unfold validateAll
    cases hv : validateChapter c with
    | error e =>
      constructor
      · intro h
        cases h
      · intro h
        obtain ⟨b, hb⟩ := h c (List.mem_cons_self _ _)
        rw [hv] at hb
        cases hb
    | ok b =>
      simp only [ih]
      constructor
      · intro h x hx
        rcases List.mem_cons.1 hx with rfl | hx
        · exact ⟨b, hv⟩
        · exact h x hx
      · intro h x hx
        exact h x (List.mem_cons_of_mem _ hx)

theorem validateAll_some (chapters : List UploadChapter) (index : Nat) (e : BatchError)
    (h : validateAll chapters index = some e) :
    ∃ i c, chapters.get? i = some c ∧ e.position = index + i + 1 ∧
      validateChapter c = Except.error e.error ∧
      ∀ j c', j < i → chapters.get? j = some c' → ∃ b, validateChapter c' = Except.ok b := by
  induction chapters generalizing index with
  | nil => simp [validateAll] at h
  | cons c cs ih =>
    unfold validateAll at h
    cases hv : validateChapter c with
    | error err =>
      rw [hv] at h
      simp only [Option.some.injEq] at h
      subst h
      refine ⟨0, c, rfl, rfl, hv, ?_⟩
      intro j c' hj
      omega
    | ok b =>
      rw [hv] at h
      obtain ⟨i, x, hx, hpos, herr, hbefore⟩ := ih (index + 1) h
      refine ⟨i + 1, x, hx, by omega, herr, ?_⟩
      intro j c' hj hc'
      cases j with
      | zero =>
        simp only [List.get?_cons_zero, Option.some.injEq] at hc'
        subst hc'
        exact ⟨b, hv⟩
      | succ j =>
        exact hbefore j c' (by omega) hc'

/-! ## Certificate thresholds -/

theorem certificateAccuracy_ge (stats : Stats) (k : Nat) (h : 0 < stats.totalQuestions) :
    certificateAccuracy (some stats) ≥ (k : ℚ) ↔
      k * stats.totalQuestions ≤ 100 * stats.correctAnswers := by
  unfold certificateAccuracy
  simp only [gt_iff_lt, h, if_true, ge_iff_le]
  have ht : (0 : ℚ) < (stats.totalQuestions : ℚ) := by exact_mod_cast h
  rw [div_mul_eq_mul_div, le_div_iff₀ ht]
  constructor
  · intro hle
    have : ((k * stats.totalQuestions : Nat) : ℚ) ≤ ((100 * stats.correctAnswers : Nat) : ℚ) := by
      push_cast
      linarith
    exact_mod_cast this
  · intro hle
    have : ((k * stats.totalQuestions : Nat) : ℚ) ≤ ((100 * stats.correctAnswers : Nat) : ℚ) := by
      exact_mod_cast hle
    push_cast at this
    linarith

theorem determineCertificateType_auto (progressData : UserProgress)
    (statsData : Option Stats) :
    determineCertificateType progressData statsData "auto" =
      if certificateAccuracy statsData ≥ 95 ∧ progressData.completedChapters.length ≥ 5 ∧
          achievementCount statsData ≥ 5 then "mastery"
      else if certificateAccuracy statsData ≥ 85 ∧
          progressData.completedChapters.length ≥ 3 ∧ achievementCount statsData ≥ 3 then
        "excellence"
      else "completion" := by
  unfold determineCertificateType
  simp only [if_true]

theorem determineCertificateType_other (progressData : UserProgress)
    (statsData : Option Stats) (requestedType : String) (hne : requestedType ≠ "auto") :
    determineCertificateType progressData statsData requestedType = requestedType := by
  unfold determineCertificateType
  simp only [hne, if_false]

/-- A threshold of `determineCertificateType`, read on the fields of the two
documents. -/
theorem certificate_threshold (statsData : Option Stats) (chapters k n : Nat) (hk : 0 < k) :
    (certificateAccuracy statsData ≥ (k : ℚ) ∧ chapters ≥ n ∧ achievementCount statsData ≥ n) ↔
      ∃ stats, statsData = some stats ∧ 0 < stats.totalQuestions ∧
        k * stats.totalQuestions ≤ 100 * stats.correctAnswers ∧
        n ≤ chapters ∧ n ≤ stats.achievements.length := by
  have hkq : (0 : ℚ) < (k : ℚ) := by exact_mod_cast hk
  cases statsData with
  | none =>
    constructor
    · rintro ⟨h, -⟩
      have h0 : certificateAccuracy none = 0 := rfl
      rw [h0] at h
      exact absurd h (not_le.2 hkq)
    · rintro ⟨stats, h, -⟩
      cases h
  | some stats =>
    by_cases ht : 0 < stats.totalQuestions
    · rw [certificateAccuracy_ge stats k ht]
      constructor
      · rintro ⟨h1, h2, h3⟩
        exact ⟨stats, rfl, ht, h1, h2, h3⟩
      · rintro ⟨stats2, h, -, h1, h2, h3⟩
        cases h
        exact ⟨h1, h2, h3⟩
    · constructor
      · rintro ⟨h, -⟩
        have h0 : certificateAccuracy (some stats) = 0 := by
          unfold certificateAccuracy
          simp only [gt_iff_lt, ht, if_false]
        rw [h0] at h
        exact absurd h (not_le.2 hkq)
      · rintro ⟨stats2, h, ht2, -⟩
        cases h
        exact absurd ht2 ht

theorem determineCertificateType_top :
    determineCertificateType topProgress (some topStats) "auto" = "mastery" := by
  rw [determineCertificateType_auto]
  have h := (certificate_threshold (some topStats) topProgress.completedChapters.length
    95 5 (by norm_num)).2 ⟨topStats, rfl, by decide, by decide, by decide, by decide⟩
  have h2 : certificateAccuracy (some topStats) ≥ 95 ∧
      topProgress.completedChapters.length ≥ 5 ∧ achievementCount (some topStats) ≥ 5 := by
    simpa using h
  rw [if_pos h2]

/-- The record `generateCertificate` returns for a user whose two documents
exist, when the type determined has a template. -/
theorem generateCertificate_ok (userId : String) (progressData : UserProgress)
    (statsDoc : Option Stats) (type : Option String) (certificateType : String)
    (ht : determineCertificateType progressData statsDoc (type.getD "completion") =
      certificateType)
    (hd : templateDefined certificateType = true) :
    generateCertificate userId true (some progressData) statsDoc type =
      Except.ok { userId := userId, type := certificateType, score := progressData.score,
                  chaptersCompleted := progressData.completedChapters.length,
                  achievements := achievementCount statsDoc } := by
  unfold generateCertificate
  simp only [ht, hd, Bool.not_true, Bool.false_eq_true, if_false]

/-! ## The host string functions of the fill-in-blank grading -/

/-- What `trim` returns is the text between a run of white space at the front
and a run of white space at the end, and starts and ends with none. -/
theorem trim_spec (t : String) :
    ∃ pre post : List Char, t.data = pre ++ (trim t).data ++ post ∧
      (∀ c ∈ pre, isTrimmed c = true) ∧ (∀ c ∈ post, isTrimmed c = true) ∧
      (∀ c, (trim t).data.head? = some c → isTrimmed c = false) ∧
      (∀ c, (trim t).data.getLast? = some c → isTrimmed c = false) := by
  have h1 : t.data = t.data.takeWhile isTrimmed ++ t.data.dropWhile isTrimmed :=
    (List.takeWhile_append_dropWhile isTrimmed t.data).symm
  have h2 : (t.data.dropWhile isTrimmed).reverse =
      (t.data.dropWhile isTrimmed).reverse.takeWhile isTrimmed ++
        (t.data.dropWhile isTrimmed).reverse.dropWhile isTrimmed :=
    (List.takeWhile_append_dropWhile isTrimmed _).symm
  have h3 : t.data.dropWhile isTrimmed =
      ((t.data.dropWhile isTrimmed).reverse.dropWhile isTrimmed).reverse ++
        ((t.data.dropWhile isTrimmed).reverse.takeWhile isTrimmed).reverse := by
    rw [← List.reverse_append, ← h2, List.reverse_reverse]
  have hlast : ∀ c, (trim t).data.getLast? = some c → isTrimmed c = false := by
    intro c hc
    simp only [trim, List.getLast?_reverse] at hc
    have := List.head?_dropWhile_not isTrimmed (t.data.dropWhile isTrimmed).reverse
    rw [hc] at this
    simpa using this
  refine ⟨t.data.takeWhile isTrimmed,
    ((t.data.dropWhile isTrimmed).reverse.takeWhile isTrimmed).reverse, ?_, ?_, ?_, ?_, hlast⟩
  · show t.data = _ ++ ((t.data.dropWhile isTrimmed).reverse.dropWhile isTrimmed).reverse ++ _
    rw [List.append_assoc, ← h3]
    exact h1
  · intro c hc
    exact List.mem_takeWhile_imp hc
  · intro c hc
    exact List.mem_takeWhile_imp (List.mem_reverse.1 hc)
  · intro c hc
    have hd := List.head?_dropWhile_not isTrimmed t.data
    have hdata : (trim t).data =
        ((t.data.dropWhile isTrimmed).reverse.dropWhile isTrimmed).reverse := rfl
    rw [hdata] at hc
    have hh : (t.data.dropWhile isTrimmed).head? = some c := by
      rw [h3, List.head?_append_of_ne_nil]
      · exact hc
      · intro hn
        rw [hn] at hc
        cases hc
    rw [hh] at hd
    simpa using hd

set_option maxRecDepth 100000 in
/-- Below 128 the only simple lowercase mappings are those of `A` to `Z`. -/
theorem lowerCode_ascii : ∀ n, n < 128 →
    lowerCode n = if 65 ≤ n ∧ n ≤ 90 then n + 32 else n := by decide

theorem lowerChars_ascii (before cs : List Char) (h : ∀ c ∈ cs, c.toNat < 128) :
    lowerChars before cs =
      cs.map fun c => if 65 ≤ c.toNat ∧ c.toNat ≤ 90 then Char.ofNat (c.toNat + 32) else c := by
  induction cs generalizing before with
  | nil => rfl
  | cons c cs ih =>
    have hc : c.toNat < 128 := h c (List.mem_cons_self _ _)
    have h1 : ¬ c.toNat = 931 := by omega
    have h2 : ¬ c.toNat = 304 := by omega
    simp only [lowerChars, h1, h2, if_false, List.map_cons, List.singleton_append]
    rw [ih (c :: before) (fun x hx => h x (List.mem_cons_of_mem _ hx)), lowerCode_ascii _ hc]
    congr 1
    split
    · rfl
    · exact Char.ofNat_toNat c

/-! ## The highlighting of the options -/

theorem highlightMultipleChoiceAnswers_mono (n m : Nat) (correct : Correct)
    (userAnswer : Option Nat) (hnm : n ≤ m)
    (h : highlightMultipleChoiceAnswers n correct userAnswer = true) :
    highlightMultipleChoiceAnswers m correct userAnswer = true := by
  unfold highlightMultipleChoiceAnswers at h ⊢
  cases correct with
  | single index =>
    simp only [Bool.and_eq_true, decide_eq_true_eq] at h ⊢
    refine ⟨by omega, ?_⟩
    cases userAnswer with
    | none => rfl
    | some i =>
      have h2 := h.2
      simp only at h2 ⊢
      by_cases hi : i = index
      · simp [hi]
      · simp only [ne_eq, hi, not_false_eq_true, if_true, decide_eq_true_eq] at h2 ⊢
        omega
  | many indices =>
    simp only [Bool.and_eq_true, List.all_eq_true, decide_eq_true_eq] at h ⊢
    refine ⟨fun x hx => by have := h.1 x hx; omega, ?_⟩
    cases userAnswer with
    | none => rfl
    | some i =>
      have h2 := h.2
      simp only at h2 ⊢
      cases hc : indices.contains i with
      | true => simp
      | false =>
        simp only [hc, Bool.not_false, if_true, decide_eq_true_eq] at h2 ⊢
        omega

/-- After `loadQuestion`, the options of a multiple-choice or reading-passage
question are among the rendered option elements. -/
theorem loadQuestion_renderedOptions (s : AppState) (chapter : Chapter) (question : Question)
    (hc : currentChapter s = some chapter)
    (hq : chapter.questions.get? s.currentQuestionIndex = some question) :
    (∀ options correct, question.type = QuestionType.multipleChoice options correct →
      options.length ≤ renderedOptions (loadQuestion s).state) ∧
    (∀ passage options correct,
      question.type = QuestionType.readingPassage passage options correct →
      options.length ≤ renderedOptions (loadQuestion s).state) := by
  have hq2 : chapter.questions[s.currentQuestionIndex]? = some question := by simpa using hq
  have hlen : chapter.questions.length ≠ 0 := by
    have := (List.get?_eq_some.1 hq).1
    omega
  unfold loadQuestion
  simp only [hc, hlen, if_false, hq2]
  refine ⟨?_, ?_⟩
  · intro options correct hty
    simp only [hty, Outcome.state, renderedOptions, loadMultipleChoice]
    omega
  · intro passage options correct hty
    simp only [hty, Outcome.state, renderedOptions, loadReadingPassage]
    omega

/-- A submission whose highlighting raises leaves the state as it is. -/
theorem submitAnswer_raised (s : AppState) (dom : Dom) (chapter : Chapter)
    (question : Question) (ha : s.isAnswered = false)
    (hc : currentChapter s = some chapter)
    (hq : chapter.questions[s.currentQuestionIndex]? = some question)
    (hh : highlightReturns s question = false) :
    submitAnswer s dom = Outcome.raised s := by
  unfold submitAnswer
  simp only [ha, hc, hq, Bool.false_eq_true, if_false]
  cases hg : gradeAnswer s dom question with
  | none => rfl
  | some isCorrect => simp [hh]

/-- The buttons `submitAnswer` leaves on a graded answer whose highlighting
returns, in a state in which the next-question button is hidden. -/
theorem submitAnswer_signals (s : AppState) (dom : Dom) (chapter : Chapter)
    (question : Question) (isCorrect : Bool)
    (ha : s.isAnswered = false) (hc : currentChapter s = some chapter)
    (hq : chapter.questions[s.currentQuestionIndex]? = some question)
    (hg : gradeAnswer s dom question = some isCorrect)
    (hh : highlightReturns s question = true)
    (hn : s.ui.nextQuestionShown = false) :
    ∃ s1, submitAnswer s dom = Outcome.done s1 ∧
      s1.isAnswered = true ∧
      s1.currentQuestionIndex = s.currentQuestionIndex ∧
      ((s.currentQuestionIndex : Int) < (chapter.questions.length : Int) - 1 →
        s1.ui.nextQuestionShown = true) ∧
      (¬ (s.currentQuestionIndex : Int) < (chapter.questions.length : Int) - 1 →
        s1.ui.completeChapterShown = true ∧ s1.ui.nextQuestionShown = false) := by
  have hsub : submitAnswer s dom = Outcome.done
      { updateScore (showFeedback { s with isAnswered := true } question.feedback isCorrect)
          isCorrect (pointsOrTen question.points) with
        ui :=
          if decide ((s.currentQuestionIndex : Int) < (chapter.questions.length : Int) - 1)
              = true then
            { (updateScore (showFeedback { s with isAnswered := true } question.feedback
                isCorrect) isCorrect (pointsOrTen question.points)).ui with
              submitAnswerShown := false, nextQuestionShown := true,
              showExplanationShown := true }
          else
            { (updateScore (showFeedback { s with isAnswered := true } question.feedback
                isCorrect) isCorrect (pointsOrTen question.points)).ui with
              submitAnswerShown := false, completeChapterShown := true,
              showExplanationShown := true } } := by
    unfold submitAnswer
    simp only [ha, hc, hq, hg, hh, Bool.not_true, Bool.false_eq_true, if_false]
  have hui : (updateScore (showFeedback { s with isAnswered := true } question.feedback
      isCorrect) isCorrect (pointsOrTen question.points)).ui.nextQuestionShown = false := by
    unfold updateScore
    rw [(saveProgress_position _).2.2.2.2]
    exact hn
  have hia : (updateScore (showFeedback { s with isAnswered := true } question.feedback
      isCorrect) isCorrect (pointsOrTen question.points)).isAnswered = true := by
    unfold updateScore
    rw [(saveProgress_position _).2.2.2.1]
    rfl
  have hqi : (updateScore (showFeedback { s with isAnswered := true } question.feedback
      isCorrect) isCorrect (pointsOrTen question.points)).currentQuestionIndex =
        s.currentQuestionIndex := by
    unfold updateScore
    rw [(saveProgress_position _).2.2.1]
    rfl
  refine ⟨_, hsub, hia, hqi, ?_, ?_⟩
  · intro hlt
    simp only [hlt, decide_True, if_true]
  · intro hnlt
    simp only [hnlt, decide_False, Bool.false_eq_true, if_false]
    exact ⟨trivial, hui⟩

/-! ## The claims -/

/-- C1: `correctAnswers ≤ totalQuestions` is kept by `updateScore` for either
grade and any point value, hence by `submitAnswer` on every state, question and
submitted answer; and it holds in every state reached from the zeroed progress
of the constructor by any sequence of events (answer submission, question and
chapter navigation, chapter completion, reset, selections). -/
theorem correctAnswers_le_totalQuestions :
    (∀ (s : AppState) (isCorrect : Bool) (points : Nat),
      s.userProgress.correctAnswers ≤ s.userProgress.totalQuestions →
      (updateScore s isCorrect points).userProgress.correctAnswers ≤
        (updateScore s isCorrect points).userProgress.totalQuestions) ∧
    (∀ (s : AppState) (dom : Dom),
      s.userProgress.correctAnswers ≤ s.userProgress.totalQuestions →
      (submitAnswer s dom).state.userProgress.correctAnswers ≤
        (submitAnswer s dom).state.userProgress.totalQuestions) ∧
    (∀ (chapters : List Chapter) (es : List Event),
      (run (initialState chapters) es).userProgress.correctAnswers ≤
        (run (initialState chapters) es).userProgress.totalQuestions) := by
  refine ⟨?_, ?_, ?_⟩
  · intro s isCorrect points h
    rw [updateScore_userProgress]
    cases isCorrect
    · simp only [Bool.false_eq_true, if_false]; omega
    · simp only [if_true]; omega
  · intro s dom h
    exact handle_preserves_le s (.submitAnswer dom) h
  · intro chapters es
    exact run_preserves_le es (initialState chapters) (Nat.le_refl 0)

theorem correctAnswers_le_totalQuestions_witness :
    sampleState.userProgress.correctAnswers ≤ sampleState.userProgress.totalQuestions ∧
    (submitAnswer sampleState emptyDom).state.userProgress.correctAnswers ≤
      (submitAnswer sampleState emptyDom).state.userProgress.totalQuestions :=
  ⟨by decide, correctAnswers_le_totalQuestions.2.1 sampleState emptyDom (by decide)⟩

/-- C2: once the question is answered (`isAnswered` is true), `submitAnswer`
returns at once and leaves the whole state as it was, for every selection held
in the state and every input read from the document: score, totalQuestions,
correctAnswers and completedChapters are unchanged and the state stays
Answered.  In particular a second submission after one that returned changes
nothing, whatever the second input. -/
theorem submitAnswer_idempotent_once_answered :
    (∀ (s : AppState) (dom : Dom), s.isAnswered = true →
      submitAnswer s dom = Outcome.done s ∧
      (submitAnswer s dom).state.userProgress.score = s.userProgress.score ∧
      (submitAnswer s dom).state.userProgress.totalQuestions = s.userProgress.totalQuestions ∧
      (submitAnswer s dom).state.userProgress.correctAnswers = s.userProgress.correctAnswers ∧
      (submitAnswer s dom).state.userProgress.completedChapters =
        s.userProgress.completedChapters ∧
      (submitAnswer s dom).state.isAnswered = true) ∧
    (∀ (s s1 : AppState) (dom1 dom2 : Dom), submitAnswer s dom1 = Outcome.done s1 →
      s1.isAnswered = true ∧ submitAnswer s1 dom2 = Outcome.done s1) := by
  have key : ∀ (s : AppState) (dom : Dom), s.isAnswered = true →
      submitAnswer s dom = Outcome.done s := by
    intro s dom h
    unfold submitAnswer
    simp only [h, if_true]
  refine ⟨?_, ?_⟩
  · intro s dom h
    rw [key s dom h]
    exact ⟨rfl, rfl, rfl, rfl, rfl, h⟩
  · intro s s1 dom1 dom2 h
    have h1 : s1.isAnswered = true := by
      by_cases ha : s.isAnswered = true
      · rw [key s dom1 ha] at h
        cases h
        exact ha
      · have ha2 : s.isAnswered = false := by simpa using ha
        cases hc : currentChapter s with
        | none =>
          unfold submitAnswer at h
          simp [ha2, hc] at h
        | some chapter =>
          cases hq : chapter.questions[s.currentQuestionIndex]? with
          | none =>
            unfold submitAnswer at h
            simp [ha2, hc, hq] at h
          | some question =>
            cases hg : gradeAnswer s dom1 question with
            | none =>
              unfold submitAnswer at h
              simp [ha2, hc, hq, hg] at h
            | some isCorrect =>
              cases hh : highlightReturns s question with
              | false =>
                unfold submitAnswer at h
                simp [ha2, hc, hq, hg, hh] at h
              | true =>
              obtain ⟨ui4, h2⟩ :=
                submitAnswer_done s dom1 chapter question isCorrect ha2 hc hq hg hh
              rw [h2] at h
              cases h
              simp only [updateScore, saveProgress, showFeedback]
              split <;> rfl
    exact ⟨h1, key s1 dom2 h1⟩

theorem submitAnswer_idempotent_once_answered_witness :
    sampleAnswered.isAnswered = true ∧
    submitAnswer sampleAnswered { fillBlankInput := "goes", dropZone := [] } =
      Outcome.done sampleAnswered :=
  ⟨by decide,
    (submitAnswer_idempotent_once_answered.1 sampleAnswered
      { fillBlankInput := "goes", dropZone := [] } (by decide)).1⟩

/-- C3: `completeChapter` awards the 50-point bonus once per chapter id.  On a
chapter whose id is not yet in `completedChapters` it appends the id and adds
exactly 50 to the score; on a chapter whose id is already there it changes
neither; and after a first call, every later call on a chapter of the same id,
after any sequence of events without a confirmed reset, changes neither. -/
theorem completeChapter_bonus_once (s : AppState) (chapter : Chapter)
    (hc : currentChapter s = some chapter) :
    (chapter.id ∉ s.userProgress.completedChapters →
      (completeChapter s).state.userProgress.completedChapters =
        s.userProgress.completedChapters ++ [chapter.id] ∧
      (completeChapter s).state.userProgress.score = s.userProgress.score + 50) ∧
    (chapter.id ∈ s.userProgress.completedChapters →
      (completeChapter s).state.userProgress.completedChapters =
        s.userProgress.completedChapters ∧
      (completeChapter s).state.userProgress.score = s.userProgress.score) ∧
    (∀ (es : List Event) (later : Chapter), Event.resetProgress true ∉ es →
      currentChapter (run (completeChapter s).state es) = some later →
      later.id = chapter.id →
      (completeChapter (run (completeChapter s).state es)).state.userProgress.completedChapters =
        (run (completeChapter s).state es).userProgress.completedChapters ∧
      (completeChapter (run (completeChapter s).state es)).state.userProgress.score =
        (run (completeChapter s).state es).userProgress.score) := by
  refine ⟨?_, ?_, ?_⟩
  · intro hn
    rw [completeChapter_userProgress s chapter hc]
    simp [hn]
  · intro hm
    rw [completeChapter_of_mem s chapter hc hm]
    exact ⟨rfl, rfl⟩
  · intro es later hne hl hid
    have hin : chapter.id ∈ (completeChapter s).state.userProgress.completedChapters := by
      rw [completeChapter_userProgress s chapter hc]
      split
      · rename_i h; simpa using h
      · simp
    have hrun := run_completedChapters_mono es (completeChapter s).state hne chapter.id hin
    rw [← hid] at hrun
    rw [completeChapter_of_mem _ later hl hrun]
    exact ⟨rfl, rfl⟩

theorem completeChapter_bonus_once_witness :
    currentChapter sampleAnswered = some sampleChapter1 ∧
    (completeChapter sampleAnswered).state.userProgress.score =
      sampleAnswered.userProgress.score + 50 :=
  ⟨by decide,
    ((completeChapter_bonus_once sampleAnswered sampleChapter1 (by decide)).1 (by decide)).2⟩

/-- C4, as the code has it: in the AwaitingAnswer state (`isAnswered` false, a
current question, and `matchedPairs` set when that question is a matching one)
in which the highlighting of the options returns, `submitAnswer` returns, moves
to Answered and adds exactly 1 to `totalQuestions`; the answer has a grade, and
when the grade is correct `correctAnswers` grows by exactly 1 and `score` by
`question.points || 10`, which is the point value when it is present and not 0
and is 10 when the value is missing or is 0; when the grade is incorrect both
are unchanged.  The highlighting returns when the correct index or indices, and
the selected index when it is not a correct one, are positions of rendered
option elements; it does so on a freshly loaded question, whatever is selected,
as soon as it does so on the options of the question alone. -/
theorem submitAnswer_awaiting (s : AppState) (dom : Dom) (question : Question)
    (ha : s.isAnswered = false) (hq : currentQuestion s = some question)
    (hm : ∀ pairs, question.type = QuestionType.matching pairs → s.matchedPairs ≠ none)
    (hh : highlightReturns s question = true) :
    (∃ (s1 : AppState) (isCorrect : Bool),
      submitAnswer s dom = Outcome.done s1 ∧
      gradeAnswer s dom question = some isCorrect ∧
      s1.isAnswered = true ∧
      s1.userProgress.totalQuestions = s.userProgress.totalQuestions + 1 ∧
      (isCorrect = true →
        s1.userProgress.correctAnswers = s.userProgress.correctAnswers + 1 ∧
        s1.userProgress.score = s.userProgress.score + pointsOrTen question.points) ∧
      (isCorrect = false →
        s1.userProgress.correctAnswers = s.userProgress.correctAnswers ∧
        s1.userProgress.score = s.userProgress.score) ∧
      (∀ p, question.points = some p → p ≠ 0 → pointsOrTen question.points = p) ∧
      (question.points = none ∨ question.points = some 0 →
        pointsOrTen question.points = 10)) ∧
    (∀ (s0 : AppState) (chapter : Chapter) (options : List String) (correct : Correct)
        (selected : Option Nat),
      currentChapter s0 = some chapter →
      chapter.questions.get? s0.currentQuestionIndex = some question →
      (question.type = QuestionType.multipleChoice options correct ∨
        ∃ passage, question.type = QuestionType.readingPassage passage options correct) →
      highlightMultipleChoiceAnswers options.length correct selected = true →
      highlightReturns { (loadQuestion s0).state with selectedAnswer := selected }
        question = true) := by
  refine ⟨?_, ?_⟩
  · cases hc : currentChapter s with
    | none => simp [currentQuestion, hc] at hq
    | some chapter =>
      have hq2 : chapter.questions[s.currentQuestionIndex]? = some question := by
        simpa [currentQuestion, hc] using hq
      have hg : ∃ isCorrect, gradeAnswer s dom question = some isCorrect := by
        unfold gradeAnswer
        cases hty : question.type with
        | multipleChoice options correct => exact ⟨_, rfl⟩
        | readingPassage passage options correct => exact ⟨_, rfl⟩
        | fillInBlank correct => exact ⟨_, rfl⟩
        | dragDrop items correct => exact ⟨_, rfl⟩
        | matching pairs =>
          cases hmp : s.matchedPairs with
          | none => exact absurd hmp (hm pairs hty)
          | some matched => exact ⟨_, rfl⟩
      obtain ⟨isCorrect, hg⟩ := hg
      obtain ⟨ui4, h⟩ := submitAnswer_done s dom chapter question isCorrect ha hc hq2 hg hh
      refine ⟨_, isCorrect, h, hg, ?_, ?_, ?_, ?_, ?_, ?_⟩
      · simp only [updateScore, saveProgress, showFeedback]
        split <;> rfl
      · simp only [updateScore_userProgress, showFeedback]
        cases isCorrect <;> rfl
      · intro hb
        subst hb
        simp [updateScore_userProgress, showFeedback]
      · intro hb
        subst hb
        simp [updateScore_userProgress, showFeedback]
      · intro p hp hp0
        rw [hp]
        simp only [pointsOrTen, hp0, if_false]
      · intro hp
        rcases hp with hp | hp <;> rw [hp] <;> rfl
  · intro s0 chapter options correct selected hc0 hq0 hty hhl
    obtain ⟨r1, r2⟩ := loadQuestion_renderedOptions s0 chapter question hc0 hq0
    rcases hty with hty | ⟨passage, hty⟩
    · have hle := r1 options correct hty
      unfold highlightReturns
      simp only [hty]
      exact highlightMultipleChoiceAnswers_mono _ _ correct selected hle hhl
    · have hle := r2 passage options correct hty
      unfold highlightReturns
      simp only [hty]
      exact highlightMultipleChoiceAnswers_mono _ _ correct selected hle hhl

theorem submitAnswer_awaiting_witness :
    sampleState.isAnswered = false ∧
    highlightReturns sampleState
      { type := .multipleChoice
          ["Verb + Subject + Object", "Subject + Verb + Object", "Object + Subject + Verb",
            "Subject + Object + Verb"] (.single 1),
        question := "What is the correct sentence structure?",
        feedback := "The basic English sentence structure is Subject + Verb + Object.",
        points := some 10 } = true ∧
    ∃ (s1 : AppState) (isCorrect : Bool),
      submitAnswer sampleState emptyDom = Outcome.done s1 ∧
      gradeAnswer sampleState emptyDom
        { type := .multipleChoice
            ["Verb + Subject + Object", "Subject + Verb + Object", "Object + Subject + Verb",
              "Subject + Object + Verb"] (.single 1),
          question := "What is the correct sentence structure?",
          feedback := "The basic English sentence structure is Subject + Verb + Object.",
          points := some 10 } = some isCorrect ∧
      s1.isAnswered = true ∧
      s1.userProgress.totalQuestions = sampleState.userProgress.totalQuestions + 1 :=
  ⟨by decide, by decide,
    let ⟨s1, b, h1, h2, h3, h4, _⟩ :=
      (submitAnswer_awaiting sampleState emptyDom _ (by decide) (by decide)
        (by intro pairs h; cases h) (by decide)).1
    ⟨s1, b, h1, h2, h3, h4⟩⟩

set_option maxRecDepth 20000 in
/-- C4, as stated, fails twice.  The warm-up question carries the point value
0, its answer is graded correct, and `submitAnswer` adds 10 to the score, not
the point value 0.  And in the AwaitingAnswer state in which the warm-up
question, of two options, is loaded while index 3 is still selected from the
question before, `submitAnswer` raises in the highlighting and moves nowhere:
the question stays unanswered and `totalQuestions` is not increased. -/
theorem submitAnswer_zero_points_counterexample :
    zeroPointState.isAnswered = false ∧
    (currentQuestion zeroPointState).map (fun q => q.points) = some (some 0) ∧
    (currentQuestion zeroPointState).bind (gradeAnswer zeroPointState emptyDom) = some true ∧
    (submitAnswer zeroPointState emptyDom).state.userProgress.score =
      zeroPointState.userProgress.score + 10 ∧
    (submitAnswer zeroPointState emptyDom).state.userProgress.score ≠
      zeroPointState.userProgress.score + 0 ∧
    staleSelectionState.isAnswered = false ∧
    currentChapter staleSelectionState = some zeroPointChapter ∧
    staleSelectionState.currentQuestionIndex = 0 ∧
    staleSelectionState.selectedAnswer = some 3 ∧
    renderedOptions staleSelectionState = 2 ∧
    submitAnswer staleSelectionState emptyDom = Outcome.raised staleSelectionState ∧
    (submitAnswer staleSelectionState emptyDom).state.userProgress.totalQuestions =
      staleSelectionState.userProgress.totalQuestions := by
  decide

/-- C5: grading of a multiple-choice or reading-passage question.  For every
submitted index `i`: when `correct` is a list of indices the answer is correct
iff `i` is in the list, and when `correct` is a single index the answer is
correct iff `i` equals it; `submitAnswer` grades both question types this way.
With `correct = 1`, submission 1 is correct and submission 0 is incorrect, as
on the first sample question. -/
theorem gradeChoice_spec :
    (∀ (i : Nat) (indices : List Nat),
      gradeChoice (Correct.many indices) (some i) = true ↔ i ∈ indices) ∧
    (∀ (i index : Nat), gradeChoice (Correct.single index) (some i) = true ↔ i = index) ∧
    (∀ (s : AppState) (dom : Dom) (i : Nat) (options : List String) (correct : Correct)
      (question feedback : String) (points : Option Int),
      gradeAnswer { s with selectedAnswer := some i } dom
        { type := QuestionType.multipleChoice options correct, question := question,
          feedback := feedback, points := points } = some (gradeChoice correct (some i))) ∧
    (∀ (s : AppState) (dom : Dom) (i : Nat) (passage : String) (options : List String)
      (correct : Correct) (question feedback : String) (points : Option Int),
      gradeAnswer { s with selectedAnswer := some i } dom
        { type := QuestionType.readingPassage passage options correct, question := question,
          feedback := feedback, points := points } = some (gradeChoice correct (some i))) ∧
    gradeChoice (Correct.single 1) (some 1) = true ∧
    gradeChoice (Correct.single 1) (some 0) = false ∧
    (run (initialState sampleChapters)
      [.goToChapter 0, .selectOption 1, .submitAnswer emptyDom]).ui.feedback =
      some ("The basic English sentence structure is Subject + Verb + Object.", true) ∧
    (run (initialState sampleChapters)
      [.goToChapter 0, .selectOption 0, .submitAnswer emptyDom]).ui.feedback =
      some ("The basic English sentence structure is Subject + Verb + Object.", false) := by
  refine ⟨?_, ?_, ?_, ?_, ?_, ?_, ?_, ?_⟩
  · intro i indices
    simp [gradeChoice]
  · intro i index
    simp [gradeChoice]
  · intros; rfl
  · intros; rfl
  · decide
  · decide
  · decide
  · decide

set_option maxRecDepth 100000 in
/-- C6: grading of a fill-in-blank question.  For every submitted text `t` and
every list `correct` of acceptable strings the answer is correct iff the
trimmed, lower-cased text equals the lower-cased form of some member of
`correct`; `submitAnswer` grades the question type this way.  Trimming removes
a run of white space at the front and one at the end, white space being the
ECMAScript white-space and line-terminator code points, and leaves a text that
starts and ends with none.  Lower-casing is the Unicode default conversion: on
a text of code points below 128 it maps `A` to `Z` to `a` to `z` and keeps the
rest, and it maps the cased letters beyond (`É`, the Cyrillic and Greek
capitals, the capital sigma at the end of a word).  With
`correct = ["goes", "walks", "drives"]` the submission `" Goes "` is correct. -/
theorem gradeFillInBlank_spec :
    (∀ (t : String) (correct : List String),
      gradeFillInBlank correct t = true ↔
        ∃ a, a ∈ correct ∧ toLowerCase (trim t) = toLowerCase a) ∧
    (∀ (s : AppState) (dom : Dom) (correct : List String) (question feedback : String)
      (points : Option Int),
      gradeAnswer s dom
        { type := QuestionType.fillInBlank correct, question := question,
          feedback := feedback, points := points } =
        some (gradeFillInBlank correct dom.fillBlankInput)) ∧
    (∀ t : String, ∃ pre post : List Char, t.data = pre ++ (trim t).data ++ post ∧
      (∀ c ∈ pre, isTrimmed c = true) ∧ (∀ c ∈ post, isTrimmed c = true) ∧
      (∀ c, (trim t).data.head? = some c → isTrimmed c = false) ∧
      (∀ c, (trim t).data.getLast? = some c → isTrimmed c = false)) ∧
    (∀ c : Char, isTrimmed c = true ↔
      c.toNat ∈ [9, 10, 11, 12, 13, 32, 160, 5760, 8192, 8193, 8194, 8195, 8196, 8197, 8198,
        8199, 8200, 8201, 8202, 8232, 8233, 8239, 8287, 12288, 65279]) ∧
    (∀ t : String, (∀ c ∈ t.data, c.toNat < 128) →
      (toLowerCase t).data =
        t.data.map fun c =>
          if 65 ≤ c.toNat ∧ c.toNat ≤ 90 then Char.ofNat (c.toNat + 32) else c) ∧
    trim " Goes " = "Goes" ∧
    trim "\t goes to\n" = "goes to" ∧
    toLowerCase "Goes" = "goes" ∧
    toLowerCase "CAFÉ" = "café" ∧
    toLowerCase "ПРИВЕТ" = "привет" ∧
    toLowerCase "ΟΔΟΣ ΣΑΣ" = "οδος σας" ∧
    gradeFillInBlank ["goes", "walks", "drives"] " Goes " = true ∧
    gradeFillInBlank ["goes", "walks", "drives"] " Went " = false ∧
    gradeFillInBlank ["café"] " CAFÉ " = true ∧
    gradeFillInBlank ["Goes"] "gOES" = true ∧
    (run (initialState sampleChapters)
      [.goToChapter 0, .submitAnswer emptyDom, .nextQuestion,
        .submitAnswer { fillBlankInput := " Goes ", dropZone := [] }]).ui.feedback =
      some ("Common verbs like 'goes', 'walks', or 'drives' fit this sentence.", true) := by
  refine ⟨?_, ?_, trim_spec, ?_, ?_, ?_, ?_, ?_, ?_, ?_, ?_, ?_, ?_, ?_, ?_, ?_⟩
  · intro t correct
    simp only [gradeFillInBlank, List.any_eq_true, beq_iff_eq]
    constructor
    · rintro ⟨a, ha, h⟩
      exact ⟨a, ha, h.symm⟩
    · rintro ⟨a, ha, h⟩
      exact ⟨a, ha, h.symm⟩
  · intros; rfl
  · intro c
    simp only [isTrimmed, Bool.or_eq_true, Bool.and_eq_true, decide_eq_true_eq,
      List.mem_cons, List.mem_singleton, List.not_mem_nil, or_false]
    omega
  · intro t h
    exact lowerChars_ascii [] t.data h
  · decide
  · decide
  · decide
  · decide
  · decide
  · decide
  · decide
  · decide
  · decide
  · decide
  · decide

theorem gradeFillInBlank_spec_witness :
    (∀ c ∈ "Goes To".data, c.toNat < 128) ∧
    (toLowerCase "Goes To").data =
      "Goes To".data.map fun c =>
        if 65 ≤ c.toNat ∧ c.toNat ≤ 90 then Char.ofNat (c.toNat + 32) else c :=
  ⟨by decide, gradeFillInBlank_spec.2.2.2.2.1 "Goes To" (by decide)⟩

/-- C7: grading of a drag-drop question.  For every submitted sequence `u` and
every correct sequence `c` the comparison of the two `JSON.stringify` results
holds iff `u = c`, that is, iff the two have the same length and the same
string at every position; `submitAnswer` grades the question type this way.
With the five-item order of the business-email question every other ordering of
the five items is graded incorrect. -/
theorem gradeDragDrop_spec :
    (∀ (u c : List String), gradeDragDrop c u = true ↔ u = c) ∧
    (∀ (u c : List String),
      gradeDragDrop c u = true ↔ (u.length = c.length ∧ ∀ i : Nat, u.get? i = c.get? i)) ∧
    (∀ (s : AppState) (dom : Dom) (items correct : List String) (question feedback : String)
      (points : Option Int),
      gradeAnswer s dom
        { type := QuestionType.dragDrop items correct, question := question,
          feedback := feedback, points := points } =
        some (gradeDragDrop correct dom.dropZone)) ∧
    (∀ u : List String,
      u.Perm ["Subject line", "Greeting", "Body", "Closing", "Signature"] →
      u ≠ ["Subject line", "Greeting", "Body", "Closing", "Signature"] →
      gradeDragDrop ["Subject line", "Greeting", "Body", "Closing", "Signature"] u = false) := by
  have key : ∀ (u c : List String), gradeDragDrop c u = true ↔ u = c := by
    intro u c
    simp only [gradeDragDrop, beq_iff_eq]
    constructor
    · exact JSON_stringify_inj u c
    · intro h; rw [h]
  refine ⟨key, ?_, ?_, ?_⟩
  · intro u c
    rw [key]
    constructor
    · intro h; subst h; exact ⟨rfl, fun _ => rfl⟩
    · intro h; exact List.ext_get? h.2
  · intros; rfl
  · intro u _ hne
    cases h : gradeDragDrop ["Subject line", "Greeting", "Body", "Closing", "Signature"] u with
    | false => rfl
    | true => exact absurd ((key _ _).1 h) hne

theorem gradeDragDrop_spec_witness :
    ["Greeting", "Subject line", "Body", "Closing", "Signature"].Perm
      ["Subject line", "Greeting", "Body", "Closing", "Signature"] ∧
    gradeDragDrop ["Subject line", "Greeting", "Body", "Closing", "Signature"]
      ["Greeting", "Subject line", "Body", "Closing", "Signature"] = false :=
  ⟨List.Perm.swap _ _ _,
    gradeDragDrop_spec.2.2.2 _ (List.Perm.swap _ _ _) (by decide)⟩

/-- C8, the code at the failing input: on the sample matching question, whose
three pairs are Enormous, Tiny and Ancient, the pair at index 0 is matched three
times over and nothing else.  `matchedPairs` then has three entries, all for
index 0, and `submitAnswer` grades the answer correct (feedback shown as
correct, one correct answer, 15 points), although the pairs at index 1 and
index 2 were never matched. -/
theorem matching_repeated_pair_graded_correct :
    (run (initialState sampleChapters)
      [.goToChapter 1,
        .selectMatchingItem (.left 0), .selectMatchingItem (.right "Very large"),
        .selectMatchingItem (.left 0), .selectMatchingItem (.right "Very large"),
        .selectMatchingItem (.left 0), .selectMatchingItem (.right "Very large")]).matchedPairs =
      some [{ left := 0, right := "Very large" }, { left := 0, right := "Very large" },
        { left := 0, right := "Very large" }] ∧
    (run (initialState sampleChapters)
      [.goToChapter 1,
        .selectMatchingItem (.left 0), .selectMatchingItem (.right "Very large"),
        .selectMatchingItem (.left 0), .selectMatchingItem (.right "Very large"),
        .selectMatchingItem (.left 0), .selectMatchingItem (.right "Very large"),
        .submitAnswer emptyDom]).ui.feedback =
      some ("Great job matching the words with their meanings!", true) ∧
    (run (initialState sampleChapters)
      [.goToChapter 1,
        .selectMatchingItem (.left 0), .selectMatchingItem (.right "Very large"),
        .selectMatchingItem (.left 0), .selectMatchingItem (.right "Very large"),
        .selectMatchingItem (.left 0), .selectMatchingItem (.right "Very large"),
        .submitAnswer emptyDom]).userProgress =
      { score := 15, totalQuestions := 1, correctAnswers := 1, completedChapters := [],
        chapterProgress := [] } ∧
    (run (initialState sampleChapters)
      [.goToChapter 1,
        .selectMatchingItem (.left 0), .selectMatchingItem (.right "Very large"),
        .selectMatchingItem (.left 1), .selectMatchingItem (.right "Very small"),
        .selectMatchingItem (.left 2), .selectMatchingItem (.right "Very old"),
        .selectMatchingItem (.left 0), .selectMatchingItem (.right "Very large"),
        .submitAnswer emptyDom]).ui.feedback =
      some ("Great job matching the words with their meanings!", false) := by
  decide

/-- C9: a wrong match attempt is not recorded and can be retried.  On a loaded
matching question that awaits its answer, when `matchPair` runs with the left
item of index `i` and a right value that is not the partner of that item, it
returns; `matchedPairs`, the progress record (score and counters) and every
other field are unchanged and both selections are cleared.  A later attempt on
the same left item with its partner is recorded. -/
theorem matchPair_wrong_attempt (s : AppState) (question : Question) (pairs : List Pair)
    (i : Nat) (v : String) (p : Pair) (matched : List MatchedPair)
    (ha : s.isAnswered = false)
    (hq : currentQuestion s = some question)
    (ht : question.type = QuestionType.matching pairs)
    (hp : pairs.get? i = some p)
    (hm : s.matchedPairs = some matched)
    (hsel : s.selectedMatching = some { left := some i, right := some v })
    (hv : p.right ≠ v) :
    matchPair s = Outcome.done { s with selectedMatching := some { left := none, right := none } } ∧
    (matchPair s).state.matchedPairs = s.matchedPairs ∧
    (matchPair s).state.userProgress = s.userProgress ∧
    (matchPair s).state.selectedMatching = some { left := none, right := none } ∧
    (run (matchPair s).state
      [.selectMatchingItem (.left i), .selectMatchingItem (.right p.right)]).matchedPairs =
      some (matched ++ [{ left := i, right := p.right }]) := by
  have hp2 : pairs[i]? = some p := by simpa using hp
  have h1 : matchPair s =
      Outcome.done { s with selectedMatching := some { left := none, right := none } } := by
    unfold matchPair
    simp only [hsel, hq, ht, hp2, hv, if_false]
  have hq1 : currentQuestion
      { s with selectedMatching := some { left := none, right := none } } = some question := hq
  refine ⟨h1, ?_, ?_, ?_, ?_⟩
  · rw [h1]; rfl
  · rw [h1]; rfl
  · rw [h1]; rfl
  · rw [h1]
    simp only [Outcome.state, run, List.foldl, step, handle]
    simp only [selectMatchingItem, ha, Bool.false_eq_true, if_false, Option.isSome,
      Bool.and_false, Bool.and_true, Outcome.state, if_true, Bool.and_self]
    unfold matchPair
    simp only [currentQuestion, currentChapter] at hq
    simp only [currentQuestion, currentChapter, hq, ht, hp2, if_true, hm, Outcome.state]

theorem matchPair_wrong_attempt_witness :
    (step (run (initialState sampleChapters)
      [.goToChapter 1, .selectMatchingItem (.left 0)])
      (.selectMatchingItem (.right "Very small"))).matchedPairs = some [] ∧
    matchPair { run (initialState sampleChapters) [.goToChapter 1] with
        selectedMatching := some { left := some 0, right := some "Very small" } } =
      Outcome.done { { run (initialState sampleChapters) [.goToChapter 1] with
        selectedMatching := some { left := some 0, right := some "Very small" } } with
        selectedMatching := some { left := none, right := none } } :=
  ⟨by decide,
    (matchPair_wrong_attempt
      { run (initialState sampleChapters) [.goToChapter 1] with
        selectedMatching := some { left := some 0, right := some "Very small" } }
      { type := .matching
          [{ left := "Enormous", right := "Very large" }, { left := "Tiny", right := "Very small" },
            { left := "Ancient", right := "Very old" }],
        question := "Match the words with their meanings:",
        feedback := "Great job matching the words with their meanings!",
        points := some 15 }
      [{ left := "Enormous", right := "Very large" }, { left := "Tiny", right := "Very small" },
        { left := "Ancient", right := "Very old" }]
      0 "Very small" { left := "Enormous", right := "Very large" } []
      (by decide) (by decide) rfl (by decide) (by decide) rfl (by decide)).1⟩

/-- C10: the chapter access gate.  For every role and every chapter of the loaded
list (document ids pairwise distinct), `canAccessChapter` returns true iff the
chapter is not premium or the role has `canAccessPremiumContent`, and the
zero-based position of the chapter in the list is below the role's
`maxChapters` (no bound when that is `Infinity`).  A guest, whose `maxChapters`
is 2, is denied the chapter at position 2 even when it is not premium. -/
theorem canAccessChapter_spec (s : AppState) (i : Nat) (chapter : Chapter)
    (hids : (s.chapters.map fun c => c.id).Nodup)
    (hi : s.chapters.get? i = some chapter) :
    (canAccessChapter s chapter = true ↔
      ((chapter.isPremium = false ∨
          (ROLE_PRIVILEGES s.userRole).canAccessPremiumContent = true) ∧
        ∀ m, (ROLE_PRIVILEGES s.userRole).maxChapters = some m → i < m)) ∧
    (ROLE_PRIVILEGES Role.guest).maxChapters = some 2 ∧
    (s.userRole = Role.guest → i = 2 → canAccessChapter s chapter = false) := by
  have hidx := indexOf_of_get? s.chapters i chapter hids hi
  have main : canAccessChapter s chapter = true ↔
      ((chapter.isPremium = false ∨
          (ROLE_PRIVILEGES s.userRole).canAccessPremiumContent = true) ∧
        ∀ m, (ROLE_PRIVILEGES s.userRole).maxChapters = some m → i < m) := by
    unfold canAccessChapter
    simp only [hidx]
    cases hprem : chapter.isPremium <;>
      cases hcan : (ROLE_PRIVILEGES s.userRole).canAccessPremiumContent <;>
      cases hmax : (ROLE_PRIVILEGES s.userRole).maxChapters <;>
      simp [ltMaxChapters]
  refine ⟨main, rfl, ?_⟩
  intro hg h2
  cases h : canAccessChapter s chapter with
  | false => rfl
  | true =>
    have := (main.1 h).2 2 (by rw [hg]; rfl)
    omega

theorem canAccessChapter_spec_witness :
    guestOpenState.chapters.get? 2 = some openChapter3 ∧
    canAccessChapter guestOpenState openChapter3 = false :=
  ⟨rfl, (canAccessChapter_spec guestOpenState 2 openChapter3 (by decide) rfl).2.2 rfl rfl⟩

/-- C11: a denied access attempt yields the upgrade prompt and no error.  For
every state (hence every role) and every requested chapter that
`canAccessChapter` refuses, `goToChapter` on its index and `nextChapter` onto it
return normally with the upgrade prompt for that chapter shown, and leave
`currentChapterIndex`, `currentQuestionIndex` and the progress record as they
were. -/
theorem denied_access_shows_upgrade_prompt :
    (∀ (s : AppState) (index : Nat) (chapter : Chapter),
      s.chapters.get? index = some chapter → canAccessChapter s chapter = false →
      goToChapter s index = Outcome.done (showUpgradePrompt s chapter) ∧
      (goToChapter s index).state.ui.upgradePrompt = some chapter.title ∧
      (goToChapter s index).state.currentChapterIndex = s.currentChapterIndex ∧
      (goToChapter s index).state.currentQuestionIndex = s.currentQuestionIndex ∧
      (goToChapter s index).state.userProgress = s.userProgress) ∧
    (∀ (s : AppState) (next : Chapter),
      s.chapters.get? (s.currentChapterIndex + 1) = some next →
      canAccessChapter s next = false →
      nextChapter s = Outcome.done (showUpgradePrompt s next) ∧
      (nextChapter s).state.ui.upgradePrompt = some next.title ∧
      (nextChapter s).state.currentChapterIndex = s.currentChapterIndex ∧
      (nextChapter s).state.currentQuestionIndex = s.currentQuestionIndex ∧
      (nextChapter s).state.userProgress = s.userProgress) := by
  refine ⟨?_, ?_⟩
  · intro s index chapter hi hd
    have hi2 : s.chapters[index]? = some chapter := by simpa using hi
    have h : goToChapter s index = Outcome.done (showUpgradePrompt s chapter) := by
      unfold goToChapter
      simp only [hi2, hd, Bool.false_eq_true, if_false]
    rw [h]
    exact ⟨rfl, rfl, rfl, rfl, rfl⟩
  · intro s next hi hd
    have hi2 : s.chapters[s.currentChapterIndex + 1]? = some next := by simpa using hi
    have hlt : s.currentChapterIndex + 1 < s.chapters.length := by
      have := (List.get?_eq_some.1 hi).1
      exact this
    have hcond : (s.currentChapterIndex : Int) < (s.chapters.length : Int) - 1 := by omega
    have h : nextChapter s = Outcome.done (showUpgradePrompt s next) := by
      unfold nextChapter
      simp only [hcond, if_true, hi2, hd, Bool.false_eq_true, if_false]
    rw [h]
    exact ⟨rfl, rfl, rfl, rfl, rfl⟩

theorem denied_access_shows_upgrade_prompt_witness :
    canAccessChapter (initialState sampleChapters) sampleChapter3 = false ∧
    goToChapter (initialState sampleChapters) 2 =
      Outcome.done (showUpgradePrompt (initialState sampleChapters) sampleChapter3) :=
  ⟨by decide,
    (denied_access_shows_upgrade_prompt.1 (initialState sampleChapters) 2 sampleChapter3
      rfl (by decide)).1⟩

set_option maxRecDepth 20000 in
/-- C12, the code at the failing input: a guest on a content list whose first
chapter is premium and whose second is free stands on the free chapter, which
the guest may access.  `previousChapter` lowers `currentChapterIndex` before
any access test; `updateUI` then shows the upgrade prompt and returns, and the
current chapter is the premium one, which the guest may not access.  A
submission in that state grades the premium chapter's question and scores its
25 points.  `goToChapter` to the same chapter, which tests access first, leaves
the index where it was. -/
theorem previousChapter_reaches_inaccessible_chapter :
    currentChapter premiumFirstState = some sampleChapter1 ∧
    canAccessChapter premiumFirstState sampleChapter1 = true ∧
    currentChapter (step premiumFirstState .previousChapter) = some sampleChapter3 ∧
    canAccessChapter (step premiumFirstState .previousChapter) sampleChapter3 = false ∧
    (step premiumFirstState .previousChapter).ui.upgradePrompt =
      some "Chapter 3: Reading Comprehension (Premium)" ∧
    (run premiumFirstState [.previousChapter, .submitAnswer emptyDom]).ui.feedback =
      some ("Correct! The main idea is that libraries are excellent places for learning and studying.",
        true) ∧
    (run premiumFirstState [.previousChapter, .submitAnswer emptyDom]).userProgress =
      { score := 25, totalQuestions := 1, correctAnswers := 1, completedChapters := [],
        chapterProgress := [] } ∧
    (step premiumFirstState (.goToChapter 0)).currentChapterIndex = 1 := by
  decide

/-- C17, as the table has it: along the chain guest, student, premium, teacher,
admin, for each consecutive pair every flag other than
`canDownloadCertificates` that is true for the lower role is true for the
higher role, and the higher role has a flag that is true for it and false for
the lower role; `canDownloadCertificates` is true for premium and for no other
role; `maxChapters` is 2 for guest and unbounded for every other role. -/
theorem privilege_chain :
    roleChain = [Role.guest, Role.student, Role.premium, Role.teacher, Role.admin] ∧
    (∀ lo hi : Role, (lo, hi) ∈ roleChain.zip roleChain.tail →
      (∀ f : Flag, f ≠ Flag.canDownloadCertificates →
        (ROLE_PRIVILEGES lo).flag f = true → (ROLE_PRIVILEGES hi).flag f = true) ∧
      (∃ f : Flag, (ROLE_PRIVILEGES hi).flag f = true ∧ (ROLE_PRIVILEGES lo).flag f = false)) ∧
    (∀ r : Role, (ROLE_PRIVILEGES r).flag Flag.canDownloadCertificates = true ↔
      r = Role.premium) ∧
    (ROLE_PRIVILEGES Role.guest).maxChapters = some 2 ∧
    (∀ r : Role, r ≠ Role.guest → (ROLE_PRIVILEGES r).maxChapters = none) := by
  refine ⟨rfl, ?_, ?_, rfl, ?_⟩
  · intro lo hi h
    simp only [roleChain, List.tail, List.zip_cons_cons, List.zip_nil_right, List.mem_cons,
      Prod.mk.injEq, List.mem_nil_iff, or_false] at h
    rcases h with ⟨rfl, rfl⟩ | ⟨rfl, rfl⟩ | ⟨rfl, rfl⟩ | ⟨rfl, rfl⟩
    · refine ⟨?_, ⟨Flag.canSaveProgress, rfl, rfl⟩⟩
      intro f hf hlo
      cases f <;> first | rfl | exact absurd rfl hf | exact absurd hlo (by decide)
    · refine ⟨?_, ⟨Flag.canAccessPremiumContent, rfl, rfl⟩⟩
      intro f hf hlo
      cases f <;> first | rfl | exact absurd rfl hf | exact absurd hlo (by decide)
    · refine ⟨?_, ⟨Flag.canCreateContent, rfl, rfl⟩⟩
      intro f hf hlo
      cases f <;> first | rfl | exact absurd rfl hf | exact absurd hlo (by decide)
    · refine ⟨?_, ⟨Flag.canManageUsers, rfl, rfl⟩⟩
      intro f hf _
      cases f <;> first | rfl | exact absurd rfl hf
  · intro r
    cases r <;> decide
  · intro r hr
    cases r
    · exact absurd rfl hr
    all_goals rfl

theorem privilege_chain_witness :
    (Role.student, Role.premium) ∈ roleChain.zip roleChain.tail ∧
    ((ROLE_PRIVILEGES Role.student).flag Flag.canViewDashboard = true →
      (ROLE_PRIVILEGES Role.premium).flag Flag.canViewDashboard = true) :=
  ⟨by decide,
    (privilege_chain.2.1 Role.student Role.premium (by decide)).1 Flag.canViewDashboard
      (by decide)⟩

/-- C17, as stated, fails: `canDownloadCertificates` is true for premium and is
not true for teacher, the next role of the chain (nor for admin). -/
theorem premium_flag_missing_for_teacher :
    (Role.premium, Role.teacher) ∈ roleChain.zip roleChain.tail ∧
    (ROLE_PRIVILEGES Role.premium).flag Flag.canDownloadCertificates = true ∧
    (ROLE_PRIVILEGES Role.teacher).flag Flag.canDownloadCertificates = false ∧
    (ROLE_PRIVILEGES Role.admin).flag Flag.canDownloadCertificates = false := by
  decide

/-- C18: `nextQuestion` on a current question within the chapter, in the
Answered state and, since the method does not read `isAnswered`, in any other.
When `currentQuestionIndex < questions.length - 1` it returns with the index
raised by exactly 1, on the same chapter, and with `isAnswered` false
(AwaitingAnswer); when the answered question is the last one it returns the
state unchanged; in both cases the index stays below the number of questions.
The Answered state is
entered by a `submitAnswer` that returns: on a question just loaded, whatever is
selected on it, a `submitAnswer` whose highlighting of the options returns
answers the question and shows the next-question button when more questions
remain, and on the last question shows the complete-chapter button while the
next-question button stays hidden; a `submitAnswer` whose highlighting raises
leaves the question unanswered and the state as it was. -/
theorem nextQuestion_answered (s : AppState) (chapter : Chapter)
    (hc : currentChapter s = some chapter)
    (hidx : s.currentQuestionIndex < chapter.questions.length) :
    ((s.currentQuestionIndex : Int) < (chapter.questions.length : Int) - 1 →
      ∃ s1, nextQuestion s = Outcome.done s1 ∧
        s1.currentQuestionIndex = s.currentQuestionIndex + 1 ∧
        s1.currentChapterIndex = s.currentChapterIndex ∧
        s1.chapters = s.chapters ∧
        s1.isAnswered = false) ∧
    (¬ (s.currentQuestionIndex : Int) < (chapter.questions.length : Int) - 1 →
      nextQuestion s = Outcome.done s) ∧
    (nextQuestion s).state.currentQuestionIndex < chapter.questions.length ∧
    (∀ (s0 : AppState) (dom : Dom) (question : Question) (selected : Option Nat),
      currentChapter s0 = some chapter →
      chapter.questions.get? s0.currentQuestionIndex = some question →
      highlightReturns { (loadQuestion s0).state with selectedAnswer := selected }
        question = true →
      ∃ s1,
        submitAnswer { (loadQuestion s0).state with selectedAnswer := selected } dom =
          Outcome.done s1 ∧
        s1.isAnswered = true ∧
        s1.currentQuestionIndex = s0.currentQuestionIndex ∧
        ((s0.currentQuestionIndex : Int) < (chapter.questions.length : Int) - 1 →
          s1.ui.nextQuestionShown = true) ∧
        (¬ (s0.currentQuestionIndex : Int) < (chapter.questions.length : Int) - 1 →
          s1.ui.completeChapterShown = true ∧ s1.ui.nextQuestionShown = false)) ∧
    (∀ (s0 : AppState) (dom : Dom) (question : Question) (selected : Option Nat),
      currentChapter s0 = some chapter →
      chapter.questions.get? s0.currentQuestionIndex = some question →
      highlightReturns { (loadQuestion s0).state with selectedAnswer := selected }
        question = false →
      submitAnswer { (loadQuestion s0).state with selectedAnswer := selected } dom =
        Outcome.raised { (loadQuestion s0).state with selectedAnswer := selected } ∧
      (loadQuestion s0).state.isAnswered = false) := by
  have hadv : (s.currentQuestionIndex : Int) < (chapter.questions.length : Int) - 1 →
      ∃ s1, nextQuestion s = Outcome.done s1 ∧
        s1.currentQuestionIndex = s.currentQuestionIndex + 1 ∧
        s1.currentChapterIndex = s.currentChapterIndex ∧
        s1.chapters = s.chapters ∧
        s1.isAnswered = false := by
    intro hlt
    have hlt2 : s.currentQuestionIndex + 1 < chapter.questions.length := by omega
    obtain ⟨q, hq⟩ : ∃ q, chapter.questions.get? (s.currentQuestionIndex + 1) = some q :=
      ⟨_, List.get?_eq_get hlt2⟩
    obtain ⟨s1, h1, h2, h3, h4, h5, -⟩ :=
      loadQuestion_done { s with currentQuestionIndex := s.currentQuestionIndex + 1 }
        chapter q hc hq
    refine ⟨s1, ?_, h5, h4, h3, h2⟩
    unfold nextQuestion
    simp only [hc, hlt, if_true]
    exact h1
  have hstay : ¬ (s.currentQuestionIndex : Int) < (chapter.questions.length : Int) - 1 →
      nextQuestion s = Outcome.done s := by
    intro hn
    unfold nextQuestion
    simp only [hc, hn, if_false]
  have hloaded : ∀ (s0 : AppState) (question : Question) (selected : Option Nat),
      currentChapter s0 = some chapter →
      chapter.questions.get? s0.currentQuestionIndex = some question →
      ∃ st : AppState, { (loadQuestion s0).state with selectedAnswer := selected } = st ∧
        st.isAnswered = false ∧ currentChapter st = some chapter ∧
        st.currentQuestionIndex = s0.currentQuestionIndex ∧
        chapter.questions[st.currentQuestionIndex]? = some question ∧
        st.ui.nextQuestionShown = false ∧
        (loadQuestion s0).state.isAnswered = false ∧
        (∀ pairs, question.type = QuestionType.matching pairs →
          st.matchedPairs = some []) := by
    intro s0 question selected hc0 hq0
    obtain ⟨s1, h1, h2, h3, h4, h5, h6, h7, h8, h9, h10, h11, h12⟩ :=
      loadQuestion_done s0 chapter question hc0 hq0
    have hs1 : (loadQuestion s0).state = s1 := by rw [h1]; rfl
    rw [hs1]
    refine ⟨_, rfl, h2, ?_, h5, ?_, h8, h2, ?_⟩
    · simp only [currentChapter, h3, h4]
      exact hc0
    · show chapter.questions[s1.currentQuestionIndex]? = some question
      rw [h5]; simpa using hq0
    · intro pairs hty
      exact (h11 pairs hty).1
  refine ⟨hadv, hstay, ?_, ?_, ?_⟩
  · by_cases hlt : (s.currentQuestionIndex : Int) < (chapter.questions.length : Int) - 1
    · obtain ⟨s1, h1, h2, -⟩ := hadv hlt
      rw [h1]
      simp only [Outcome.state, h2]
      omega
    · rw [hstay hlt]
      exact hidx
  · intro s0 dom question selected hc0 hq0 hh
    obtain ⟨st, hst, ha, hc1, hqi, hq1, hn, -, hmp⟩ := hloaded s0 question selected hc0 hq0
    rw [hst] at hh ⊢
    have hg : ∃ b, gradeAnswer st dom question = some b := by
      unfold gradeAnswer
      cases hty : question.type with
      | multipleChoice options correct => exact ⟨_, rfl⟩
      | readingPassage passage options correct => exact ⟨_, rfl⟩
      | fillInBlank correct => exact ⟨_, rfl⟩
      | dragDrop items correct => exact ⟨_, rfl⟩
      | matching pairs =>
        have := hmp pairs hty
        simp only [this]
        exact ⟨_, rfl⟩
    obtain ⟨b, hg⟩ := hg
    obtain ⟨s2, e1, e2, e3, e4, e5⟩ :=
      submitAnswer_signals st dom chapter question b ha hc1 hq1 hg hh hn
    rw [hqi] at e3 e4 e5
    exact ⟨s2, e1, e2, e3, e4, e5⟩
  · intro s0 dom question selected hc0 hq0 hh
    obtain ⟨st, hst, ha, hc1, hqi, hq1, hn, hla, hmp⟩ := hloaded s0 question selected hc0 hq0
    rw [hst] at hh ⊢
    exact ⟨submitAnswer_raised st dom chapter question ha hc1 hq1 hh, hla⟩

theorem nextQuestion_answered_witness :
    sampleAnswered.isAnswered = true ∧
    (nextQuestion sampleAnswered).state.currentQuestionIndex <
      sampleChapter1.questions.length ∧
    ∃ s1,
      submitAnswer { (loadQuestion (initialState sampleChapters)).state with
        selectedAnswer := some 1 } emptyDom = Outcome.done s1 ∧
      s1.isAnswered = true ∧
      s1.currentQuestionIndex = (initialState sampleChapters).currentQuestionIndex ∧
      (((initialState sampleChapters).currentQuestionIndex : Int) <
          (sampleChapter1.questions.length : Int) - 1 →
        s1.ui.nextQuestionShown = true) ∧
      (¬ ((initialState sampleChapters).currentQuestionIndex : Int) <
          (sampleChapter1.questions.length : Int) - 1 →
        s1.ui.completeChapterShown = true ∧ s1.ui.nextQuestionShown = false) :=
  ⟨by decide,
    (nextQuestion_answered sampleAnswered sampleChapter1 (by decide) (by decide)).2.2.1,
    (nextQuestion_answered sampleAnswered sampleChapter1 (by decide) (by decide)).2.2.2.1
      (initialState sampleChapters) emptyDom
      { type := .multipleChoice
          ["Verb + Subject + Object", "Subject + Verb + Object", "Object + Subject + Verb",
            "Subject + Object + Verb"] (.single 1),
        question := "What is the correct sentence structure?",
        feedback := "The basic English sentence structure is Subject + Verb + Object.",
        points := some 10 }
      (some 1) (by decide) (by decide) (by decide)⟩

/-- C19, as the code has it: `nextQuestion` does not read `isAnswered`; the
restriction of the advance to the Answered state is made by its callers.  For
every state in which `isAnswered` is false the Enter key runs `submitAnswer`
and not `nextQuestion`, and leaves `currentQuestionIndex`, the chapter index
and the chapter list unchanged; and `loadQuestion` leaves the next-question
button hidden, which only `submitAnswer` shows again. -/
theorem enter_unanswered_does_not_advance (s : AppState) (dom : Dom)
    (ha : s.isAnswered = false) :
    handleKeyboard s Key.enter dom = submitAnswer s dom ∧
    (handleKeyboard s Key.enter dom).state.currentQuestionIndex = s.currentQuestionIndex ∧
    (handleKeyboard s Key.enter dom).state.currentChapterIndex = s.currentChapterIndex ∧
    (handleKeyboard s Key.enter dom).state.chapters = s.chapters ∧
    (∀ (chapter : Chapter) (question : Question), currentChapter s = some chapter →
      chapter.questions.get? s.currentQuestionIndex = some question →
      (loadQuestion s).state.isAnswered = false ∧
      (loadQuestion s).state.ui.nextQuestionShown = false) := by
  have h : handleKeyboard s Key.enter dom = submitAnswer s dom := by
    unfold handleKeyboard
    simp only [ha, Bool.not_false, if_true]
  obtain ⟨h1, h2, h3⟩ := submitAnswer_position s dom
  refine ⟨h, ?_, ?_, ?_, ?_⟩
  · rw [h]; exact h3
  · rw [h]; exact h2
  · rw [h]; exact h1
  · intro chapter question hc hq
    obtain ⟨s1, e1, e2, -, -, -, -, -, e8, -⟩ := loadQuestion_done s chapter question hc hq
    rw [e1]
    exact ⟨e2, e8⟩

theorem enter_unanswered_does_not_advance_witness :
    sampleState.isAnswered = false ∧
    (handleKeyboard sampleState Key.enter emptyDom).state.currentQuestionIndex =
      sampleState.currentQuestionIndex :=
  ⟨by decide, (enter_unanswered_does_not_advance sampleState emptyDom (by decide)).2.1⟩

/-- C19, as stated, fails: on the first sample question, loaded and not yet
answered, `nextQuestion` moves from question index 0 to question index 1. -/
theorem nextQuestion_unanswered_advances :
    sampleState.isAnswered = false ∧
    sampleState.currentQuestionIndex = 0 ∧
    (nextQuestion sampleState).state.currentQuestionIndex = 1 ∧
    (nextQuestion sampleState).state.currentQuestionIndex ≠
      sampleState.currentQuestionIndex := by
  decide

set_option maxRecDepth 20000 in
/-- C20, the code at the failing input: `loadQuestion` never touches
`selectedAnswer`.  In a premium session on the sample content option C (index
2) is selected and submitted on the first question, where it is wrong; the
reading question of the third chapter is then loaded, which leaves the state
AwaitingAnswer with `selectedAnswer` still 2; a submission made without any new
selection is graded correct, since 2 is the correct index of that question, and
scores its 25 points.  Loading a matching question, by contrast, resets the
matching selection and the matched pairs. -/
theorem loadQuestion_keeps_selectedAnswer :
    (∀ s : AppState, (loadQuestion s).state.selectedAnswer = s.selectedAnswer) ∧
    (run premiumSampleState
      [.goToChapter 0, .selectOption 2, .submitAnswer emptyDom,
        .goToChapter 2]).isAnswered = false ∧
    (run premiumSampleState
      [.goToChapter 0, .selectOption 2, .submitAnswer emptyDom,
        .goToChapter 2]).selectedAnswer = some 2 ∧
    (run premiumSampleState
      [.goToChapter 0, .selectOption 2, .submitAnswer emptyDom,
        .goToChapter 2]).userProgress =
      { score := 0, totalQuestions := 1, correctAnswers := 0, completedChapters := [],
        chapterProgress := [] } ∧
    (run premiumSampleState
      [.goToChapter 0, .selectOption 2, .submitAnswer emptyDom, .goToChapter 2,
        .submitAnswer emptyDom]).ui.feedback =
      some ("Correct! The main idea is that libraries are excellent places for learning and studying.",
        true) ∧
    (run premiumSampleState
      [.goToChapter 0, .selectOption 2, .submitAnswer emptyDom, .goToChapter 2,
        .submitAnswer emptyDom]).userProgress =
      { score := 25, totalQuestions := 2, correctAnswers := 1, completedChapters := [],
        chapterProgress := [] } ∧
    (run premiumSampleState
      [.goToChapter 1, .selectMatchingItem (.left 0), .selectMatchingItem (.right "Very large"),
        .selectMatchingItem (.left 1), .goToChapter 1]).matchedPairs = some [] ∧
    (run premiumSampleState
      [.goToChapter 1, .selectMatchingItem (.left 0), .selectMatchingItem (.right "Very large"),
        .selectMatchingItem (.left 1), .goToChapter 1]).selectedMatching =
      some { left := none, right := none } := by
  refine ⟨loadQuestion_selectedAnswer, ?_⟩
  decide

/-- C13: one pass of `checkAchievements` for a signed-in user on a document with
earned list `E`.  The document it leaves has the earned list `E` followed by
the ids, in rule-list order, of exactly the rules whose id is not in `E` and
whose condition holds on the document read; its score is the old score plus
the sum of the points of those rules; every such rule is awarded in the pass,
no id of `E` is removed, and no other field changes. -/
theorem checkAchievements_pass (rules : List Achievement) (a : Analytics) (userId : String)
    (stats : Stats) (hu : a.userId = some userId) (hs : a.store = some stats) :
    ∃ doc : Stats, (checkAchievements rules a).store = some doc ∧
      doc.achievements =
        stats.achievements ++ (newlyEarned rules stats).map (fun r => r.id) ∧
      doc.score = stats.score + ((newlyEarned rules stats).map (fun r => r.points)).sum ∧
      (∀ r : Achievement, r ∈ newlyEarned rules stats ↔
        r ∈ rules ∧ r.id ∉ stats.achievements ∧ r.condition stats = true) ∧
      (newlyEarned rules stats).Sublist rules ∧
      (∀ r : Achievement, r ∈ rules → r.id ∉ stats.achievements → r.condition stats = true →
        r.id ∈ doc.achievements) ∧
      stats.achievements <+: doc.achievements ∧
      (∀ id : String, id ∈ stats.achievements → id ∈ doc.achievements) ∧
      { doc with achievements := stats.achievements, score := stats.score } = stats ∧
      (checkAchievements rules a).userId = a.userId ∧
      (checkAchievements rules a).currentSession = a.currentSession := by
  rw [checkAchievements_store rules a userId stats hu hs]
  refine ⟨awarded rules stats, rfl, rfl, rfl, mem_newlyEarned rules stats, ?_, ?_, ?_, ?_,
    rfl, rfl, rfl⟩
  · exact List.filter_sublist _
  · intro r hr hn hc
    show r.id ∈ stats.achievements ++ (newlyEarned rules stats).map (fun r => r.id)
    apply List.mem_append_right
    exact List.mem_map_of_mem _ ((mem_newlyEarned _ _ _).2 ⟨hr, hn, hc⟩)
  · exact List.prefix_append _ _
  · intro id hid
    exact List.mem_append_left _ hid

theorem checkAchievements_pass_witness :
    firstQuestionAnalytics.userId = some "u1" ∧
    ∃ doc : Stats,
      (checkAchievements initializeAchievements firstQuestionAnalytics).store = some doc ∧
      doc.achievements =
        ({ zeroStats with totalQuestions := 1 } : Stats).achievements ++
          (newlyEarned initializeAchievements { zeroStats with totalQuestions := 1 }).map
            (fun r => r.id) :=
  ⟨rfl,
    let ⟨doc, h1, h2, _⟩ :=
      checkAchievements_pass initializeAchievements firstQuestionAnalytics "u1"
        { zeroStats with totalQuestions := 1 } rfl rfl
    ⟨doc, h1, h2⟩⟩

/-- C14: the achievement evaluation is idempotent on unchanged stats.  For
every analytics instance and document, a pass run on the result of a pass
changes nothing: no id is added and no point awarded.  On the zeroed document
with `totalQuestions` at 1 the first pass awards `first_question` and 10 points
and the second pass leaves that document as it is. -/
theorem checkAchievements_idempotent :
    (∀ a : Analytics,
      checkAchievements initializeAchievements (checkAchievements initializeAchievements a) =
        checkAchievements initializeAchievements a) ∧
    (checkAchievements initializeAchievements firstQuestionAnalytics).store =
      some { zeroStats with totalQuestions := 1, achievements := ["first_question"],
                            score := 10 } ∧
    (checkAchievements initializeAchievements
      (checkAchievements initializeAchievements firstQuestionAnalytics)).store =
      some { zeroStats with totalQuestions := 1, achievements := ["first_question"],
                            score := 10 } := by
  refine ⟨?_, by decide, by decide⟩
  intro a
  cases hu : a.userId with
  | none =>
    have h : checkAchievements initializeAchievements a = a := by
      unfold checkAchievements
      simp only [hu]
    rw [h, h]
  | some userId =>
    cases hs : a.store with
    | none =>
      have h : checkAchievements initializeAchievements a = a := by
        unfold checkAchievements
        simp only [hu, hs]
      rw [h, h]
    | some stats =>
      rw [checkAchievements_store initializeAchievements a userId stats hu hs]
      rw [checkAchievements_store initializeAchievements
        { a with store := some (awarded initializeAchievements stats) } userId
        (awarded initializeAchievements stats) hu rfl]
      rw [awarded_of_nil _ _ (newlyEarned_awarded stats)]

/-- C15: the rule list has exactly 8 rules, in the order first_question,
perfect_chapter, speed_demon, streak_master, knowledge_seeker, accuracy_expert,
dedicated_learner, question_master, with the points 10, 50, 30, 100, 75, 60,
150, 80; and on every document first_question holds iff `totalQuestions ≥ 1`,
perfect_chapter iff `perfectChapters ≥ 1`, speed_demon iff `fastAnswers ≥ 10`,
streak_master iff `studyStreak ≥ 7`, knowledge_seeker iff
`completedChapters ≥ 5` and question_master iff `correctAnswers ≥ 100`. -/
theorem initializeAchievements_rules :
    initializeAchievements.length = 8 ∧
    initializeAchievements.map (fun r => r.id) =
      ["first_question", "perfect_chapter", "speed_demon", "streak_master",
        "knowledge_seeker", "accuracy_expert", "dedicated_learner", "question_master"] ∧
    initializeAchievements.map (fun r => r.points) = [10, 50, 30, 100, 75, 60, 150, 80] ∧
    (∀ stats : Stats,
      (∃ r, findRule "first_question" = some r ∧
        (r.condition stats = true ↔ stats.totalQuestions ≥ 1)) ∧
      (∃ r, findRule "perfect_chapter" = some r ∧
        (r.condition stats = true ↔ stats.perfectChapters ≥ 1)) ∧
      (∃ r, findRule "speed_demon" = some r ∧
        (r.condition stats = true ↔ stats.fastAnswers ≥ 10)) ∧
      (∃ r, findRule "streak_master" = some r ∧
        (r.condition stats = true ↔ stats.studyStreak ≥ 7)) ∧
      (∃ r, findRule "knowledge_seeker" = some r ∧
        (r.condition stats = true ↔ stats.completedChapters ≥ 5)) ∧
      (∃ r, findRule "question_master" = some r ∧
        (r.condition stats = true ↔ stats.correctAnswers ≥ 100))) := by
  refine ⟨rfl, rfl, rfl, ?_⟩
  intro stats
  refine ⟨⟨_, rfl, ?_⟩, ⟨_, rfl, ?_⟩, ⟨_, rfl, ?_⟩, ⟨_, rfl, ?_⟩, ⟨_, rfl, ?_⟩, ⟨_, rfl, ?_⟩⟩ <;>
    simp

set_option maxRecDepth 100000 in
/-- C16, the code at the failing input: the accuracy_expert rule reads the field
`accuracy` of the document, which `initializeUserStats` does not create and no
tracker writes, so on a document without it the rule is false whatever the
counters.  After `initializeUserStats` and fifty correct answers the document
has 50 questions, 50 correct and no `accuracy`; a pass of `checkAchievements`
earns `first_question` and 10 points only, not `accuracy_expert` and its 60
points. -/
theorem accuracy_expert_not_earned :
    (∀ stats : Stats,
      (findRule "accuracy_expert").map (fun r => r.condition { stats with accuracy := none }) =
        some false) ∧
    (initializeUserStats (setUserId newAnalytics "u1")).store.map (fun d => d.accuracy) =
      some none ∧
    (∀ (a : Analytics) (questionType : String) (isCorrect : Bool) (timeSpent : Nat),
      (trackQuestionAttempt a questionType isCorrect timeSpent).store.map (fun d => d.accuracy) =
        a.store.map (fun d => d.accuracy)) ∧
    fiftyCorrectAnalytics.store.map
      (fun d => (d.totalQuestions, d.correctAnswers, d.accuracy)) = some (50, 50, none) ∧
    (checkAchievements initializeAchievements fiftyCorrectAnalytics).store.map
      (fun d => (d.achievements, d.score)) = some (["first_question"], 10) := by
  refine ⟨?_, rfl, ?_, by decide, by decide⟩
  · intro stats
    show some _ = some false
    simp [geOpt]
  · intro a questionType isCorrect timeSpent
    unfold trackQuestionAttempt updateQuestionTypeStats updateUserStats
    cases a.userId <;> cases a.store <;> cases isCorrect <;>
      by_cases h : timeSpent < 30000 <;> simp [h, incrementField]

/-- C21, as the code has it.  Outside a confirmed reset `totalQuestions` and
`correctAnswers` never decrease, for every state, every event and every
question.  The score changes by nothing, by the 50 points of a completion, or
by `question.points || 10` of the current question, whatever number that is.
So over chapters in which no question carries a negative point value the score
never decreases outside a confirmed reset, in one step (`submitAnswer`,
`nextQuestion`, chapter navigation, `completeChapter`, the selections) and
over any sequence of them, and it stays non-negative, resets included, from a
score that is not negative: in particular from a start-up that restores no
record or a record whose score is not negative. -/
theorem progress_monotone :
    (∀ (s : AppState) (e : Event), e ≠ Event.resetProgress true →
      s.userProgress.totalQuestions ≤ (step s e).userProgress.totalQuestions ∧
      s.userProgress.correctAnswers ≤ (step s e).userProgress.correctAnswers) ∧
    (∀ (s : AppState) (es : List Event), Event.resetProgress true ∉ es →
      s.userProgress.totalQuestions ≤ (run s es).userProgress.totalQuestions ∧
      s.userProgress.correctAnswers ≤ (run s es).userProgress.correctAnswers) ∧
    (∀ (s : AppState) (e : Event), e ≠ Event.resetProgress true →
      (step s e).userProgress.score = s.userProgress.score ∨
      (step s e).userProgress.score = s.userProgress.score + 50 ∨
      ∃ question, currentQuestion s = some question ∧
        (step s e).userProgress.score =
          s.userProgress.score + pointsOrTen question.points) ∧
    (∀ s : AppState,
      (∀ chapter ∈ s.chapters, ∀ question ∈ chapter.questions,
        ∀ p, question.points = some p → 0 ≤ p) →
      (∀ e : Event, e ≠ Event.resetProgress true →
        s.userProgress.score ≤ (step s e).userProgress.score) ∧
      (∀ es : List Event, Event.resetProgress true ∉ es →
        s.userProgress.score ≤ (run s es).userProgress.score) ∧
      (∀ dom : Dom, s.userProgress.score ≤ (submitAnswer s dom).state.userProgress.score) ∧
      s.userProgress.score ≤ (nextQuestion s).state.userProgress.score ∧
      s.userProgress.score ≤ (completeChapter s).state.userProgress.score ∧
      (∀ es : List Event, 0 ≤ s.userProgress.score →
        0 ≤ (run s es).userProgress.score)) ∧
    (∀ (chapters : List Chapter) (saved : Option UserProgress) (es : List Event),
      (∀ chapter ∈ chapters, ∀ question ∈ chapter.questions,
        ∀ p, question.points = some p → 0 ≤ p) →
      (∀ record, saved = some record → 0 ≤ record.score) →
      0 ≤ (run (init chapters saved).state es).userProgress.score) := by
  refine ⟨step_counters_mono, fun s es h => run_counters_mono es s h, step_score, ?_, ?_⟩
  · intro s hp
    refine ⟨fun e he => step_score_mono s e he hp, fun es he => run_score_mono es s he hp,
      ?_, ?_, ?_, fun es h0 => run_score_nonneg es s h0 hp⟩
    · intro dom
      exact step_score_mono s (.submitAnswer dom) (by intro h; cases h) hp
    · exact step_score_mono s .nextQuestion (by intro h; cases h) hp
    · exact step_score_mono s .completeChapter (by intro h; cases h) hp
  · intro chapters saved es hp hs
    obtain ⟨h1, h2⟩ := init_state chapters saved
    refine run_score_nonneg es _ ?_ (by rw [h1]; exact hp)
    rw [h2]
    cases saved with
    | none => decide
    | some record => exact hs record rfl

theorem progress_monotone_witness :
    pointsNonNegative sampleState.chapters = true ∧
    Event.submitAnswer emptyDom ≠ Event.resetProgress true ∧
    sampleState.userProgress.score ≤
      (step sampleState (Event.submitAnswer emptyDom)).userProgress.score ∧
    (step sampleState (Event.submitAnswer emptyDom)).userProgress.score = 10 :=
  ⟨by decide, by decide,
    (progress_monotone.2.2.2.1 sampleState
      (pointsNonNegative_spec sampleState.chapters (by decide))).1
      (Event.submitAnswer emptyDom) (by decide),
    by decide⟩

set_option maxRecDepth 20000 in
/-- C21, as stated, fails: a question of the content may carry a negative point
value.  The trick question carries -5; from the start-up state on zeroed
progress its correct answer is submitted, and the score goes from 0 to -5: it
has decreased without a reset and is negative. -/
theorem negative_points_lower_score :
    penaltyState = run (init [penaltyChapter] none).state [.selectOption 0] ∧
    (currentQuestion penaltyState).map (fun q => q.points) = some (some (-5)) ∧
    (currentQuestion penaltyState).bind (gradeAnswer penaltyState emptyDom) = some true ∧
    penaltyState.userProgress.score = 0 ∧
    (step penaltyState (Event.submitAnswer emptyDom)).userProgress.score = -5 ∧
    ¬ penaltyState.userProgress.score ≤
      (step penaltyState (Event.submitAnswer emptyDom)).userProgress.score ∧
    ¬ 0 ≤ (step penaltyState (Event.submitAnswer emptyDom)).userProgress.score := by
  decide

/-- C22, as the code has it.  Every event keeps the chapter list and keeps
`completedChapters` within the ids of its chapters: in every state reached by
any sequence of events (answer submission, question and chapter navigation,
chapter completion, reset, selections) from a state in which every completed id
is the id of a chapter of the list, every completed id is one.  The start-up
restores the saved progress record as it is, so the state it leaves has this
property when the record names only ids of loaded chapters, and when there is
no record; the sign-in restores the remote record in the same way.  An id that
was restored stays in `completedChapters` until a confirmed reset. -/
theorem completedChapters_subset :
    (∀ (s : AppState) (es : List Event),
      (∀ id, id ∈ s.userProgress.completedChapters → ∃ c, c ∈ s.chapters ∧ c.id = id) →
      (run s es).chapters = s.chapters ∧
      ∀ id : String, id ∈ (run s es).userProgress.completedChapters →
        ∃ c : Chapter, c ∈ s.chapters ∧ c.id = id) ∧
    (∀ (chapters : List Chapter) (saved : Option UserProgress) (es : List Event),
      (∀ record, saved = some record → ∀ id, id ∈ record.completedChapters →
        ∃ c, c ∈ chapters ∧ c.id = id) →
      (run (init chapters saved).state es).chapters = chapters ∧
      ∀ id : String, id ∈ (run (init chapters saved).state es).userProgress.completedChapters →
        ∃ c : Chapter, c ∈ chapters ∧ c.id = id) ∧
    (∀ (chapters : List Chapter) (es : List Event),
      (run (initialState chapters) es).chapters = chapters ∧
      ∀ id : String, id ∈ (run (initialState chapters) es).userProgress.completedChapters →
        ∃ c : Chapter, c ∈ chapters ∧ c.id = id) ∧
    (∀ (chapters : List Chapter) (record : UserProgress),
      (init chapters (some record)).state.userProgress = record ∧
      (init chapters none).state.userProgress = zeroProgress) ∧
    (∀ (s : AppState) (user : String) (record : UserProgress),
      (loadUserProgress { s with currentUser := some user } (some record)).userProgress =
        record) ∧
    (∀ (chapters : List Chapter) (record : UserProgress) (es : List Event) (id : String),
      Event.resetProgress true ∉ es → id ∈ record.completedChapters →
      id ∈ (run (init chapters (some record)).state es).userProgress.completedChapters) := by
  refine ⟨?_, ?_, ?_, ?_, ?_, ?_⟩
  · intro s es h
    exact ⟨run_chapters es s, run_completed_subset es s h⟩
  · intro chapters saved es h
    obtain ⟨h1, h2⟩ := init_state chapters saved
    have hch : (run (init chapters saved).state es).chapters = chapters := by
      rw [run_chapters, h1]
    refine ⟨hch, ?_⟩
    have := run_completed_subset es (init chapters saved).state (by
      rw [h1, h2]
      cases saved with
      | none => intro id hid; cases hid
      | some record => exact h record rfl)
    rw [h1] at this
    exact this
  · intro chapters es
    have hch : (run (initialState chapters) es).chapters = chapters :=
      run_chapters es (initialState chapters)
    exact ⟨hch, run_completed_subset es (initialState chapters)
      (by intro id hid; cases hid)⟩
  · intro chapters record
    exact ⟨(init_state chapters (some record)).2, (init_state chapters none).2⟩
  · intro s user record
    rfl
  · intro chapters record es id hne hid
    refine run_completedChapters_mono es _ hne id ?_
    rw [(init_state chapters (some record)).2]
    exact hid

theorem completedChapters_subset_witness :
    "chapter-1" ∈ (run (init sampleChapters (some { zeroProgress with
      completedChapters := ["chapter-1"] })).state
      [.goToChapter 1, .completeChapter]).userProgress.completedChapters ∧
    ∃ c : Chapter, c ∈ sampleChapters ∧ c.id = "chapter-1" :=
  ⟨by decide,
    (completedChapters_subset.2.1 sampleChapters
      (some { zeroProgress with completedChapters := ["chapter-1"] })
      [.goToChapter 1, .completeChapter]
      (by
        intro record h id hid
        cases h
        have hid2 : id = "chapter-1" := by simpa [zeroProgress] using hid
        exact ⟨sampleChapter1, by decide, hid2.symm⟩)).2
      "chapter-1" (by decide)⟩

set_option maxRecDepth 20000 in
/-- C22, as stated, fails: the start-up restores the saved record unchecked.
With the sample content loaded and a saved record that names
`chapter-1700000000000`, the state the start-up leaves has that id in
`completedChapters` though no loaded chapter carries it, and the id is still
there after the first chapter has been completed. -/
theorem restored_id_not_in_chapter_list :
    (init sampleChapters (some staleProgress)).state.chapters = sampleChapters ∧
    (init sampleChapters (some staleProgress)).state.userProgress.completedChapters =
      ["chapter-1700000000000"] ∧
    (∀ c : Chapter, c ∈ sampleChapters → c.id ≠ "chapter-1700000000000") ∧
    (run (init sampleChapters (some staleProgress)).state
      [.goToChapter 0, .completeChapter]).userProgress.completedChapters =
        ["chapter-1700000000000", "chapter-1"] := by
  decide

/-- C23: a confirmed `resetProgress` returns, with the progress record zeroed
(score 0, totalQuestions 0, correctAnswers 0, no completed chapter, empty
chapterProgress), the position at chapter 0 and question 0, and the
local-storage entry removed; a declined confirmation returns the state
unchanged. -/
theorem resetProgress_spec (s : AppState) :
    (∃ s1 : AppState, resetProgress s true = Outcome.done s1 ∧
      s1.userProgress.score = 0 ∧
      s1.userProgress.totalQuestions = 0 ∧
      s1.userProgress.correctAnswers = 0 ∧
      s1.userProgress.completedChapters = [] ∧
      s1.userProgress.chapterProgress = [] ∧
      s1.currentChapterIndex = 0 ∧
      s1.currentQuestionIndex = 0 ∧
      s1.localStorage = none ∧
      s1.chapters = s.chapters) ∧
    resetProgress s false = Outcome.done s := by
  refine ⟨?_, rfl⟩
  unfold resetProgress
  simp only [if_true]
  unfold updateUI
  split
  · exact ⟨_, rfl, rfl, rfl, rfl, rfl, rfl, rfl, rfl, rfl, rfl⟩
  · split
    · rename_i hlen _ hc
      exfalso
      simp only [currentChapter] at hc
      rw [List.getElem?_eq_none_iff] at hc
      have h1 : s.chapters.length ≤ 0 := hc
      have h2 : ¬ s.chapters.length = 0 := hlen
      omega
    · rename_i chapter hc
      split
      · exact ⟨_, rfl, rfl, rfl, rfl, rfl, rfl, rfl, rfl, rfl, rfl⟩
      · unfold loadQuestion
        simp only [hc]
        split
        · exact ⟨_, rfl, rfl, rfl, rfl, rfl, rfl, rfl, rfl, rfl, rfl⟩
        · rename_i hq
          have hlt : 0 < chapter.questions.length := Nat.pos_of_ne_zero hq
          have hget : chapter.questions[0]? = some chapter.questions[0] :=
            List.getElem?_eq_getElem hlt
          simp only [hget]
          cases chapter.questions[0].type <;>
            exact ⟨_, rfl, rfl, rfl, rfl, rfl, rfl, rfl, rfl, rfl, rfl⟩

/-- C24, the code at the failing input: in a guest session (no user id set) the
first sample question is answered, `submitAnswer` calls `trackQuestionAttempt`,
and the trace of that call holds one write: the `updateDoc` of
`updateQuestionTypeStats` on the reference `userStats/undefined`.  Every guest
attempt, whatever the question type, grade and time, contains such a write.
`updateUserStats`, which tests the user id, makes no call for a guest, and
`trackChapterCompletion` makes no write for a guest. -/
theorem guest_attempt_issues_write :
    sampleState.currentUser = none ∧
    submitAnswerTracking sampleState emptyDom = some ("multiple-choice", true) ∧
    trackQuestionAttemptCalls none "multiple-choice" true 1000 =
      [StoreCall.updateDoc none
        ["questionTypes.multiple-choice.total", "questionTypes.multiple-choice.correct"]] ∧
    (∀ (questionType : String) (isCorrect : Bool) (timeSpent : Nat),
      (trackQuestionAttemptCalls none questionType isCorrect timeSpent).any
        (fun c => c.isWrite) = true) ∧
    (∀ field : StatsField, updateUserStatsCalls none field = []) ∧
    (∀ (accuracy : ℚ) (today : String),
      (trackChapterCompletionCalls none none accuracy today).any (fun c => c.isWrite) =
        false) := by
  refine ⟨by decide, by decide, by decide, ?_, fun _ => rfl, ?_⟩
  · intro questionType isCorrect timeSpent
    simp [trackQuestionAttemptCalls, updateQuestionTypeStatsCalls, StoreCall.isWrite]
  · intro accuracy today
    simp [trackChapterCompletionCalls, updateUserStatsCalls, updateStudyStreakCalls,
      StoreCall.isWrite]

set_option maxRecDepth 100000 in
/-- C25, the code at the failing input: the accuracy `completeChapter` hands to
`trackChapterCompletion` divides the session-wide `correctAnswers` by the number
of questions of the chapter, so it is 100 exactly when the total of correct
answers so far equals that number.  After a first chapter with two correct
answers, the only question of the second chapter is answered correctly and the
accuracy handed over is 300: `perfectChapters` is not incremented.  After a
first chapter with one correct and one wrong answer, the only question of the
second chapter is answered wrongly and the accuracy handed over is 100:
`perfectChapters` is incremented. -/
theorem perfect_chapter_uses_session_total :
    (∀ c q : Nat, chapterAccuracy c q = 100 ↔ (0 < q ∧ c = q)) ∧
    (run studentSampleState perfectRunEvents).ui.feedback =
      some ("Great job matching the words with their meanings!", true) ∧
    completeChapterTracking (run studentSampleState perfectRunEvents) =
      some ("chapter-2", 300) ∧
    (trackChapterCompletion signedInAnalytics "chapter-2" 300 "Wed Nov 04 2026"
      "Tue Nov 03 2026").store.map (fun d => d.perfectChapters) = some 0 ∧
    (run studentSampleState flawedRunEvents).ui.feedback =
      some ("Great job matching the words with their meanings!", false) ∧
    completeChapterTracking (run studentSampleState flawedRunEvents) =
      some ("chapter-2", 100) ∧
    (trackChapterCompletion signedInAnalytics "chapter-2" 100 "Wed Nov 04 2026"
      "Tue Nov 03 2026").store.map (fun d => d.perfectChapters) = some 1 := by
  have hp1 : currentChapter (run studentSampleState perfectRunEvents) = some sampleChapter2 := by
    decide
  have hp2 : (run studentSampleState perfectRunEvents).userProgress =
      { score := 85, totalQuestions := 3, correctAnswers := 3,
        completedChapters := ["chapter-1"], chapterProgress := [] } := by
    decide
  have hf1 : currentChapter (run studentSampleState flawedRunEvents) = some sampleChapter2 := by
    decide
  have hf2 : (run studentSampleState flawedRunEvents).userProgress =
      { score := 60, totalQuestions := 3, correctAnswers := 1,
        completedChapters := ["chapter-1"], chapterProgress := [] } := by
    decide
  refine ⟨chapterAccuracy_eq_100, by decide, ?_, ?_, by decide, ?_, ?_⟩
  · rw [completeChapterTracking_eq _ sampleChapter2 hp1 (by rw [hp2]; decide), hp2]
    have : chapterAccuracy 3 sampleChapter2.questions.length = 300 := by
      show chapterAccuracy 3 1 = 300
      unfold chapterAccuracy
      norm_num
    simp only [this]
    rfl
  · rw [trackChapterCompletion_perfectChapters signedInAnalytics "u1" zeroStats _ _ _ _ rfl rfl]
    norm_num
    rfl
  · rw [completeChapterTracking_eq _ sampleChapter2 hf1 (by rw [hf2]; decide), hf2]
    have : chapterAccuracy 1 sampleChapter2.questions.length = 100 := by
      show chapterAccuracy 1 1 = 100
      unfold chapterAccuracy
      norm_num
    simp only [this]
    rfl
  · rw [trackChapterCompletion_perfectChapters signedInAnalytics "u1" zeroStats _ _ _ _ rfl rfl]
    norm_num
    rfl

/-- C30: the study streak update, for a signed-in user whose document exists.
When `lastStudyDate` is today the document is left as it is; when it is the
previous calendar day `studyStreak` becomes the previous streak plus 1 and
`lastStudyDate` today; otherwise `studyStreak` becomes 1 and `lastStudyDate`
today; no other field changes.  When there is no document nothing is written.
(A document of the model always carries `studyStreak`, on which `|| 0` changes
nothing.) -/
theorem updateStudyStreak_spec (a : Analytics) (userId : String) (data : Stats)
    (today yesterday : String) (hu : a.userId = some userId) (hs : a.store = some data) :
    (data.lastStudyDate = some today → updateStudyStreak a today yesterday = a) ∧
    (data.lastStudyDate ≠ some today → data.lastStudyDate = some yesterday →
      ∃ doc : Stats, (updateStudyStreak a today yesterday).store = some doc ∧
        doc.studyStreak = data.studyStreak + 1 ∧ doc.lastStudyDate = some today ∧
        { doc with studyStreak := data.studyStreak, lastStudyDate := data.lastStudyDate } =
          data) ∧
    (data.lastStudyDate ≠ some today → data.lastStudyDate ≠ some yesterday →
      ∃ doc : Stats, (updateStudyStreak a today yesterday).store = some doc ∧
        doc.studyStreak = 1 ∧ doc.lastStudyDate = some today ∧
        { doc with studyStreak := data.studyStreak, lastStudyDate := data.lastStudyDate } =
          data) ∧
    (∀ b : Analytics, b.store = none → updateStudyStreak b today yesterday = b) ∧
    (∀ (id : Option String), (updateStudyStreakCalls id none today).any (fun c => c.isWrite) =
      false) := by
  refine ⟨?_, ?_, ?_, ?_, ?_⟩
  · intro h
    unfold updateStudyStreak
    simp only [hu, hs, h, ne_eq, not_true_eq_false, if_false]
  · intro h1 h2
    unfold updateStudyStreak
    simp only [hu, hs]
    rw [if_pos h1, if_pos h2]
    exact ⟨_, rfl, rfl, rfl, rfl⟩
  · intro h1 h2
    unfold updateStudyStreak
    simp only [hu, hs]
    rw [if_pos h1, if_neg h2]
    exact ⟨_, rfl, rfl, rfl, rfl⟩
  · intro b hb
    unfold updateStudyStreak
    cases hbu : b.userId with
    | none => rfl
    | some u => simp only [hb]
  · intro id
    rfl

theorem updateStudyStreak_spec_witness :
    ({ signedInAnalytics with
        store := some { zeroStats with studyStreak := 3,
                                        lastStudyDate := some "Tue Nov 03 2026" } } :
      Analytics).userId = some "u1" ∧
    ∃ doc : Stats,
      (updateStudyStreak
        { signedInAnalytics with
          store := some { zeroStats with studyStreak := 3,
                                          lastStudyDate := some "Tue Nov 03 2026" } }
        "Wed Nov 04 2026" "Tue Nov 03 2026").store = some doc ∧
      doc.studyStreak = 3 + 1 ∧ doc.lastStudyDate = some "Wed Nov 04 2026" :=
  ⟨rfl,
    let ⟨doc, h1, h2, h3, _⟩ :=
      (updateStudyStreak_spec
        { signedInAnalytics with
          store := some { zeroStats with studyStreak := 3,
                                          lastStudyDate := some "Tue Nov 03 2026" } }
        "u1"
        { zeroStats with studyStreak := 3, lastStudyDate := some "Tue Nov 03 2026" }
        "Wed Nov 04 2026" "Tue Nov 03 2026" rfl rfl).2.1 (by decide) rfl
    ⟨doc, h1, h2, h3⟩⟩

/-- C26: `batchUpload` validates every chapter before it uploads any.  If
`validateChapter` fails for at least one chapter of the list, `batchUpload`
throws the error of the first failing chapter together with its one-based
position and issues no write; if every chapter validates, it throws nothing and
writes every chapter, in list order, under its id. -/
theorem batchUpload_validates_first (chapters : List UploadChapter) :
    ((∃ c, c ∈ chapters ∧ ∃ e, validateChapter c = Except.error e) →
      ∃ i c e, chapters.get? i = some c ∧ validateChapter c = Except.error e ∧
        (∀ j c', j < i → chapters.get? j = some c' → ∃ b, validateChapter c' = Except.ok b) ∧
        (batchUpload chapters).thrown = some { position := i + 1, error := e } ∧
        (batchUpload chapters).writes = []) ∧
    ((∀ c, c ∈ chapters → ∃ b, validateChapter c = Except.ok b) →
      (batchUpload chapters).thrown = none ∧
      (batchUpload chapters).writes = chapters.map (fun c => (c.id, c))) := by
  refine ⟨?_, ?_⟩
  · rintro ⟨c, hc, e, he⟩
    cases hv : validateAll chapters 0 with
    | none =>
      exfalso
      obtain ⟨b, hb⟩ := (validateAll_none chapters 0).1 hv c hc
      rw [he] at hb
      cases hb
    | some err =>
      obtain ⟨i, x, hx, hpos, herr, hbefore⟩ := validateAll_some chapters 0 err hv
      refine ⟨i, x, err.error, hx, herr, hbefore, ?_, ?_⟩
      · unfold batchUpload
        simp only [hv]
        cases err with
        | mk position error =>
          simp only at hpos
          simp only [Option.some.injEq, BatchError.mk.injEq, and_true]
          omega
      · unfold batchUpload
        simp only [hv]
  · intro h
    have hv := (validateAll_none chapters 0).2 h
    unfold batchUpload
    simp only [hv]
    exact ⟨trivial, trivial⟩

theorem batchUpload_validates_first_witness :
    (∃ c, c ∈ [greetingChapter, greetingFirstChapter] ∧
      ∃ e, validateChapter c = Except.error e) ∧
    ∃ i c e, [greetingChapter, greetingFirstChapter].get? i = some c ∧
      validateChapter c = Except.error e ∧
      (batchUpload [greetingChapter, greetingFirstChapter]).thrown =
        some { position := i + 1, error := e } ∧
      (batchUpload [greetingChapter, greetingFirstChapter]).writes = [] :=
  ⟨⟨greetingFirstChapter, by decide, _, rfl⟩,
    let ⟨i, c, e, h1, h2, _, h4, h5⟩ :=
      (batchUpload_validates_first [greetingChapter, greetingFirstChapter]).1
        ⟨greetingFirstChapter, by decide, _, rfl⟩
    ⟨i, c, e, h1, h2, h4, h5⟩⟩

/-- C27, the code at the failing input: a chapter with every required field and
one multiple-choice question that has a type, a text, options, feedback and the
correct option index 0 is rejected with `Question 1 is missing required
fields`, because the test `!question.correct` is true for the number 0; so is
every question whose `correct` is 0.  The same chapter with the correct option
at index 2 validates. -/
theorem validateChapter_rejects_index_zero :
    validateChapter greetingFirstChapter =
      Except.error (ValidationError.questionMissingFields 1) ∧
    (ValidationError.questionMissingFields 1).message =
      "Question 1 is missing required fields" ∧
    (∀ (type question feedback : Option String) (options : Option (List String))
      (rest : List UploadQuestion) (index : Nat),
      validateQuestions
        ({ type := type, question := question, correct := some (UploadCorrect.index 0),
           feedback := feedback, options := options } :: rest) index =
        some (ValidationError.questionMissingFields (index + 1))) ∧
    validateChapter greetingChapter = Except.ok true := by
  refine ⟨rfl, by decide, ?_, rfl⟩
  intro type question feedback options rest index
  simp [validateQuestions, truthyCorrect]

/-- C28: certificate template selection.  With requested type `auto`,
`determineCertificateType` returns `mastery` iff the accuracy is at least 95,
at least 5 chapters are completed and at least 5 achievements are earned;
`excellence` iff that fails and the accuracy is at least 85 with at least 3
chapters and 3 achievements; `completion` iff both fail.  Any other requested
type is returned unchanged.  The accuracy is `100 * correctAnswers /
totalQuestions` of the stats document, and 0 when `totalQuestions` is 0 or
there is no stats document; the achievements earned are the entries of the
`achievements` list of the stats document, none when there is no document; the
chapters completed are the entries of `completedChapters` of the progress
document.  On the fields of the documents: `mastery` iff there is a stats
document with `totalQuestions > 0`, `95 * totalQuestions ≤ 100 *
correctAnswers`, at least 5 entries in `achievements`, and at least 5 entries
in `completedChapters`; likewise for `excellence` with 85, 3 and 3. -/
theorem determineCertificateType_spec (progressData : UserProgress)
    (statsData : Option Stats) :
    (determineCertificateType progressData statsData "auto" = "mastery" ↔
      (certificateAccuracy statsData ≥ 95 ∧ progressData.completedChapters.length ≥ 5 ∧
        achievementCount statsData ≥ 5)) ∧
    (determineCertificateType progressData statsData "auto" = "excellence" ↔
      (¬ (certificateAccuracy statsData ≥ 95 ∧ progressData.completedChapters.length ≥ 5 ∧
          achievementCount statsData ≥ 5) ∧
        (certificateAccuracy statsData ≥ 85 ∧ progressData.completedChapters.length ≥ 3 ∧
          achievementCount statsData ≥ 3))) ∧
    (determineCertificateType progressData statsData "auto" = "completion" ↔
      (¬ (certificateAccuracy statsData ≥ 95 ∧ progressData.completedChapters.length ≥ 5 ∧
          achievementCount statsData ≥ 5) ∧
        ¬ (certificateAccuracy statsData ≥ 85 ∧ progressData.completedChapters.length ≥ 3 ∧
          achievementCount statsData ≥ 3))) ∧
    (∀ requestedType : String, requestedType ≠ "auto" →
      determineCertificateType progressData statsData requestedType = requestedType) ∧
    (∀ stats : Stats, 0 < stats.totalQuestions →
      certificateAccuracy (some stats) =
        100 * (stats.correctAnswers : ℚ) / (stats.totalQuestions : ℚ)) ∧
    (∀ stats : Stats, stats.totalQuestions = 0 → certificateAccuracy (some stats) = 0) ∧
    certificateAccuracy none = 0 ∧
    (∀ (stats : Stats) (k : Nat), 0 < stats.totalQuestions →
      (certificateAccuracy (some stats) ≥ (k : ℚ) ↔
        k * stats.totalQuestions ≤ 100 * stats.correctAnswers)) ∧
    (∀ stats : Stats, achievementCount (some stats) = stats.achievements.length) ∧
    achievementCount none = 0 ∧
    (determineCertificateType progressData statsData "auto" = "mastery" ↔
      ∃ stats, statsData = some stats ∧ 0 < stats.totalQuestions ∧
        95 * stats.totalQuestions ≤ 100 * stats.correctAnswers ∧
        5 ≤ progressData.completedChapters.length ∧ 5 ≤ stats.achievements.length) ∧
    (determineCertificateType progressData statsData "auto" = "excellence" ↔
      (¬ ∃ stats, statsData = some stats ∧ 0 < stats.totalQuestions ∧
        95 * stats.totalQuestions ≤ 100 * stats.correctAnswers ∧
        5 ≤ progressData.completedChapters.length ∧ 5 ≤ stats.achievements.length) ∧
      ∃ stats, statsData = some stats ∧ 0 < stats.totalQuestions ∧
        85 * stats.totalQuestions ≤ 100 * stats.correctAnswers ∧
        3 ≤ progressData.completedChapters.length ∧ 3 ≤ stats.achievements.length) ∧
    (statsData = none →
      determineCertificateType progressData statsData "auto" = "completion") := by
  have hme : ("mastery" : String) ≠ "excellence" := by decide
  have hmc : ("mastery" : String) ≠ "completion" := by decide
  have hec : ("excellence" : String) ≠ "completion" := by decide
  have t95 : (certificateAccuracy statsData ≥ 95 ∧
      progressData.completedChapters.length ≥ 5 ∧ achievementCount statsData ≥ 5) ↔
      ∃ stats, statsData = some stats ∧ 0 < stats.totalQuestions ∧
        95 * stats.totalQuestions ≤ 100 * stats.correctAnswers ∧
        5 ≤ progressData.completedChapters.length ∧ 5 ≤ stats.achievements.length := by
    have h := certificate_threshold statsData progressData.completedChapters.length 95 5
      (by norm_num)
    simpa using h
  have t85 : (certificateAccuracy statsData ≥ 85 ∧
      progressData.completedChapters.length ≥ 3 ∧ achievementCount statsData ≥ 3) ↔
      ∃ stats, statsData = some stats ∧ 0 < stats.totalQuestions ∧
        85 * stats.totalQuestions ≤ 100 * stats.correctAnswers ∧
        3 ≤ progressData.completedChapters.length ∧ 3 ≤ stats.achievements.length := by
    have h := certificate_threshold statsData progressData.completedChapters.length 85 3
      (by norm_num)
    simpa using h
  have m1 : determineCertificateType progressData statsData "auto" = "mastery" ↔
      (certificateAccuracy statsData ≥ 95 ∧ progressData.completedChapters.length ≥ 5 ∧
        achievementCount statsData ≥ 5) := by
    rw [determineCertificateType_auto]
    by_cases hm : certificateAccuracy statsData ≥ 95 ∧
        progressData.completedChapters.length ≥ 5 ∧ achievementCount statsData ≥ 5
    · rw [if_pos hm]
      exact ⟨fun _ => hm, fun _ => rfl⟩
    · rw [if_neg hm]
      constructor
      · intro h
        exfalso
        split at h
        · exact hme h.symm
        · exact hmc h.symm
      · intro h
        exact absurd h hm
  have e1 : determineCertificateType progressData statsData "auto" = "excellence" ↔
      (¬ (certificateAccuracy statsData ≥ 95 ∧ progressData.completedChapters.length ≥ 5 ∧
          achievementCount statsData ≥ 5) ∧
        (certificateAccuracy statsData ≥ 85 ∧ progressData.completedChapters.length ≥ 3 ∧
          achievementCount statsData ≥ 3)) := by
    rw [determineCertificateType_auto]
    by_cases hm : certificateAccuracy statsData ≥ 95 ∧
        progressData.completedChapters.length ≥ 5 ∧ achievementCount statsData ≥ 5
    · rw [if_pos hm]
      constructor
      · intro h
        exact absurd h hme
      · rintro ⟨h, -⟩
        exact absurd hm h
    · rw [if_neg hm]
      by_cases he : certificateAccuracy statsData ≥ 85 ∧
          progressData.completedChapters.length ≥ 3 ∧ achievementCount statsData ≥ 3
      · rw [if_pos he]
        exact ⟨fun _ => ⟨hm, he⟩, fun _ => rfl⟩
      · rw [if_neg he]
        constructor
        · intro h
          exact absurd h.symm hec
        · rintro ⟨-, h⟩
          exact absurd h he
  have c1 : determineCertificateType progressData statsData "auto" = "completion" ↔
      (¬ (certificateAccuracy statsData ≥ 95 ∧ progressData.completedChapters.length ≥ 5 ∧
          achievementCount statsData ≥ 5) ∧
        ¬ (certificateAccuracy statsData ≥ 85 ∧ progressData.completedChapters.length ≥ 3 ∧
          achievementCount statsData ≥ 3)) := by
    rw [determineCertificateType_auto]
    by_cases hm : certificateAccuracy statsData ≥ 95 ∧
        progressData.completedChapters.length ≥ 5 ∧ achievementCount statsData ≥ 5
    · rw [if_pos hm]
      constructor
      · intro h
        exact absurd h hmc
      · rintro ⟨h, -⟩
        exact absurd hm h
    · rw [if_neg hm]
      by_cases he : certificateAccuracy statsData ≥ 85 ∧
          progressData.completedChapters.length ≥ 3 ∧ achievementCount statsData ≥ 3
      · rw [if_pos he]
        constructor
        · intro h
          exact absurd h hec
        · rintro ⟨-, h⟩
          exact absurd he h
      · rw [if_neg he]
        exact ⟨fun _ => ⟨hm, he⟩, fun _ => rfl⟩
  refine ⟨m1, e1, c1, determineCertificateType_other progressData statsData, ?_, ?_, rfl,
    certificateAccuracy_ge, fun _ => rfl, rfl, ?_, ?_, ?_⟩
  · intro stats h
    unfold certificateAccuracy
    simp only [gt_iff_lt, h, if_true]
    ring
  · intro stats h
    unfold certificateAccuracy
    simp only [h, gt_iff_lt, Nat.lt_irrefl, if_false]
  · rw [m1, t95]
  · rw [e1, t95, t85]
  · intro hn
    rw [c1, t95, t85, hn]
    refine ⟨?_, ?_⟩ <;> rintro ⟨stats, h, -⟩ <;> cases h

theorem determineCertificateType_spec_witness :
    ("completion" : String) ≠ "auto" ∧
    determineCertificateType topProgress (some topStats) "completion" = "completion" ∧
    0 < topStats.totalQuestions ∧
    95 * topStats.totalQuestions ≤ 100 * topStats.correctAnswers ∧
    5 ≤ topProgress.completedChapters.length ∧ 5 ≤ topStats.achievements.length ∧
    determineCertificateType topProgress (some topStats) "auto" = "mastery" ∧
    determineCertificateType topProgress none "auto" = "completion" :=
  ⟨by decide,
    (determineCertificateType_spec topProgress (some topStats)).2.2.2.1 "completion"
      (by decide),
    by decide, by decide, by decide, by decide,
    (determineCertificateType_spec topProgress (some topStats)).2.2.2.2.2.2.2.2.2.2.1.2
      ⟨topStats, rfl, by decide, by decide, by decide, by decide⟩,
    (determineCertificateType_spec topProgress none).2.2.2.2.2.2.2.2.2.2.2.2 rfl⟩

/-- C29, the code at the failing input: the second parameter of
`generateCertificate` defaults to `completion`, not to `auto`, so when the
caller leaves the type out `determineCertificateType` returns `completion`
whatever the performance.  A user with 40 correct answers out of 40 (accuracy
100), five completed chapters and five achievements, who gets `mastery` when
the type `auto` is passed, receives `completion`. -/
theorem generateCertificate_default_is_completion :
    certificateAccuracy (some topStats) = 100 ∧
    topProgress.completedChapters.length = 5 ∧
    achievementCount (some topStats) = 5 ∧
    determineCertificateType topProgress (some topStats) "auto" = "mastery" ∧
    (∃ c : CertificateData,
      generateCertificate "u1" true (some topProgress) (some topStats) none = Except.ok c ∧
      c.type = "completion") ∧
    (∃ c : CertificateData,
      generateCertificate "u1" true (some topProgress) (some topStats) (some "auto") =
        Except.ok c ∧
      c.type = "mastery") ∧
    (∀ (userId : String) (progressData : UserProgress) (statsDoc : Option Stats),
      ∃ c : CertificateData,
        generateCertificate userId true (some progressData) statsDoc none = Except.ok c ∧
        c.type = "completion") := by
  have hacc : certificateAccuracy (some topStats) = 100 := by
    unfold certificateAccuracy topStats zeroStats
    norm_num
  have hm : determineCertificateType topProgress (some topStats) "auto" = "mastery" :=
    determineCertificateType_top
  have hdef : ∀ (progressData : UserProgress) (statsDoc : Option Stats),
      determineCertificateType progressData statsDoc "completion" = "completion" :=
    fun progressData statsDoc =>
      determineCertificateType_other progressData statsDoc "completion" (by decide)
  refine ⟨hacc, rfl, rfl, hm, ?_, ?_, ?_⟩
  · exact ⟨_, generateCertificate_ok "u1" topProgress (some topStats) none "completion"
      (hdef topProgress (some topStats)) (by decide), rfl⟩
  · exact ⟨_, generateCertificate_ok "u1" topProgress (some topStats) (some "auto") "mastery"
      hm (by decide), rfl⟩
  · intro userId progressData statsDoc
    exact ⟨_, generateCertificate_ok userId progressData statsDoc none "completion"
      (hdef progressData statsDoc) (by decide), rfl⟩

end LearningApp
